import Mathlib

/-!
RFS: a RAM-disk file system under a small VFS layer

A shallow embedding of `kernel/rfs.c`, `kernel/vfs.c` and `kernel/file.c`.

* Memory is byte addressed: a `Mem` maps an offset from a base pointer to the
  byte stored there.  The shared I/O buffer, every device block, the free map
  and every user buffer is a `Mem`; a C `int` field is four little-endian
  bytes (`rd32`/`wr32`).
* C loops are structural recursions on the number of remaining iterations.
* `panic` is the error `Fatal.panic`; a dereference of a null or
  uninitialised pointer is `Fatal.fault`.
* A pointer to an object with a single owner is replaced by the object.
-/

namespace RFS

/-! ## Byte-addressed memory and the C string functions -/

/-- Memory seen from a base pointer: offset to byte. -/
abbrev Mem := Nat → Nat

/-- Load of a 32-bit little-endian integer at byte offset `off`. -/
def rd32 (m : Mem) (off : Nat) : Nat :=
  m off % 256 + 256 * (m (off + 1) % 256) + 65536 * (m (off + 2) % 256)
    + 16777216 * (m (off + 3) % 256)

/-- Store of a 32-bit little-endian integer at byte offset `off` (the value is
truncated to 32 bits). -/
def wr32 (m : Mem) (off v : Nat) : Mem := fun i =>
  if i = off then v % 256
  else if i = off + 1 then v / 256 % 256
  else if i = off + 2 then v / 65536 % 256
  else if i = off + 3 then v / 16777216 % 256
  else m i

/-- Conversion of an unsigned value to `int`: the low 32 bits, read as a signed
number. -/
def int32 (v : Nat) : Int :=
  if v % 4294967296 < 2147483648 then (v % 4294967296 : Nat)
  else ((v % 4294967296 : Nat) : Int) - 4294967296

/-- Conversion of an `int` field (its 32-bit pattern) to `uint64`. -/
def int_to_uint64 (v : Nat) : Nat :=
  if v < 2147483648 then v else v + (18446744073709551616 - 4294967296)

/-- Pointer arithmetic `p + k` on a byte pointer. -/
def ptr_add (p : Mem) (k : Nat) : Mem := fun i => p (k + i)

/-- C `memcpy(dst, src, n)`. -/
def memcpy (dst src : Mem) (n : Nat) : Mem := fun i => if i < n then src i else dst i

/-- C `memcpy(dst + off, src, n)`, seen from `dst`. -/
def memcpy_at (dst : Mem) (off : Nat) (src : Mem) (n : Nat) : Mem := fun i =>
  if off ≤ i ∧ i < off + n then src (i - off) else dst i

/-- C `memset(dst, v, n)`. -/
def memset (dst : Mem) (v n : Nat) : Mem := fun i => if i < n then v else dst i

/-- Bound on the length of the byte strings that the string functions scan. -/
def STR_MAX : Nat := 4294967296

/-- Loop of `strlen`: the first offset at or after `i` holding a NUL byte. -/
def strlenAux (s : Mem) : Nat → Nat → Nat
  | 0, i => i
  | fuel + 1, i => if s i = 0 then i else strlenAux s fuel (i + 1)

/-- C `strlen`. -/
def strlen (s : Mem) : Nat := strlenAux s STR_MAX 0

/-- C `strcpy(dst, src)`: copies the bytes of `src` up to and including its
terminator. -/
def strcpy (dst src : Mem) : Mem := fun i => if i ≤ strlen src then src i else dst i

/-- C `strcpy(dst + off, src)`, seen from `dst`. -/
def strcpy_at (dst : Mem) (off : Nat) (src : Mem) : Mem := fun i =>
  if off ≤ i ∧ i ≤ off + strlen src then src (i - off) else dst i

/-- Loop of `strcmp`. -/
def strcmpAux (a b : Mem) : Nat → Nat → Int
  | 0, _ => 0
  | fuel + 1, i =>
    if a i ≠ b i then (a i : Int) - (b i : Int)
    else if a i = 0 then 0
    else strcmpAux a b fuel (i + 1)

/-- C `strcmp`. -/
def strcmp (a b : Mem) : Int := strcmpAux a b STR_MAX 0

/-- The bytes of a C string literal: the characters, a NUL, then zeros. -/
def cstr (s : List Nat) : Mem := fun i => s.getD i 0

/-! ## Outcomes -/

/-- The two ways a kernel call ends without returning. -/
inductive Fatal where
  | panic (msg : String)
  | fault (what : String)
  deriving DecidableEq, Repr

/-- Result of a kernel call that may be fatal. -/
abbrev K := Except Fatal

/-- Kernel `panic`. -/
def panic {α : Type} (msg : String) : K α := Except.error (Fatal.panic msg)

/-- A dereference of a null or uninitialised pointer. -/
def fault {α : Type} (what : String) : K α := Except.error (Fatal.fault what)

/-- Whether a call ended in a panic. -/
def isPanic {α : Type} : K α → Bool
  | Except.error (Fatal.panic _) => true
  | _ => false

/-! ## Constants of `rfs.h`, `vfs.h` and `file.h`

These headers are not part of the sources under study.  The block numbers and
counts are those of the layout comment above `rfs_do_mount`
(`superblock 1 | inodes 10 | bitmap 1 | free blocks 100`). -/

/-- Modelled from the spec: the block size; the I/O buffer and the free map are
single pages (`alloc_page`) transferred with this length, so it is one page. -/
def RFS_BLKSIZE : Nat := 4096

/-- Number of inode blocks (layout comment of `rfs_do_mount`: 10). -/
def RFS_MAX_INODE_NUM : Nat := 10

/-- Number of direct block addresses of a dinode (layout comment: 100 free
blocks for 10 inodes). -/
def RFS_NDIRECT : Nat := 10

/-- Block number of the superblock (layout comment: first block). -/
def RFS_BLKN_SUPER : Nat := 0

/-- First block of the inode region (layout comment: after the superblock). -/
def RFS_BLKN_INODE : Nat := 1

/-- Block number of the bitmap (layout comment: after the 10 inode blocks). -/
def RFS_BLKN_BITMAP : Nat := 11

/-- First block of the data region (layout comment: after the bitmap). -/
def RFS_BLKN_FREE : Nat := 12

/-- Modelled from the spec: the magic number of the superblock; `rfs.h` is
missing and no result depends on the value. -/
def RFS_MAGIC : Nat := 0xBEAF

/-- Modelled from the spec: `sizeof(struct rfs_direntry)`, an inode number
(4 bytes) followed by a fixed-length name of 28 bytes. -/
def sizeof_rfs_direntry : Nat := 32

/-- Modelled from the spec: inode type tag of an unused slot. -/
def T_FREE : Nat := 0

/-- Modelled from the spec: inode type tag of a directory. -/
def T_DIR : Nat := 1

/-- Modelled from the spec: inode type tag of a regular file. -/
def T_FILE : Nat := 2

/-- Open flag of `util/types.h`. -/
def O_RDONLY : Nat := 0x000

/-- Open flag of `util/types.h`. -/
def O_WRONLY : Nat := 0x001

/-- Open flag of `util/types.h`. -/
def O_RDWR : Nat := 0x002

/-- Open flag of `util/types.h`. -/
def O_CREATE : Nat := 0x200

/-- Mask of the access mode: the low two bits of the flags (comment at both
uses in `vfs_open` and `do_open`). -/
def MASK_FILEMODE : Nat := 0x003

/-! ## Data model -/

/-- Superblock `struct rfs_superblock`. -/
structure rfs_superblock where
  magic : Nat
  size : Nat
  nblocks : Nat
  ninodes : Nat

/-- The bytes of a superblock at `&super`: the four fields, then whatever
follows the struct in its page (`rest`). -/
def rfs_superblock.bytes (sb : rfs_superblock) (rest : Mem) : Mem :=
  wr32 (wr32 (wr32 (wr32 rest 0 sb.magic) 4 sb.size) 8 sb.nblocks) 12 sb.ninodes

/-- In-memory copy of a disk inode, `struct rfs_dinode`: fields `size`, `type`,
`nlinks`, `blocks` and the array `addrs[RFS_NDIRECT]`.  Indices at or above
`RFS_NDIRECT` stand for the memory that follows the array. -/
structure rfs_dinode where
  size : Nat
  type : Nat
  nlinks : Nat
  blocks : Nat
  addrs : Nat → Nat

/-- Field `size` of the `struct rfs_dinode` at the start of a block. -/
def din_size (b : Mem) : Nat := rd32 b 0

/-- Field `type` of the `struct rfs_dinode` at the start of a block. -/
def din_type (b : Mem) : Nat := rd32 b 4

/-- Field `nlinks` of the `struct rfs_dinode` at the start of a block. -/
def din_nlinks (b : Mem) : Nat := rd32 b 8

/-- Field `blocks` of the `struct rfs_dinode` at the start of a block. -/
def din_blocks (b : Mem) : Nat := rd32 b 12

/-- Field `addrs[i]` of the `struct rfs_dinode` at the start of a block. -/
def din_addrs (b : Mem) (i : Nat) : Nat := rd32 b (16 + 4 * i)

/-- Field `inum` of the `struct rfs_direntry` at byte offset `de`. -/
def de_inum (b : Mem) (de : Nat) : Nat := rd32 b de

/-- Pointer to the field `name` of the `struct rfs_direntry` at offset `de`. -/
def de_name (b : Mem) (de : Nat) : Mem := ptr_add b (de + 4)

/-- The RAM disk: block number to block content. -/
structure device where
  blocks : Nat → Mem

/-- RFS state, `struct rfs_fs`: superblock, device, free map (an array of
`bool`, which `util/types.h` defines as `int`), dirty flag and the one-block
I/O buffer. -/
structure rfs_fs where
  super : rfs_superblock
  dev : device
  freemap : Mem
  dirty : Nat
  buffer : Mem

/-- Operation table bound to an inode. -/
inductive inode_ops where
  | rfs_node_dirops
  | rfs_node_fileops
  deriving DecidableEq, Repr

/-- In-memory inode, `struct inode`.  The pointer `in_fs` is the index of the
device-table entry on which the file system is mounted. -/
structure inode where
  in_info : rfs_dinode
  inum : Nat
  ref : Nat
  in_fs : Nat
  in_ops : inode_ops

/-! ## `rfs.c` -/

/-- Source `rfs_r1block`: device block `blkno` to the I/O buffer; the RAM disk
transfer never fails. -/
def rfs_r1block (rfs : rfs_fs) (blkno : Nat) : Int × rfs_fs :=
  (0, { rfs with buffer := rfs.dev.blocks blkno })

/-- Source `rfs_w1block`: the I/O buffer to device block `blkno`. -/
def rfs_w1block (rfs : rfs_fs) (blkno : Nat) : Int × rfs_fs :=
  (0, { rfs with dev := ⟨fun b => if b = blkno then rfs.buffer else rfs.dev.blocks b⟩ })

/-- Source `rfs_get_ops`. -/
def rfs_get_ops (type : Nat) : K inode_ops :=
  if type = T_DIR then pure inode_ops.rfs_node_dirops
  else if type = T_FILE then pure inode_ops.rfs_node_fileops
  else panic "RFS: invalid file type"

/-- Source `rfs_create_inode`: in-memory inode from the dinode at `din`; `fs`
is the pointer stored in `in_fs`. -/
def rfs_create_inode (fs : Nat) (din : Mem) (ino : Nat) : K (Int × inode) := do
  let dnode : rfs_dinode :=
    { size := din_size din, type := din_type din, nlinks := din_nlinks din,
      blocks := din_blocks din,
      addrs := fun i => if i < RFS_NDIRECT then din_addrs din i else 0 }
  let ops ← rfs_get_ops dnode.type
  pure (0, { in_info := dnode, inum := ino, ref := 0, in_fs := fs, in_ops := ops })

/-- Source `rfs_load_dinode`: it reads block `RFS_BLKN_INODE` whatever `ino`
is. -/
def rfs_load_dinode (fs : Nat) (prfs : rfs_fs) (ino : Nat) : K (Int × inode × rfs_fs) := do
  let (ret, prfs) := rfs_r1block prfs RFS_BLKN_INODE
  if ret ≠ 0 then panic "RFS: failed to read inode!" else
  let (ret, node) ← rfs_create_inode fs prfs.buffer ino
  if ret ≠ 0 then panic "RFS: failed to create inode from dinode!" else
  pure (0, node, prfs)

/-- Source `rfs_get_root`; `fs` is the pointer to the file system. -/
def rfs_get_root (fs : Nat) (prfs : rfs_fs) : K (inode × rfs_fs) := do
  let (ret, node, prfs) ← rfs_load_dinode fs prfs RFS_BLKN_INODE
  if ret ≠ 0 then panic "RFS: failed to load root inode!" else
  pure (node, prfs)

/-- Source `rfs_create_dirblock`: a directory entry at the start of the
buffer. -/
def rfs_create_dirblock (prfs : rfs_fs) (ino : Nat) (name : Mem) : Int × rfs_fs :=
  (0, { prfs with buffer := strcpy_at (wr32 prfs.buffer 0 ino) 4 name })

/-- Loop of `rfs_do_mount` writing the free inode blocks `RFS_BLKN_INODE + i`
for `i` from `i` up, `n` of them. -/
def rfs_do_mount_inodes : Nat → Nat → rfs_fs → K rfs_fs
  | 0, _, prfs => pure prfs
  | n + 1, i, prfs =>
    let (ret, prfs) := rfs_w1block prfs (RFS_BLKN_INODE + i)
    if ret ≠ 0 then panic "RFS: failed to write inodes!"
    else rfs_do_mount_inodes n (i + 1) prfs

/-- Source `rfs_do_mount`.  `pages k` is the content of the `k`-th page handed
out by `alloc_page`: the `struct fs`, the I/O buffer, the free map. -/
def rfs_do_mount (dev : device) (pages : Nat → Mem) : K (Int × rfs_fs) := do
  let super : rfs_superblock :=
    { magic := RFS_MAGIC,
      size := 1 + RFS_MAX_INODE_NUM + 1 + RFS_MAX_INODE_NUM * RFS_NDIRECT,
      nblocks := RFS_MAX_INODE_NUM * RFS_NDIRECT,
      ninodes := RFS_MAX_INODE_NUM }
  let prfs : rfs_fs :=
    { super := super, dev := dev, freemap := pages 2, dirty := 0, buffer := pages 1 }
  -- write the superblock
  let prfs := { prfs with buffer := memcpy prfs.buffer (super.bytes (pages 0)) RFS_BLKSIZE }
  let (ret, prfs) := rfs_w1block prfs RFS_BLKN_SUPER
  if ret ≠ 0 then panic "RFS: failed to write superblock!" else
  -- build an empty bitmap and write it
  let prfs := { prfs with freemap := wr32 (memset prfs.freemap 0 RFS_BLKSIZE) 0 1 }
  let prfs := { prfs with buffer := memcpy prfs.buffer prfs.freemap RFS_BLKSIZE }
  let (ret, prfs) := rfs_w1block prfs RFS_BLKN_BITMAP
  if ret ≠ 0 then panic "RFS: failed to write bitmap!" else
  -- build the free inodes in the buffer and write them
  let prfs := { prfs with
    buffer := wr32 (wr32 (wr32 (wr32 prfs.buffer 0 0) 4 T_FREE) 8 0) 12 0 }
  let prfs ← rfs_do_mount_inodes (prfs.super.ninodes - 1) 1 prfs
  -- build the root directory inode and write it
  let prfs := { prfs with
    buffer := wr32 (wr32 (wr32 (wr32 (wr32 prfs.buffer 0 sizeof_rfs_direntry) 4 T_DIR) 8 1)
      12 1) 16 RFS_BLKN_FREE }
  let (ret, prfs) := rfs_w1block prfs RFS_BLKN_INODE
  if ret ≠ 0 then panic "RFS: failed to write root inode!" else
  -- write the root directory block
  let (_, prfs) := rfs_create_dirblock prfs RFS_BLKN_INODE (cstr [47])
  let (ret, prfs) := rfs_w1block prfs RFS_BLKN_FREE
  if ret ≠ 0 then panic "RFS: failed to write root inode!" else
  pure (0, prfs)

/-- Source `rfs_fstat`: the fields `st_size`, `st_mode`, `st_nlinks`,
`st_blocks` in that order. -/
def rfs_fstat (node : inode) : Int × (Nat × Nat × Nat × Nat) :=
  (0, (node.in_info.size, node.in_info.type, node.in_info.nlinks, node.in_info.blocks))

/-- Loop of `rfs_lookup` over the directory entries `i`, `i + 1`, ...: `n`
entries remain, `de` is the offset of the current entry in the buffer.  On a
match the source evaluates `de->inum` twice, before and after the block read
that loads the dinode into the same buffer. -/
def rfs_lookup_loop (fs : Nat) (dnode : rfs_dinode) (path : Mem) :
    Nat → Nat → Nat → rfs_fs → K (Int × Option inode × rfs_fs)
  | 0, _, _, prfs => pure (1, none, prfs)
  | n + 1, i, de, prfs =>
    let maxde := RFS_BLKSIZE / sizeof_rfs_direntry
    let prfs := if i % maxde = 0 then (rfs_r1block prfs (dnode.addrs (i / maxde))).2 else prfs
    let de := if i % maxde = 0 then 0 else de
    if strcmp (de_name prfs.buffer de) path = 0 then do
      let prfs := (rfs_r1block prfs (de_inum prfs.buffer de)).2
      -- `de` still points into the buffer, which now holds the dinode block:
      -- the second `de->inum` is read from that block
      let (_, node) ← rfs_create_inode fs prfs.buffer (de_inum prfs.buffer de)
      pure (0, some node, prfs)
    else rfs_lookup_loop fs dnode path n (i + 1) (de + sizeof_rfs_direntry) prfs

/-- Number of directory entries `dnode->size / sizeof(struct rfs_direntry)` as
the `int` that `rfs_lookup` stores: a negative `size` gives a negative count,
for which the loop body never runs. -/
def rfs_lookup_nde (dnode : rfs_dinode) : Nat :=
  if dnode.size < 2147483648 then dnode.size / sizeof_rfs_direntry else 0

/-- Source `rfs_lookup`: result 0 with the file inode, or 1. -/
def rfs_lookup (prfs : rfs_fs) (node : inode) (path : Mem) :
    K (Int × Option inode × rfs_fs) :=
  rfs_lookup_loop node.in_fs node.in_info path (rfs_lookup_nde node.in_info) 0 0 prfs

/-- Loop of `rfs_alloc_block` over the flags `i`, `i + 1`, ...: the free map
after the loop and the block number found, if any. -/
def rfs_alloc_block_loop (freemap : Mem) : Nat → Nat → Mem × Option Nat
  | 0, _ => (freemap, none)
  | n + 1, i =>
    if rd32 freemap (4 * i) = 0 then (wr32 freemap (4 * i) 1, some (RFS_BLKN_FREE + i))
    else rfs_alloc_block_loop freemap n (i + 1)

/-- Source `rfs_alloc_block`. -/
def rfs_alloc_block (rfs : rfs_fs) : K (Nat × rfs_fs) :=
  match rfs_alloc_block_loop rfs.freemap rfs.super.nblocks 0 with
  | (freemap, some freeblkno) => pure (freeblkno, { rfs with freemap := freemap })
  | (_, none) => panic "rfs_alloc_block: no free block!"

/-- Loop of `rfs_create` over the inode slots `i`, `i + 1`, ...: the last block
number read (`blkno`) and the state, whose buffer holds that block. -/
def rfs_create_scan : Nat → Nat → Nat × rfs_fs → Nat × rfs_fs
  | 0, _, s => s
  | n + 1, i, (_, rfs) =>
    let blkno := RFS_BLKN_INODE + i
    let rfs := (rfs_r1block rfs blkno).2
    if din_type rfs.buffer = T_FREE then (blkno, rfs)
    else rfs_create_scan n (i + 1) (blkno, rfs)

/-- Source `rfs_create`. -/
def rfs_create (rfs : rfs_fs) (dir : inode) (name : Mem) : K (Int × inode × rfs_fs) := do
  -- 1. find a free inode block
  let (blkno, rfs) := rfs_create_scan RFS_MAX_INODE_NUM 0 (0, rfs)
  let ino := blkno
  -- build a dinode for the file in the buffer
  let rfs := { rfs with buffer := wr32 (wr32 (wr32 (wr32 rfs.buffer 0 0) 4 T_FILE) 8 1) 12 1 }
  let (freeblkno, rfs) ← rfs_alloc_block rfs
  let rfs := { rfs with buffer := wr32 rfs.buffer 16 freeblkno }
  let rfs := (rfs_w1block rfs blkno).2
  let (ret, rino) ← rfs_create_inode dir.in_fs rfs.buffer ino
  if ret ≠ 0 then panic "rfs_create: failed to create inode from dinode!" else
  -- 2.1 the directory inode block on disk
  let rfs := (rfs_r1block rfs dir.inum).2
  let rfs := { rfs with buffer := wr32 rfs.buffer 0 (din_size rfs.buffer + sizeof_rfs_direntry) }
  let rfs := (rfs_w1block rfs dir.inum).2
  -- 2.2 the directory data block
  let din := dir.in_info
  let blkno := din.addrs (din.size / RFS_BLKSIZE)
  let rfs := (rfs_r1block rfs blkno).2
  let addr := din.size % RFS_BLKSIZE
  let rfs := { rfs with buffer := strcpy_at (wr32 rfs.buffer addr ino) (addr + 4) name }
  let rfs := (rfs_w1block rfs blkno).2
  pure (0, rino, rfs)

/-- Loop of `rfs_read` over the full blocks: iterations `0 .. n - 1`, each
copying one block to `buffer + i * RFS_BLKSIZE`. -/
def rfs_read_loop (din : rfs_dinode) : Nat → Mem × rfs_fs → Mem × rfs_fs
  | 0, s => s
  | n + 1, s =>
    let (buffer, rfs) := rfs_read_loop din n s
    let rfs := (rfs_r1block rfs (din.addrs n)).2
    (memcpy_at buffer (n * RFS_BLKSIZE) rfs.buffer RFS_BLKSIZE, rfs)

/-- Source `rfs_read`.  `stack` is the content of the uninitialised local
array `buffer[len+1]`. -/
def rfs_read (rfs : rfs_fs) (node : inode) (buf : Mem) (len : Nat) (stack : Mem) :
    Int × Mem × rfs_fs :=
  let din := node.in_info
  let len := if int_to_uint64 din.size < len then int_to_uint64 din.size else len
  let readtime : Int := int32 (len / RFS_BLKSIZE)
  let remain : Int := int32 (len % RFS_BLKSIZE)
  let readtime := if remain > 0 then readtime + 1 else readtime
  -- the full blocks: i = 0 .. readtime - 2
  let (buffer, rfs) := rfs_read_loop din (readtime - 1).toNat (stack, rfs)
  let i := (readtime - 1).toNat
  let offset := i * RFS_BLKSIZE
  -- the last block
  let rfs := (rfs_r1block rfs (din.addrs i)).2
  let buffer := memcpy_at buffer offset rfs.buffer remain.toNat
  let buffer : Mem := fun j => if j = len then 0 else buffer j
  (0, strcpy buf buffer, rfs)

/-- Loop of `rfs_write`: iterations `0 .. n - 1` of the `writetime` in all. -/
def rfs_write_loop (buf : Mem) (writetime remain : Int) :
    Nat → rfs_dinode × rfs_fs → K (rfs_dinode × rfs_fs)
  | 0, s => pure s
  | n + 1, s => do
    let (din, rfs) ← rfs_write_loop buf writetime remain n s
    let i := n
    let offset := i * RFS_BLKSIZE
    -- find a block
    let (din, rfs) ←
      if i = din.blocks then do
        let (blk, rfs) ← rfs_alloc_block rfs
        pure ({ din with addrs := fun j => if j = i then blk else din.addrs j,
                         blocks := (din.blocks + 1) % 4294967296 }, rfs)
      else pure (din, rfs)
    let rfs :=
      if (i : Int) = writetime - 1 then
        { rfs with buffer := memcpy rfs.buffer (ptr_add buf offset) RFS_BLKSIZE }
      else { rfs with buffer := memcpy rfs.buffer (ptr_add buf offset) remain.toNat }
    let rfs := (rfs_w1block rfs (din.addrs i)).2
    pure (din, rfs)

/-- Source `rfs_write`: the result, the inode as the call leaves it, and the
state. -/
def rfs_write (rfs : rfs_fs) (node : inode) (buf : Mem) (len : Nat) :
    K (Int × inode × rfs_fs) := do
  let din := { node.in_info with size := (strlen buf + 1) % 4294967296 }
  let writetime : Int := int32 (len / RFS_BLKSIZE)
  let remain : Int := int32 (len % RFS_BLKSIZE)
  let writetime := if remain > 0 then writetime + 1 else writetime
  let (din, rfs) ← rfs_write_loop buf writetime remain writetime.toNat (din, rfs)
  let nblocks := din.blocks
  -- write disk-inode (size, blocks)
  let rfs := (rfs_r1block rfs node.inum).2
  let rfs := { rfs with buffer := wr32 (wr32 rfs.buffer 0 (strlen buf + 1)) 12 nblocks }
  let rfs := (rfs_w1block rfs node.inum).2
  pure (0, { node with in_info := din }, rfs)

/-! ## `vfs.c` -/

/-- Entry of the device table, `struct vfs_dev_t`: device name, device and the
file system mounted on it (`none`: a null pointer). -/
structure vfs_dev_t where
  devname : Mem
  dev : device
  fs : Option rfs_fs

/-- Status of a file-table entry. -/
inductive fd_status where
  | FD_NONE
  | FD_HOST
  | FD_OPENED
  deriving DecidableEq, Repr

/-- Entry of the file table, `struct file`. -/
structure file where
  status : fd_status
  readable : Nat
  writable : Nat
  fd : Int
  ref : Nat
  off : Nat
  node : Option inode

/-- Per-process file table, `struct files_struct` (the unused `cwd` is left
out). -/
structure files_struct where
  ofile : Nat → file
  nfile : Nat

/-- Kernel state reached by the file calls: the device table `vdev_list`, the
file table of the current process, the host collaborators `host_open` and
`host_read`, and the content of uninitialised automatic storage: `stack 0` for
`buffer` of `do_read`, `stack 1` for `buffer` of `rfs_read`, `stack 2` for
`devname` of `get_device`. -/
structure Kernel where
  vdev_list : Nat → Option vfs_dev_t
  pfiles : files_struct
  host_open : Mem → Nat → Int
  host_read : Int → Mem → Nat → Mem
  stack : Nat → Mem

/-- The device-table loop shared by `vfs_mount` and `vfs_get_root`: entries
`i`, `i + 1`, ..., `n` of them; the result is `pdev_t` as an index (`none`: the
initial null pointer). -/
def vfs_dev_loop (vdev_list : Nat → Option vfs_dev_t) (devname : Mem) :
    Nat → Nat → Option Nat → K (Option Nat)
  | 0, _, pdev_t => pure pdev_t
  | n + 1, i, _ =>
    match vdev_list i with
    | none => fault "vdev_list[i] is NULL"
    | some d =>
      if strcmp d.devname devname = 0 then pure (some i)
      else vfs_dev_loop vdev_list devname n (i + 1) (some i)

/-- Store of the state of the file system behind the pointer `fs`. -/
def set_fs (k : Kernel) (fs : Nat) (prfs : rfs_fs) : Kernel :=
  { k with vdev_list := fun j =>
      if j = fs then (k.vdev_list fs).map (fun d => { d with fs := some prfs })
      else k.vdev_list j }

/-- The state of the file system behind the pointer `fs`. -/
def get_fs (k : Kernel) (fs : Nat) : K rfs_fs :=
  match k.vdev_list fs with
  | none => fault "fs is NULL"
  | some d =>
    match d.fs with
    | none => fault "fs is NULL"
    | some prfs => pure prfs

/-- Source `vfs_mount`, with `rfs_do_mount` as the mount function. -/
def vfs_mount (MAX_DEV : Nat) (k : Kernel) (devname : Mem) (pages : Nat → Mem) :
    K (Int × Kernel) := do
  match ← vfs_dev_loop k.vdev_list devname MAX_DEV 0 none with
  | none => panic "vfs_mount: Cannot find the device entry!"
  | some i =>
    match k.vdev_list i with
    | none => fault "pdev_t is NULL"
    | some d =>
      let (_, fs) ← rfs_do_mount d.dev pages
      pure (0, set_fs k i fs)

/-- Source `vfs_get_root`. -/
def vfs_get_root (MAX_DEV : Nat) (k : Kernel) (devname : Mem) :
    K (Int × inode × Kernel) := do
  match ← vfs_dev_loop k.vdev_list devname MAX_DEV 0 none with
  | none => panic "vfs_get_root: Cannot find the device entry!"
  | some i =>
    let prfs ← get_fs k i
    let (rootdir, prfs) ← rfs_get_root i prfs
    pure (0, rootdir, set_fs k i prfs)

/-- Loop of `get_device`: the index of the first colon before the terminator,
or -1. -/
def get_device_colon (path : Mem) : Nat → Nat → Int
  | 0, _ => -1
  | n + 1, i =>
    if path i = 0 then -1
    else if path i = 58 then (i : Int)
    else get_device_colon path n (i + 1)

/-- Source `get_device`: the result, `*subpath`, `*node_store`, the path as
the call leaves it, and the state. -/
def get_device (MAX_DEV : Nat) (k : Kernel) (path : Mem) :
    K (Int × Mem × Option inode × Mem × Kernel) := do
  let colon := get_device_colon path STR_MAX 0
  if colon < 0 then pure (-1, path, none, path, k) else
  let colon := colon.toNat
  -- get device name
  let path : Mem := fun i => if i = colon then 0 else path i
  if 32 ≤ strlen path then fault "devname[32] overflows" else
  let devname := strcpy (k.stack 2) path
  let path : Mem := fun i => if i = colon then 58 else path i
  -- get file name
  let subpath := ptr_add path (colon + 2)
  let (ret, node, k) ← vfs_get_root MAX_DEV k devname
  pure (ret, subpath, some node, path, k)

/-- Dispatch `vop_lookup` through the operation table of `node`. -/
def vop_lookup (k : Kernel) (node : inode) (path : Mem) :
    K (Int × Option inode × Kernel) :=
  match node.in_ops with
  | inode_ops.rfs_node_dirops => do
    let prfs ← get_fs k node.in_fs
    let (ret, res, prfs) ← rfs_lookup prfs node path
    pure (ret, res, set_fs k node.in_fs prfs)
  | inode_ops.rfs_node_fileops => fault "vop_lookup is NULL"

/-- Dispatch `vop_create` through the operation table of `dir`. -/
def vop_create (k : Kernel) (dir : inode) (name : Mem) : K (Int × inode × Kernel) :=
  match dir.in_ops with
  | inode_ops.rfs_node_dirops => do
    let prfs ← get_fs k dir.in_fs
    let (ret, res, prfs) ← rfs_create prfs dir name
    pure (ret, res, set_fs k dir.in_fs prfs)
  | inode_ops.rfs_node_fileops => fault "vop_create is NULL"

/-- Dispatch `vop_read` through the operation table of `node`. -/
def vop_read (k : Kernel) (node : inode) (buf : Mem) (len : Nat) (stack : Mem) :
    K (Int × Mem × Kernel) :=
  match node.in_ops with
  | inode_ops.rfs_node_fileops => do
    let prfs ← get_fs k node.in_fs
    let (ret, buf, prfs) := rfs_read prfs node buf len stack
    pure (ret, buf, set_fs k node.in_fs prfs)
  | inode_ops.rfs_node_dirops => fault "vop_read is NULL"

/-- Dispatch `vop_write` through the operation table of `node`. -/
def vop_write (k : Kernel) (node : inode) (buf : Mem) (len : Nat) :
    K (Int × inode × Kernel) :=
  match node.in_ops with
  | inode_ops.rfs_node_fileops => do
    let prfs ← get_fs k node.in_fs
    let (ret, node, prfs) ← rfs_write prfs node buf len
    pure (ret, node, set_fs k node.in_fs prfs)
  | inode_ops.rfs_node_dirops => fault "vop_write is NULL"

/-- Source `vfs_lookup`. -/
def vfs_lookup (MAX_DEV : Nat) (k : Kernel) (path : Mem) :
    K (Int × Option inode × Kernel) := do
  let (ret, fn, dir, _, k) ← get_device MAX_DEV k path
  if ret = -1 then pure (-1, none, k) else
  match dir with
  | none => fault "dir is not set"
  | some dir => vop_lookup k dir fn

/-- Source `vfs_lookup_parent`: the result, the directory inode, the file name
and the state. -/
def vfs_lookup_parent (MAX_DEV : Nat) (k : Kernel) (path : Mem) :
    K (Int × Option inode × Mem × Kernel) := do
  let (ret, fn, dir, _, k) ← get_device MAX_DEV k path
  if ret = -1 then panic "vfs_lookup_parent: unexpectedly lead to host device!" else
  pure (0, dir, fn, k)

/-- Source `vfs_open`: the result, `*inode_store` (`none`: not stored) and the
state. -/
def vfs_open (MAX_DEV : Nat) (k : Kernel) (path : Mem) (flags : Nat) :
    K (Int × Option inode × Kernel) := do
  let creatable := flags &&& O_CREATE
  if (flags &&& MASK_FILEMODE) ≠ O_RDONLY ∧ (flags &&& MASK_FILEMODE) ≠ O_WRONLY
      ∧ (flags &&& MASK_FILEMODE) ≠ O_RDWR then
    panic "fs_open: invalid open flags!" else
  -- lookup the path
  let (ret, node, k) ← vfs_lookup MAX_DEV k path
  -- Case 1: the path belongs to the host device
  if ret = -1 then pure (k.host_open path flags, none, k) else
  -- Case 2.2: the file does not exist
  let (node, k) ←
    if ret = 1 then do
      if creatable = 0 then panic "vfs_open: open a non-existent-uncreatable file!" else
      let (ret, dir, filename, k) ← vfs_lookup_parent MAX_DEV k path
      if ret ≠ 0 then panic "vfs_open: failed to lookup parent!" else
      match dir with
      | none => fault "dir is not set"
      | some dir =>
        let (ret, node, k) ← vop_create k dir filename
        if ret ≠ 0 then panic "vfs_open: failed to create file!" else
        pure (some node, k)
    else pure (node, k)
  match node with
  | none => fault "node is not set"
  | some node => pure (0, some { node with ref := node.ref + 1 }, k)

/-! ## `file.c` -/

/-- Loop of `do_open` over the file table: the first index at or after `fd`
whose entry has status `FD_NONE`; `n` entries remain.  The result is the value
of `fd` after the loop and the index of the entry `pfile` points to (`none`:
the pointer was never set). -/
def do_open_loop (ofile : Nat → file) : Nat → Nat → Option Nat → Nat × Option Nat
  | 0, fd, pfile => (fd, pfile)
  | n + 1, fd, _ =>
    if (ofile fd).status = fd_status.FD_NONE then (fd, some fd)
    else do_open_loop ofile n (fd + 1) (some fd)

/-- Source `do_open`. -/
def do_open (MAX_DEV MAX_FILES : Nat) (k : Kernel) (pathname : Mem) (flags : Nat) :
    K (Int × Kernel) := do
  -- set file's readable & writable
  let mode := flags &&& MASK_FILEMODE
  if mode ≠ O_RDONLY ∧ mode ≠ O_WRONLY ∧ mode ≠ O_RDWR then
    panic "do_open: invalid open flags!" else
  let readable := if mode = O_RDONLY ∨ mode = O_RDWR then 1 else 0
  let writable := if mode = O_WRONLY ∨ mode = O_RDWR then 1 else 0
  -- find/create an inode for the file in pathname
  let (ret, node, k) ← vfs_open MAX_DEV k pathname flags
  if ret ≠ 0 then
    -- Case 1: host device, ret is the host descriptor
    if ret < 0 ∨ (MAX_FILES : Int) ≤ ret then fault "ofile[fd] is out of bounds" else
    let fd := ret.toNat
    let pfile := { k.pfiles.ofile fd with status := fd_status.FD_HOST, fd := ret }
    pure (ret, { k with pfiles :=
      { ofile := fun j => if j = fd then pfile else k.pfiles.ofile j,
        nfile := k.pfiles.nfile + 1 } })
  else
    -- Case 2: PKE device, find a free file entry
    match do_open_loop k.pfiles.ofile MAX_FILES 0 none with
    | (_, none) => fault "pfile is not set"
    | (fd, some i) =>
      if (k.pfiles.ofile i).status ≠ fd_status.FD_NONE then
        panic "do_open: no file entry for current process!" else
      match node with
      | none => fault "node is not set"
      | some node =>
        let (ret, st) := rfs_fstat node
        if ret ≠ 0 then panic "do_open: failed to get file status!" else
        let pfile : file :=
          { status := fd_status.FD_OPENED, readable := readable, writable := writable,
            fd := fd, ref := 1, off := st.1, node := some node }
        pure (fd, { k with pfiles :=
          { ofile := fun j => if j = i then pfile else k.pfiles.ofile j,
            nfile := k.pfiles.nfile + 1 } })

/-- Loop of `do_read` and `do_write` over the file table: the index of the
entry `pfile` points to after the loop (`none`: the initial null pointer). -/
def find_file_loop (ofile : Nat → file) (fd : Int) : Nat → Nat → Option Nat → Option Nat
  | 0, _, pfile => pfile
  | n + 1, i, _ =>
    if (ofile i).fd = fd then some i
    else find_file_loop ofile fd n (i + 1) (some i)

/-- Source `do_read`: the result, the caller's buffer and the state. -/
def do_read (MAX_FILES : Nat) (k : Kernel) (fd : Int) (buf : Mem) (count : Nat) :
    K (Int × Mem × Kernel) := do
  match find_file_loop k.pfiles.ofile fd MAX_FILES 0 none with
  | none => panic "do_read: invalid fd!"
  | some i =>
    let pfile := k.pfiles.ofile i
    if pfile.status = fd_status.FD_HOST then pure (0, k.host_read fd buf count, k) else
    if pfile.readable = 0 then panic "do_read: no readable file!" else
    match pfile.node with
    | none => fault "pfile->node is not set"
    | some node =>
      let (_, buffer, k) ← vop_read k node (k.stack 0) count (k.stack 1)
      pure (0, strcpy buf buffer, k)

/-- Source `do_write`. -/
def do_write (MAX_FILES : Nat) (k : Kernel) (fd : Int) (buf : Mem) (count : Nat) :
    K (Int × Kernel) := do
  match find_file_loop k.pfiles.ofile fd MAX_FILES 0 none with
  | none => panic "do_write: invalid fd!"
  | some i =>
    let pfile := k.pfiles.ofile i
    if pfile.status = fd_status.FD_HOST then pure (0, k) else
    if pfile.writable = 0 then panic "do_write: cannot write file!" else
    match pfile.node with
    | none => fault "pfile->node is not set"
    | some node =>
      let (_, node, k) ← vop_write k node buf count
      pure (0, { k with pfiles :=
        { k.pfiles with ofile := fun j =>
            if j = i then { pfile with node := some node } else k.pfiles.ofile j } })

/-- Source `do_close`. -/
def do_close (_fd : Int) : Int := -1

/-! ## Observations and scenarios -/

/-- What `f` sees in the result of a call that returned; `none` when the call
was fatal. -/
def observe {α β : Type} (x : K α) (f : α → β) : Option β :=
  match x with
  | Except.ok a => some (f a)
  | Except.error _ => none

/-- The fatal outcome of a call; `none` when the call returned. -/
def fatal_of {α : Type} (x : K α) : Option Fatal :=
  match x with
  | Except.ok _ => none
  | Except.error e => some e

/-- The `struct rfs_dinode` at the start of a block, as `rfs_create_inode`
copies it. -/
def dinode_of (b : Mem) : rfs_dinode :=
  { size := din_size b, type := din_type b, nlinks := din_nlinks b, blocks := din_blocks b,
    addrs := fun i => if i < RFS_NDIRECT then din_addrs b i else 0 }

/-- The block that holds entry `i` of the directory with dinode `dnode`. -/
def dir_entry_block (rfs : rfs_fs) (dnode : rfs_dinode) (i : Nat) : Mem :=
  rfs.dev.blocks (dnode.addrs (i / (RFS_BLKSIZE / sizeof_rfs_direntry)))

/-- The byte offset of directory entry `i` in its block. -/
def dir_entry_offset (i : Nat) : Nat :=
  i % (RFS_BLKSIZE / sizeof_rfs_direntry) * sizeof_rfs_direntry

/-- The name stored in entry `i` of the directory with dinode `dnode`. -/
def dir_entry_name (rfs : rfs_fs) (dnode : rfs_dinode) (i : Nat) : Mem :=
  de_name (dir_entry_block rfs dnode i) (dir_entry_offset i)

/-- The inode number stored in entry `i` of the directory with dinode
`dnode`. -/
def dir_entry_inum (rfs : rfs_fs) (dnode : rfs_dinode) (i : Nat) : Nat :=
  de_inum (dir_entry_block rfs dnode i) (dir_entry_offset i)

/-- The inode number that `rfs_lookup` stores for entry `i` of the directory
with dinode `dnode`: `de->inum` is read again after the block read of the
file's dinode has replaced the buffer `de` points into, so the number is the
word at the entry's offset in that dinode block. -/
def dir_entry_stored_inum (rfs : rfs_fs) (dnode : rfs_dinode) (i : Nat) : Nat :=
  de_inum (rfs.dev.blocks (dir_entry_inum rfs dnode i)) (dir_entry_offset i)

/-- The device table resolves `devname` to entry `i`: the entries before `i`
are set and have other names, entry `i` is set and has this name. -/
def device_at (MAX_DEV : Nat) (k : Kernel) (devname : Mem) (i : Nat) : Prop :=
  i < MAX_DEV ∧ (∃ d, k.vdev_list i = some d ∧ strcmp d.devname devname = 0) ∧
    ∀ j, j < i → ∃ d, k.vdev_list j = some d ∧ strcmp d.devname devname ≠ 0

/-- The kernels `k` and `k1` differ at most in the file systems mounted on the
devices and in the file table. -/
def same_env (k k1 : Kernel) : Prop :=
  (∀ j, (k1.vdev_list j).map (fun d => d.devname) = (k.vdev_list j).map (fun d => d.devname)) ∧
    k1.host_open = k.host_open ∧ k1.host_read = k.host_read ∧ k1.stack = k.stack

/-- The path starts with the device name `devname` and a colon at offset `c`,
its first colon; the name fits `devname[32]` of `get_device`. -/
def device_path (path devname : Mem) (c : Nat) : Prop :=
  path c = 58 ∧ (∀ j, j < c → path j ≠ 58) ∧ (∀ j, j < c → path j ≠ 0) ∧ c < 32 ∧
    strlen devname = c ∧ ∀ j, j < c → devname j = path j

/-- The root directory inode that `rfs_get_root` loads from the file system
`prfs` behind the pointer `fs`. -/
def root_inode (fs : Nat) (prfs : rfs_fs) : inode :=
  ⟨dinode_of (prfs.dev.blocks RFS_BLKN_INODE), RFS_BLKN_INODE, 0, fs,
    inode_ops.rfs_node_dirops⟩

/-- What `rfs_create(dir, name)` leaves when inode slot `k` and data block `f`
are the ones it takes: the new inode `node` and the state `rfs1`, described
block by block. -/
def create_post (rfs : rfs_fs) (dir : inode) (name : Mem) (k f : Nat) (node : inode)
    (rfs1 : rfs_fs) : Prop :=
  node = ⟨dinode_of (rfs1.dev.blocks (RFS_BLKN_INODE + k)), RFS_BLKN_INODE + k, 0,
      dir.in_fs, inode_ops.rfs_node_fileops⟩ ∧
  rfs1.super = rfs.super ∧ rfs1.freemap = wr32 rfs.freemap (4 * f) 1 ∧
  rfs1.dev.blocks (RFS_BLKN_INODE + k) =
    wr32 (wr32 (wr32 (wr32 (wr32 (rfs.dev.blocks (RFS_BLKN_INODE + k)) 0 0) 4 T_FILE) 8 1)
      12 1) 16 (RFS_BLKN_FREE + f) ∧
  rfs1.dev.blocks dir.inum =
    wr32 (rfs.dev.blocks dir.inum) 0
      (din_size (rfs.dev.blocks dir.inum) + sizeof_rfs_direntry) ∧
  rfs1.dev.blocks (dir.in_info.addrs (dir.in_info.size / RFS_BLKSIZE)) =
    strcpy_at (wr32 (rfs.dev.blocks (dir.in_info.addrs (dir.in_info.size / RFS_BLKSIZE)))
      (dir.in_info.size % RFS_BLKSIZE) (RFS_BLKN_INODE + k))
      (dir.in_info.size % RFS_BLKSIZE + 4) name ∧
  (∀ b, b ≠ RFS_BLKN_INODE + k → b ≠ dir.inum →
    b ≠ dir.in_info.addrs (dir.in_info.size / RFS_BLKSIZE) →
    rfs1.dev.blocks b = rfs.dev.blocks b) ∧
  rfs1.buffer = rfs1.dev.blocks (dir.in_info.addrs (dir.in_info.size / RFS_BLKSIZE))

/-- The conditions under which `rfs_create(dir, name)` takes inode slot `k`
and data block `f`, the first free ones, and touches three distinct blocks. -/
def create_pre (rfs : rfs_fs) (dir : inode) (k f : Nat) : Prop :=
  k < RFS_MAX_INODE_NUM ∧
  din_type (rfs.dev.blocks (RFS_BLKN_INODE + k)) = T_FREE ∧
  (∀ j, j < k → din_type (rfs.dev.blocks (RFS_BLKN_INODE + j)) ≠ T_FREE) ∧
  f < rfs.super.nblocks ∧ rd32 rfs.freemap (4 * f) = 0 ∧
  (∀ j, j < f → rd32 rfs.freemap (4 * j) ≠ 0) ∧
  dir.inum ≠ RFS_BLKN_INODE + k ∧
  dir.in_info.addrs (dir.in_info.size / RFS_BLKSIZE) ≠ RFS_BLKN_INODE + k ∧
  dir.in_info.addrs (dir.in_info.size / RFS_BLKSIZE) ≠ dir.inum

/-- Entry `fd` is the first entry of the file table with status `FD_NONE`. -/
def first_free_fd (MAX_FILES : Nat) (p : files_struct) (fd : Nat) : Prop :=
  fd < MAX_FILES ∧ (p.ofile fd).status = fd_status.FD_NONE ∧
    ∀ j, j < fd → (p.ofile j).status ≠ fd_status.FD_NONE

/-- What `rfs_do_mount` leaves on the device `dev`: the superblock, the free
map with only the flag of the root data block set, the bitmap block, the free
inode slots, the root dinode and the root directory block. -/
def mount_post (dev : device) (fs : rfs_fs) : Prop :=
  fs.super = ⟨RFS_MAGIC, 112, 100, 10⟩ ∧
  rd32 fs.freemap 0 = 1 ∧ (∀ j, 1 ≤ j → j < 1024 → rd32 fs.freemap (4 * j) = 0) ∧
  (din_size (fs.dev.blocks 1) = 32 ∧ din_type (fs.dev.blocks 1) = T_DIR ∧
    din_nlinks (fs.dev.blocks 1) = 1 ∧ din_blocks (fs.dev.blocks 1) = 1 ∧
    din_addrs (fs.dev.blocks 1) 0 = 12 ∧
    ∀ j, 1 ≤ j → j < 10 → din_addrs (fs.dev.blocks 1) j = 0) ∧
  (∀ i, 1 ≤ i → i < 10 → ∀ o, o < 4096 → fs.dev.blocks (1 + i) o = 0) ∧
  (de_inum (fs.dev.blocks 12) 0 = 1 ∧ fs.dev.blocks 12 4 = 47 ∧ fs.dev.blocks 12 5 = 0) ∧
  (rd32 (fs.dev.blocks 0) 0 = RFS_MAGIC ∧ rd32 (fs.dev.blocks 0) 4 = 112 ∧
    rd32 (fs.dev.blocks 0) 8 = 100 ∧ rd32 (fs.dev.blocks 0) 12 = 10) ∧
  (∀ o, o < 4096 → fs.dev.blocks 11 o = fs.freemap o) ∧
  (∀ b, 13 ≤ b → fs.dev.blocks b = dev.blocks b)

/-- The device name "ramdisk0". -/
def ramdisk0 : Mem := cstr [114, 97, 109, 100, 105, 115, 107, 48]

/-- The string at `s` is terminated: a NUL byte lies within the scanned range. -/
@[reducible] def terminated (s : Mem) : Prop := strlen s < STR_MAX

/-- The C strings at `a` and `b` are equal: `a` agrees with `b` up to and
including the terminator of `b`. -/
@[reducible] def same_string (a b : Mem) : Prop := ∀ j, j ≤ strlen b → a j = b j

/-- Source `rfs_init` with `rfs_mount`: mount RFS on the device "ramdisk0". -/
def rfs_init (MAX_DEV : Nat) (k : Kernel) (pages : Nat → Mem) : K Kernel := do
  let (ret, k) ← vfs_mount MAX_DEV k ramdisk0 pages
  if ret ≠ 0 then panic "failed: rfs: rfs_mount" else pure k

/-- The path "ramdisk0:/" followed by `name`. -/
def ramdisk0_path (name : List Nat) : Mem :=
  cstr ([114, 97, 109, 100, 105, 115, 107, 48, 58, 47] ++ name)

/-- The path "hostfile.txt" of case 1 of `user/app_file.c`. -/
def hostfile : Mem := cstr [104, 111, 115, 116, 102, 105, 108, 101, 46, 116, 120, 116]

/-- The string "ramfile". -/
def ramfile : List Nat := [114, 97, 109, 102, 105, 108, 101]

/-- A kernel before `fs_init`: the device "ramdisk0" in entry 0 of the device
table with an all-zero RAM disk, an empty file table, all other memory zero. -/
def boot : Kernel :=
  { vdev_list := fun i =>
      if i = 0 then some ⟨ramdisk0, ⟨fun _ _ => 0⟩, none⟩
      else none,
    pfiles := ⟨fun _ => ⟨fd_status.FD_NONE, 0, 0, 0, 0, 0, none⟩, 0⟩,
    host_open := fun _ _ => 3,
    host_read := fun _ buf _ => buf,
    stack := fun _ _ => 0 }

/-- The result of a call, or `d` when the call was fatal. -/
def result_or {α : Type} (x : K α) (d : α) : α :=
  match x with
  | Except.ok a => a
  | Except.error _ => d

/-- The file system that `rfs_do_mount` builds on an all-zero RAM disk. -/
def fresh_fs : rfs_fs :=
  (result_or (rfs_do_mount ⟨fun _ _ => 0⟩ (fun _ _ => 0))
    (0, ⟨⟨0, 0, 0, 0⟩, ⟨fun _ _ => 0⟩, fun _ => 0, 0, fun _ => 0⟩)).2

/-- The root directory inode of `fresh_fs` as `rfs_get_root` loads it. -/
def fresh_root : inode :=
  ⟨dinode_of (fresh_fs.dev.blocks RFS_BLKN_INODE), RFS_BLKN_INODE, 0, 0,
    inode_ops.rfs_node_dirops⟩

/-- The file system `fresh_fs` after `rfs_create` of "ramfile" in the root. -/
def fs_with_ramfile : rfs_fs :=
  (result_or (rfs_create fresh_fs fresh_root (cstr ramfile)) (0, fresh_root, fresh_fs)).2.2

/-- A directory with a dangling entry: `fresh_fs` whose root data block holds
a second entry, inode number 5 and name "a", while inode slot 5 is free. -/
def fs_dangling : rfs_fs :=
  { fresh_fs with dev := ⟨fun b =>
      if b = RFS_BLKN_FREE then
        strcpy_at (wr32 (fresh_fs.dev.blocks RFS_BLKN_FREE) 32 5) 36 (cstr [97])
      else fresh_fs.dev.blocks b⟩ }

/-- The root directory inode of `fs_dangling`, two entries long. -/
def root_dangling : inode :=
  { fresh_root with in_info := { fresh_root.in_info with size := 64 } }

/-- Fresh pages filled with zeros. -/
def zero_pages : Nat → Mem := fun _ _ => 0

/-- Open each path of a list in turn with the same flags. -/
def open_all (MAX_DEV MAX_FILES : Nat) (flags : Nat) : List Mem → Kernel → K Kernel
  | [], k => pure k
  | path :: rest, k => do
    let (_, k) ← do_open MAX_DEV MAX_FILES k path flags
    open_all MAX_DEV MAX_FILES flags rest k

/-- Cases 2 and 3 of `user/app_file.c` on one descriptor: mount, open `path`
with `O_RDWR | O_CREATE`, write `count_w` bytes of `content`, read `count_r`
bytes back into `ubuf` through the same descriptor. -/
def write_then_read (MAX_DEV MAX_FILES : Nat) (k : Kernel) (pages : Nat → Mem)
    (path content : Mem) (count_w count_r : Nat) (ubuf : Mem) : K Mem := do
  let k ← rfs_init MAX_DEV k pages
  let (fd, k) ← do_open MAX_DEV MAX_FILES k path (O_RDWR ||| O_CREATE)
  let (_, k) ← do_write MAX_FILES k fd content count_w
  let (_, buf, _) ← do_read MAX_FILES k fd ubuf count_r
  pure buf

/-- The state of the file system on device-table entry 0 after: mount, open
`path` with `O_RDWR | O_CREATE`, write `count` bytes of `content`. -/
def create_and_write (MAX_DEV MAX_FILES : Nat) (k : Kernel) (pages : Nat → Mem)
    (path content : Mem) (count : Nat) : K rfs_fs := do
  let k ← rfs_init MAX_DEV k pages
  let (fd, k) ← do_open MAX_DEV MAX_FILES k path (O_RDWR ||| O_CREATE)
  let (_, k) ← do_write MAX_FILES k fd content count
  get_fs k 0

/-- A string of `n` letters `A`. -/
def letters (n : Nat) : Mem := fun i => if i < n then 65 else 0

/-- The paths "ramdisk0:/a", "ramdisk0:/b", ...: `n` of them, from letter `c`
on. -/
def letter_paths : Nat → Nat → List Mem
  | 0, _ => []
  | n + 1, c => ramdisk0_path [c] :: letter_paths n (c + 1)

/-- The kernel after: mount, then open "ramdisk0:/a", "ramdisk0:/b", ... (`n`
files) with `O_RDWR | O_CREATE`. -/
def create_files (MAX_DEV MAX_FILES : Nat) (k : Kernel) (pages : Nat → Mem) (n : Nat) :
    K Kernel := do
  let k ← rfs_init MAX_DEV k pages
  open_all MAX_DEV MAX_FILES (O_RDWR ||| O_CREATE) (letter_paths n 97) k

/-- The file system on entry 0 of the device table before and after one more
`do_open` of `path` with `O_RDWR | O_CREATE`, and the kernel after it. -/
def create_one_more (MAX_DEV MAX_FILES : Nat) (k : Kernel) (path : Mem) :
    K (rfs_fs × rfs_fs × Int × Kernel) := do
  let before ← get_fs k 0
  let (fd, k) ← do_open MAX_DEV MAX_FILES k path (O_RDWR ||| O_CREATE)
  let after ← get_fs k 0
  pure (before, after, fd, k)


/-! ## Further scenarios -/

/-- The file system `fresh_fs` with every flag of the free map set. -/
def full_fs : rfs_fs :=
  { fresh_fs with freemap := fun o => if o % 4 = 0 then 1 else 0 }

/-- The string "hello". -/
def hello : Mem := cstr [104, 101, 108, 108, 111]

/-- The string "bye". -/
def bye : Mem := cstr [98, 121, 101]

/-- The kernel after: mount, open `path` with `O_RDWR | O_CREATE`, write
`count` bytes of `content`, then open `path` with `O_RDWR` another `n`
times. -/
def fill_table (MAX_DEV MAX_FILES : Nat) (k : Kernel) (pages : Nat → Mem)
    (path content : Mem) (count n : Nat) : K Kernel := do
  let k ← rfs_init MAX_DEV k pages
  let (fd, k) ← do_open MAX_DEV MAX_FILES k path (O_RDWR ||| O_CREATE)
  let (_, k) ← do_write MAX_FILES k fd content count
  open_all MAX_DEV MAX_FILES O_RDWR (List.replicate n path) k

/-- On the kernel `k`: `do_read(fd, ubuf, count_r)`, then
`do_write(fd, content, count_w)`; the two results, the buffer read and the
file system on device-table entry 0 afterwards. -/
def read_then_write (MAX_FILES : Nat) (k : Kernel) (fd : Int) (ubuf : Mem) (count_r : Nat)
    (content : Mem) (count_w : Nat) : K (Int × Mem × Int × rfs_fs) := do
  let (r, buf, k) ← do_read MAX_FILES k fd ubuf count_r
  let (w, k) ← do_write MAX_FILES k fd content count_w
  let fs ← get_fs k 0
  pure (r, buf, w, fs)

/-- The device name "ramdisk1". -/
def ramdisk1 : Mem := cstr [114, 97, 109, 100, 105, 115, 107, 49]

/-- The device name "nodev". -/
def nodev : Mem := cstr [110, 111, 100, 101, 118]

/-- A kernel whose device table has two entries, "ramdisk0" and "ramdisk1",
both with an all-zero RAM disk and nothing mounted. -/
def boot2 : Kernel :=
  { boot with vdev_list := fun i =>
      if i = 0 then some ⟨ramdisk0, ⟨fun _ _ => 0⟩, none⟩
      else if i = 1 then some ⟨ramdisk1, ⟨fun _ _ => 0⟩, none⟩
      else none }

/-- Whether a file system is mounted on entry `i` of the device table. -/
def mounted_at (k : Kernel) (i : Nat) : Bool :=
  match k.vdev_list i with
  | some d => d.fs.isSome
  | none => false

/-- The inode of the file "ramfile" of `fs_with_ramfile`, as `rfs_create`
builds it and `vfs_open` hands it out, with reference count 1. -/
def ramfile_inode : inode :=
  ⟨dinode_of (fs_with_ramfile.dev.blocks 2), 2, 1, 0, inode_ops.rfs_node_fileops⟩

/-- The kernel `boot` after `rfs_init`. -/
def mounted : Kernel := result_or (rfs_init 1 boot zero_pages) boot

/-- The path string "ramdisk0:" held in a buffer whose bytes after the
terminator are the letter `x` and a NUL. -/
def colon_last : Mem := cstr [114, 97, 109, 100, 105, 115, 107, 48, 58, 0, 120]

/-- The mounted sample kernel with a file table of 16 entries that all hold
open descriptors of the file "ramdisk0:/ramfile". -/
def full_table : Kernel :=
  result_or (fill_table 1 16 boot zero_pages (ramdisk0_path ramfile) hello 6 15) boot

/-- A directory dinode that can take one more entry: it has type `T_DIR`, its
size is a whole number of entries and stays an `int` after one more, and its
direct blocks up to the one that receives the next entry are distinct blocks
of the data region. -/
def dir_ready (dir : rfs_dinode) : Prop :=
  dir.type = T_DIR ∧ dir.size % sizeof_rfs_direntry = 0 ∧
  dir.size + sizeof_rfs_direntry < 2147483648 ∧
  (∀ j, j ≤ dir.size / RFS_BLKSIZE → RFS_BLKN_FREE ≤ dir.addrs j) ∧
  (∀ j, j < dir.size / RFS_BLKSIZE → dir.addrs j ≠ dir.addrs (dir.size / RFS_BLKSIZE))

/-- The file system mounted on entry 0 of the kernel `mounted`. -/
def mounted_fs : rfs_fs := result_or (get_fs mounted 0) fresh_fs

/-- On an all-zero RAM disk: mount, load the root, `rfs_create` the file
"ramfile" in it and `rfs_write` `len` bytes of `content` through the inode that
`rfs_create` returned; the inode as the write leaves it and the state. -/
def create_then_write (content : Mem) (len : Nat) : K (inode × rfs_fs) := do
  let (_, fs) ← rfs_do_mount ⟨fun _ _ => 0⟩ zero_pages
  let (root, fs) ← rfs_get_root 0 fs
  let (_, node, fs) ← rfs_create fs root (cstr ramfile)
  let (_, node, fs) ← rfs_write fs node content len
  pure (node, fs)

/-- After `create_then_write`: load the root again and `rfs_lookup` the file
"ramfile"; the inode the write left, the inode the lookup materializes and the
state. -/
def write_then_lookup (content : Mem) (len : Nat) : K (inode × inode × rfs_fs) := do
  let (node, fs) ← create_then_write content len
  let (root, fs) ← rfs_get_root 0 fs
  let (_, found, fs) ← rfs_lookup fs root (cstr ramfile)
  match found with
  | none => fault "node is not set"
  | some node2 => pure (node, node2, fs)

/-- After `write_then_lookup`: `rfs_write` `len` bytes of `content` through the
inode that `rfs_lookup` materialized; the state before and after that
write. -/
def lookup_then_write (content : Mem) (len : Nat) : K (rfs_fs × rfs_fs) := do
  let (_, node2, fs) ← write_then_lookup content len
  let (_, _, fs2) ← rfs_write fs node2 content len
  pure (fs, fs2)

/-- Whether the blocks `b` of two devices hold the same `RFS_BLKSIZE` bytes. -/
def same_block (d1 d2 : device) (b : Nat) : Bool :=
  (List.range RFS_BLKSIZE).all (fun o => d1.blocks b o == d2.blocks b o)

/-- The fields size, type, link count, block count of an in-memory dinode and
its first two direct block addresses. -/
def dinode_fields (d : rfs_dinode) : List Nat :=
  [d.size, d.type, d.nlinks, d.blocks, d.addrs 0, d.addrs 1]


/-! ## Lemmas: integer fields -/

theorem wr32_apply_lt (m : Mem) (o v i : Nat) (h : i < o) : wr32 m o v i = m i := by
  unfold wr32
  rw [if_neg (by omega), if_neg (by omega), if_neg (by omega), if_neg (by omega)]

theorem wr32_apply_gt (m : Mem) (o v i : Nat) (h : o + 3 < i) : wr32 m o v i = m i := by
  unfold wr32
  rw [if_neg (by omega), if_neg (by omega), if_neg (by omega), if_neg (by omega)]

theorem rd32_lt (m : Mem) (o : Nat) : rd32 m o < 4294967296 := by
  unfold rd32
  omega

theorem rd32_congr (m n : Mem) (o : Nat) (h : ∀ i, o ≤ i → i ≤ o + 3 → m i = n i) :
    rd32 m o = rd32 n o := by
  unfold rd32
  rw [h o (by omega) (by omega), h (o + 1) (by omega) (by omega),
    h (o + 2) (by omega) (by omega), h (o + 3) (by omega) (by omega)]

theorem rd32_wr32_same (m : Mem) (o v : Nat) : rd32 (wr32 m o v) o = v % 4294967296 := by
  unfold rd32 wr32
  rw [if_pos rfl, if_neg (by omega), if_pos rfl, if_neg (by omega), if_neg (by omega),
    if_pos rfl, if_neg (by omega), if_neg (by omega), if_neg (by omega), if_pos rfl]
  omega

theorem rd32_wr32_disj (m : Mem) (o v p : Nat) (h : p + 3 < o ∨ o + 3 < p) :
    rd32 (wr32 m o v) p = rd32 m p := by
  apply rd32_congr
  intro i h1 h2
  rcases h with h | h
  · exact wr32_apply_lt m o v i (by omega)
  · exact wr32_apply_gt m o v i (by omega)

theorem rd32_wr32_small (m : Mem) (o v : Nat) (h : v < 4294967296) :
    rd32 (wr32 m o v) o = v := by
  rw [rd32_wr32_same, Nat.mod_eq_of_lt h]

/-! ## Lemmas: C strings -/

theorem strlenAux_ge (s : Mem) (fuel i : Nat) : i ≤ strlenAux s fuel i := by
  induction fuel generalizing i with
  | zero => simp [strlenAux]
  | succ n ih =>
    unfold strlenAux
    split
    · exact Nat.le_refl i
    · exact Nat.le_trans (Nat.le_succ i) (ih (i + 1))

theorem strlenAux_le (s : Mem) (fuel i : Nat) : strlenAux s fuel i ≤ i + fuel := by
  induction fuel generalizing i with
  | zero => simp [strlenAux]
  | succ n ih =>
    unfold strlenAux
    split
    · omega
    · have := ih (i + 1); omega

theorem strlenAux_nonzero (s : Mem) (fuel i j : Nat) (h1 : i ≤ j)
    (h2 : j < strlenAux s fuel i) : s j ≠ 0 := by
  induction fuel generalizing i with
  | zero => simp [strlenAux] at h2; omega
  | succ n ih =>
    unfold strlenAux at h2
    split at h2
    · omega
    · rename_i hne
      rcases Nat.eq_or_lt_of_le h1 with h | h
      · subst h; exact hne
      · exact ih (i + 1) h h2

theorem strlenAux_zero (s : Mem) (fuel i : Nat) (h : strlenAux s fuel i < i + fuel) :
    s (strlenAux s fuel i) = 0 := by
  induction fuel generalizing i with
  | zero => simp [strlenAux] at h
  | succ n ih =>
    unfold strlenAux at h ⊢
    split
    · assumption
    · rename_i hne
      rw [if_neg hne] at h
      exact ih (i + 1) (by omega)

theorem strlenAux_eq (s : Mem) (fuel i n : Nat) (h1 : ∀ j, i ≤ j → j < n → s j ≠ 0)
    (h2 : s n = 0) (h3 : i ≤ n) (h4 : n < i + fuel) : strlenAux s fuel i = n := by
  induction fuel generalizing i with
  | zero => omega
  | succ k ih =>
    unfold strlenAux
    rcases Nat.eq_or_lt_of_le h3 with h | h
    · subst h; rw [if_pos h2]
    · rw [if_neg (h1 i (Nat.le_refl i) h)]
      exact ih (i + 1) (fun j hj => h1 j (by omega)) h (by omega)

theorem strlen_eq (s : Mem) (n : Nat) (h1 : ∀ j, j < n → s j ≠ 0) (h2 : s n = 0)
    (h3 : n < STR_MAX) : strlen s = n :=
  strlenAux_eq s STR_MAX 0 n (fun j _ hj => h1 j hj) h2 (Nat.zero_le n) (by omega)

theorem strlen_nonzero (s : Mem) (j : Nat) (h : j < strlen s) : s j ≠ 0 :=
  strlenAux_nonzero s STR_MAX 0 j (Nat.zero_le j) h

theorem strlen_zero (s : Mem) (h : strlen s < STR_MAX) : s (strlen s) = 0 :=
  strlenAux_zero s STR_MAX 0 (by unfold strlen at h; omega)

theorem strlen_le (s : Mem) : strlen s ≤ STR_MAX := by
  have := strlenAux_le s STR_MAX 0
  unfold strlen; omega

theorem strlen_congr (s t : Mem) (h : strlen s < STR_MAX) (h2 : ∀ i, i ≤ strlen s → t i = s i) :
    strlen t = strlen s := by
  apply strlen_eq
  · intro j hj
    rw [h2 j (Nat.le_of_lt hj)]
    exact strlen_nonzero s j hj
  · rw [h2 _ (Nat.le_refl _)]
    exact strlen_zero s h
  · exact h

theorem strcmpAux_eq_zero (a b : Mem) (fuel i n : Nat) (h1 : ∀ j, i ≤ j → j < n → b j ≠ 0)
    (h2 : b n = 0) (h3 : i ≤ n) (h4 : n < i + fuel) :
    strcmpAux a b fuel i = 0 ↔ ∀ j, i ≤ j → j ≤ n → a j = b j := by
  induction fuel generalizing i with
  | zero => omega
  | succ k ih =>
    unfold strcmpAux
    by_cases hab : a i = b i
    · rw [if_neg (by simpa using hab)]
      rcases Nat.eq_or_lt_of_le h3 with h | h
      · subst h
        rw [if_pos (by rw [hab]; exact h2)]
        constructor
        · intro _ j hj1 hj2
          have : j = i := by omega
          subst this; exact hab
        · intro _; rfl
      · rw [if_neg (by rw [hab]; exact h1 i (Nat.le_refl i) h)]
        rw [ih (i + 1) (fun j hj => h1 j (by omega)) h (by omega)]
        constructor
        · intro hh j hj1 hj2
          rcases Nat.eq_or_lt_of_le hj1 with e | e
          · subst e; exact hab
          · exact hh j e hj2
        · intro hh j hj1 hj2
          exact hh j (by omega) hj2
    · rw [if_pos (by simpa using hab)]
      constructor
      · intro hh
        exfalso
        apply hab
        omega
      · intro hh
        exact absurd (hh i (Nat.le_refl i) h3) hab

theorem strcmp_eq_zero_iff (a b : Mem) (h : terminated b) :
    strcmp a b = 0 ↔ ∀ j, j ≤ strlen b → a j = b j := by
  unfold strcmp
  rw [strcmpAux_eq_zero a b STR_MAX 0 (strlen b) (fun j _ hj => strlen_nonzero b j hj)
    (strlen_zero b h) (Nat.zero_le _) (by unfold terminated at h; omega)]
  constructor
  · intro hh j hj; exact hh j (Nat.zero_le j) hj
  · intro hh j _ hj; exact hh j hj


theorem rfs_do_mount_inodes_eq (n i : Nat) (prfs : rfs_fs) :
    rfs_do_mount_inodes n i prfs = Except.ok { prfs with dev := ⟨fun b =>
      if RFS_BLKN_INODE + i ≤ b ∧ b < RFS_BLKN_INODE + i + n then prfs.buffer
      else prfs.dev.blocks b⟩ } := by
  induction n generalizing i prfs with
  | zero =>
    rcases prfs with ⟨sb, ⟨blocks⟩, fm, d, buf⟩
    simp only [rfs_do_mount_inodes, pure, Except.pure, Except.ok.injEq, rfs_fs.mk.injEq, true_and,
      and_true, device.mk.injEq]
    funext b
    rw [if_neg (by omega)]
  | succ k ih =>
    unfold rfs_do_mount_inodes
    simp only [rfs_w1block, ne_eq, not_true_eq_false, ↓reduceIte]
    rw [ih]
    simp only [Except.ok.injEq, rfs_fs.mk.injEq, device.mk.injEq, and_true, true_and]
    funext b
    by_cases h1 : b = RFS_BLKN_INODE + i
    · subst h1; simp
    · by_cases h2 : RFS_BLKN_INODE + (i + 1) ≤ b ∧ b < RFS_BLKN_INODE + (i + 1) + k
      · rw [if_pos h2, if_pos (by omega)]
      · rw [if_neg h2, if_neg h1, if_neg (by omega)]

theorem memcpy_apply_lt (d s : Mem) (n i : Nat) (h : i < n) : memcpy d s n i = s i := by
  unfold memcpy; rw [if_pos h]

theorem memcpy_apply_ge (d s : Mem) (n i : Nat) (h : n ≤ i) : memcpy d s n i = d i := by
  unfold memcpy; rw [if_neg (by omega)]

theorem memset_apply_lt (d : Mem) (v n i : Nat) (h : i < n) : memset d v n i = v := by
  unfold memset; rw [if_pos h]

theorem strcpy_at_apply_lt (d : Mem) (o : Nat) (s : Mem) (i : Nat) (h : i < o) :
    strcpy_at d o s i = d i := by
  unfold strcpy_at; rw [if_neg (by omega)]

theorem strcpy_at_apply_in (d : Mem) (o : Nat) (s : Mem) (i : Nat) (h : i ≤ strlen s) :
    strcpy_at d o s (o + i) = s i := by
  unfold strcpy_at; rw [if_pos (by omega)]; congr 1; omega

theorem strcpy_at_apply_gt (d : Mem) (o : Nat) (s : Mem) (i : Nat) (h : o + strlen s < i) :
    strcpy_at d o s i = d i := by
  unfold strcpy_at; rw [if_neg (by omega)]

theorem rd32_strcpy_at_lt (d : Mem) (o : Nat) (s : Mem) (p : Nat) (h : p + 3 < o) :
    rd32 (strcpy_at d o s) p = rd32 d p :=
  rd32_congr _ _ _ (fun i _ h2 => strcpy_at_apply_lt d o s i (by omega))

theorem strlen_cstr (l : List Nat) (h : ∀ c ∈ l, c ≠ 0) (hl : l.length < STR_MAX) :
    strlen (cstr l) = l.length := by
  apply strlen_eq
  · intro j hj
    unfold cstr
    rw [List.getD_eq_getElem l 0 hj]
    exact h _ (List.getElem_mem hj)
  · unfold cstr
    simp [List.getD_eq_default]
  · exact hl

theorem strlen_slash : strlen (cstr [47]) = 1 := by decide

theorem rd32_memcpy_lt (d s : Mem) (n o : Nat) (h : o + 3 < n) :
    rd32 (memcpy d s n) o = rd32 s o :=
  rd32_congr _ _ _ (fun i _ _ => memcpy_apply_lt d s n i (by omega))

theorem rd32_eq_zero (m : Mem) (o : Nat) (h : ∀ i, o ≤ i → i ≤ o + 3 → m i = 0) :
    rd32 m o = 0 := by
  unfold rd32
  rw [h o (by omega) (by omega), h (o + 1) (by omega) (by omega),
    h (o + 2) (by omega) (by omega), h (o + 3) (by omega) (by omega)]

theorem wr32_zero_apply (m : Mem) (p o : Nat) (h : m o = 0) : wr32 m p 0 o = 0 := by
  unfold wr32
  split_ifs <;> simp [h]

/-- The buffer written to the free inode slots by `rfs_do_mount` is all zero. -/
theorem mount_free_inode_zero (a fm : Mem) (o : Nat) (ho : o < 4096) :
    wr32 (wr32 (wr32 (wr32 (memcpy a (wr32 (memset fm 0 RFS_BLKSIZE) 0 1) RFS_BLKSIZE) 0 0) 4
      T_FREE) 8 0) 12 0 o = 0 := by
  unfold T_FREE
  apply wr32_zero_apply
  apply wr32_zero_apply
  apply wr32_zero_apply
  by_cases h : o < 4
  · unfold wr32
    split_ifs <;> first | rfl | omega
  · rw [wr32_apply_gt _ _ _ _ (by omega), memcpy_apply_lt _ _ _ _ (by unfold RFS_BLKSIZE; omega),
      wr32_apply_gt _ _ _ _ (by omega), memset_apply_lt _ _ _ _ (by unfold RFS_BLKSIZE; omega)]

theorem rfs_do_mount_spec (dev : device) (pages : Nat → Mem) :
    ∃ fs, rfs_do_mount dev pages = Except.ok (0, fs) ∧
      fs.super = ⟨RFS_MAGIC, 112, 100, 10⟩ ∧
      rd32 fs.freemap 0 = 1 ∧ (∀ j, 1 ≤ j → j < 1024 → rd32 fs.freemap (4 * j) = 0) ∧
      (din_size (fs.dev.blocks 1) = 32 ∧ din_type (fs.dev.blocks 1) = T_DIR ∧
        din_nlinks (fs.dev.blocks 1) = 1 ∧ din_blocks (fs.dev.blocks 1) = 1 ∧
        din_addrs (fs.dev.blocks 1) 0 = 12 ∧
        ∀ j, 1 ≤ j → j < 10 → din_addrs (fs.dev.blocks 1) j = 0) ∧
      (∀ i, 1 ≤ i → i < 10 → ∀ o, o < 4096 → fs.dev.blocks (1 + i) o = 0) ∧
      (de_inum (fs.dev.blocks 12) 0 = 1 ∧ fs.dev.blocks 12 4 = 47 ∧ fs.dev.blocks 12 5 = 0) ∧
      (rd32 (fs.dev.blocks 0) 0 = RFS_MAGIC ∧ rd32 (fs.dev.blocks 0) 4 = 112 ∧
        rd32 (fs.dev.blocks 0) 8 = 100 ∧ rd32 (fs.dev.blocks 0) 12 = 10) ∧
      (∀ o, o < 4096 → fs.dev.blocks 11 o = fs.freemap o) ∧
      (∀ b, 13 ≤ b → fs.dev.blocks b = dev.blocks b) := by
  unfold rfs_do_mount
  simp only [rfs_w1block, rfs_create_dirblock, rfs_do_mount_inodes_eq, bind, Except.bind, pure,
    Except.pure, ne_eq, not_true_eq_false, ↓reduceIte]
  refine ⟨_, rfl, ?_, ?_, ?_, ?_, ?_, ?_, ?_, ?_, ?_⟩
  · simp [RFS_MAX_INODE_NUM, RFS_NDIRECT]
  · simp [rd32_wr32_same]
  · intro j h1 h2
    rw [rd32_wr32_disj _ _ _ _ (by omega)]
    exact rd32_eq_zero _ _ (fun i _ _ => memset_apply_lt _ _ _ _ (by unfold RFS_BLKSIZE; omega))
  · simp (disch := omega) [RFS_BLKN_FREE, RFS_BLKN_INODE, din_size, din_type, din_nlinks,
      din_blocks, din_addrs, rd32_wr32_same, rd32_wr32_disj, sizeof_rfs_direntry, T_DIR]
    intro j h1 h2
    rw [rd32_wr32_disj _ _ _ _ (by omega), rd32_wr32_disj _ _ _ _ (by omega),
      rd32_wr32_disj _ _ _ _ (by omega), rd32_wr32_disj _ _ _ _ (by omega),
      rd32_wr32_disj _ _ _ _ (by omega)]
    exact rd32_eq_zero _ _ (fun i _ _ => mount_free_inode_zero _ _ i (by omega))
  · intro i h1 h2 o ho
    simp only [RFS_BLKN_FREE, RFS_BLKN_INODE, RFS_MAX_INODE_NUM]
    rw [if_neg (by omega), if_neg (by omega), if_pos (by omega)]
    exact mount_free_inode_zero _ _ o ho
  · simp only [RFS_BLKN_FREE, RFS_BLKN_INODE, de_inum, ↓reduceIte]
    refine ⟨?_, ?_, ?_⟩
    · rw [rd32_strcpy_at_lt _ _ _ _ (by omega), rd32_wr32_same]
    · exact strcpy_at_apply_in _ 4 (cstr [47]) 0 (by rw [strlen_slash]; omega)
    · exact strcpy_at_apply_in _ 4 (cstr [47]) 1 (by rw [strlen_slash])
  · simp only [RFS_BLKN_FREE, RFS_BLKN_INODE, RFS_BLKN_SUPER, RFS_BLKN_BITMAP, RFS_MAX_INODE_NUM,
      RFS_NDIRECT, rfs_superblock.bytes]
    simp (disch := omega) [rd32_wr32_same, rd32_wr32_disj, rd32_memcpy_lt, RFS_BLKSIZE, RFS_MAGIC]
  · intro o ho
    simp only [RFS_BLKN_FREE, RFS_BLKN_INODE, RFS_BLKN_SUPER, RFS_BLKN_BITMAP, RFS_MAX_INODE_NUM]
    simp only [↓reduceIte]
    exact memcpy_apply_lt _ _ _ _ (by unfold RFS_BLKSIZE; omega)
  · intro b hb
    simp only [RFS_BLKN_FREE, RFS_BLKN_INODE, RFS_BLKN_SUPER, RFS_BLKN_BITMAP, RFS_MAX_INODE_NUM]
    rw [if_neg (by omega), if_neg (by omega), if_neg (by omega), if_neg (by omega),
      if_neg (by omega)]

/-! ## Lemmas: the scans of `rfs_create` and `rfs_alloc_block` -/

theorem rfs_create_scan_found (rfs : rfs_fs) (n i k b0 : Nat) (hk : k < n)
    (hfree : din_type (rfs.dev.blocks (RFS_BLKN_INODE + (i + k))) = T_FREE)
    (hused : ∀ j, j < k → din_type (rfs.dev.blocks (RFS_BLKN_INODE + (i + j))) ≠ T_FREE) :
    rfs_create_scan n i (b0, rfs) =
      (RFS_BLKN_INODE + (i + k),
        { rfs with buffer := rfs.dev.blocks (RFS_BLKN_INODE + (i + k)) }) := by
  induction n generalizing i k b0 rfs with
  | zero => omega
  | succ m ih =>
    unfold rfs_create_scan
    simp only [rfs_r1block]
    rcases Nat.eq_zero_or_pos k with h0 | hpos
    · subst h0
      rw [if_pos (by simpa using hfree)]
      rfl
    · rw [if_neg (by simpa using hused 0 hpos)]
      have := ih { rfs with buffer := rfs.dev.blocks (RFS_BLKN_INODE + i) } (i + 1) (k - 1)
        (RFS_BLKN_INODE + i) (by omega)
        (by simpa [show i + 1 + (k - 1) = i + k by omega] using hfree)
        (by
          intro j hj
          have := hused (j + 1) (by omega)
          simpa [show i + 1 + j = i + (j + 1) by omega] using this)
      rw [this]
      simp [show i + 1 + (k - 1) = i + k by omega]

theorem rfs_create_scan_full (rfs : rfs_fs) (n i b0 : Nat)
    (hused : ∀ j, j < n + 1 → din_type (rfs.dev.blocks (RFS_BLKN_INODE + (i + j))) ≠ T_FREE) :
    rfs_create_scan (n + 1) i (b0, rfs) =
      (RFS_BLKN_INODE + (i + n),
        { rfs with buffer := rfs.dev.blocks (RFS_BLKN_INODE + (i + n)) }) := by
  induction n generalizing i b0 rfs with
  | zero =>
    unfold rfs_create_scan
    simp only [rfs_r1block]
    rw [if_neg (by simpa using hused 0 (by omega))]
    rfl
  | succ m ih =>
    unfold rfs_create_scan
    simp only [rfs_r1block]
    rw [if_neg (by simpa using hused 0 (by omega))]
    have := ih { rfs with buffer := rfs.dev.blocks (RFS_BLKN_INODE + i) } (i + 1)
      (RFS_BLKN_INODE + i) (by
        intro j hj
        have := hused (j + 1) (by omega)
        simpa [show i + 1 + j = i + (j + 1) by omega] using this)
    rw [this]
    simp [show i + 1 + m = i + (m + 1) by omega]

theorem rfs_alloc_block_loop_found (fm : Mem) (n i f : Nat) (hf : f < n)
    (hfree : rd32 fm (4 * (i + f)) = 0) (hused : ∀ j, j < f → rd32 fm (4 * (i + j)) ≠ 0) :
    rfs_alloc_block_loop fm n i =
      (wr32 fm (4 * (i + f)) 1, some (RFS_BLKN_FREE + (i + f))) := by
  induction n generalizing i f with
  | zero => omega
  | succ m ih =>
    unfold rfs_alloc_block_loop
    rcases Nat.eq_zero_or_pos f with h0 | hpos
    · subst h0
      rw [if_pos (by simpa using hfree)]
      rfl
    · rw [if_neg (by simpa using hused 0 hpos)]
      have := ih (i + 1) (f - 1) (by omega)
        (by simpa [show i + 1 + (f - 1) = i + f by omega] using hfree)
        (by
          intro j hj
          have := hused (j + 1) (by omega)
          simpa [show i + 1 + j = i + (j + 1) by omega] using this)
      rw [this, show i + 1 + (f - 1) = i + f by omega]

theorem rfs_alloc_block_loop_none (fm : Mem) (n i : Nat)
    (hused : ∀ j, j < n → rd32 fm (4 * (i + j)) ≠ 0) :
    rfs_alloc_block_loop fm n i = (fm, none) := by
  induction n generalizing i with
  | zero => rfl
  | succ m ih =>
    unfold rfs_alloc_block_loop
    rw [if_neg (by simpa using hused 0 (by omega))]
    exact ih (i + 1) (by
      intro j hj
      have := hused (j + 1) (by omega)
      simpa [show i + 1 + j = i + (j + 1) by omega] using this)

theorem rfs_alloc_block_found (rfs : rfs_fs) (f : Nat) (hf : f < rfs.super.nblocks)
    (hfree : rd32 rfs.freemap (4 * f) = 0) (hused : ∀ j, j < f → rd32 rfs.freemap (4 * j) ≠ 0) :
    rfs_alloc_block rfs =
      Except.ok (RFS_BLKN_FREE + f, { rfs with freemap := wr32 rfs.freemap (4 * f) 1 }) := by
  unfold rfs_alloc_block
  rw [rfs_alloc_block_loop_found rfs.freemap rfs.super.nblocks 0 f hf (by simpa using hfree)
    (by intro j hj; simpa using hused j hj)]
  simp [pure, Except.pure]

theorem rfs_alloc_block_none (rfs : rfs_fs)
    (hused : ∀ j, j < rfs.super.nblocks → rd32 rfs.freemap (4 * j) ≠ 0) :
    rfs_alloc_block rfs = panic "rfs_alloc_block: no free block!" := by
  unfold rfs_alloc_block
  rw [rfs_alloc_block_loop_none rfs.freemap rfs.super.nblocks 0
    (by intro j hj; simpa using hused j hj)]

/-! ## Lemmas: `rfs_create_inode` and `rfs_create` -/

theorem rfs_create_inode_file (fs : Nat) (din : Mem) (ino : Nat) (h : din_type din = T_FILE) :
    rfs_create_inode fs din ino =
      Except.ok (0, ⟨dinode_of din, ino, 0, fs, inode_ops.rfs_node_fileops⟩) := by
  simp [rfs_create_inode, rfs_get_ops, h, T_FILE, T_DIR, dinode_of, bind, Except.bind, pure,
    Except.pure]

theorem rfs_create_inode_dir (fs : Nat) (din : Mem) (ino : Nat) (h : din_type din = T_DIR) :
    rfs_create_inode fs din ino =
      Except.ok (0, ⟨dinode_of din, ino, 0, fs, inode_ops.rfs_node_dirops⟩) := by
  simp [rfs_create_inode, rfs_get_ops, h, T_DIR, dinode_of, bind, Except.bind, pure,
    Except.pure]

theorem rfs_create_inode_invalid (fs : Nat) (din : Mem) (ino : Nat) (h1 : din_type din ≠ T_DIR)
    (h2 : din_type din ≠ T_FILE) :
    rfs_create_inode fs din ino = panic "RFS: invalid file type" := by
  simp [rfs_create_inode, rfs_get_ops, h1, h2, bind, Except.bind, panic]

/-- The dinode that `rfs_create` writes over the block `old`, with first data
block `blk`. -/
theorem create_dinode_fields (old : Mem) (blk : Nat) (hblk : blk < 4294967296) :
    din_size (wr32 (wr32 (wr32 (wr32 (wr32 old 0 0) 4 T_FILE) 8 1) 12 1) 16 blk) = 0 ∧
    din_type (wr32 (wr32 (wr32 (wr32 (wr32 old 0 0) 4 T_FILE) 8 1) 12 1) 16 blk) = T_FILE ∧
    din_nlinks (wr32 (wr32 (wr32 (wr32 (wr32 old 0 0) 4 T_FILE) 8 1) 12 1) 16 blk) = 1 ∧
    din_blocks (wr32 (wr32 (wr32 (wr32 (wr32 old 0 0) 4 T_FILE) 8 1) 12 1) 16 blk) = 1 ∧
    din_addrs (wr32 (wr32 (wr32 (wr32 (wr32 old 0 0) 4 T_FILE) 8 1) 12 1) 16 blk) 0 = blk ∧
    ∀ j, 1 ≤ j →
      din_addrs (wr32 (wr32 (wr32 (wr32 (wr32 old 0 0) 4 T_FILE) 8 1) 12 1) 16 blk) j
        = din_addrs old j := by
  refine ⟨?_, ?_, ?_, ?_, ?_, ?_⟩
  · simp (disch := omega) [din_size, rd32_wr32_same, rd32_wr32_disj]
  · simp (disch := omega) [din_type, rd32_wr32_same, rd32_wr32_disj, T_FILE]
  · simp (disch := omega) [din_nlinks, rd32_wr32_same, rd32_wr32_disj]
  · simp (disch := omega) [din_blocks, rd32_wr32_same, rd32_wr32_disj]
  · simp (disch := omega) [din_addrs, rd32_wr32_same, rd32_wr32_disj, Nat.mod_eq_of_lt hblk]
  · intro j hj
    unfold din_addrs
    rw [rd32_wr32_disj _ _ _ _ (by omega), rd32_wr32_disj _ _ _ _ (by omega),
      rd32_wr32_disj _ _ _ _ (by omega), rd32_wr32_disj _ _ _ _ (by omega),
      rd32_wr32_disj _ _ _ _ (by omega)]

theorem rfs_create_spec (rfs : rfs_fs) (dir : inode) (name : Mem) (k f : Nat)
    (hk : k < RFS_MAX_INODE_NUM)
    (hkfree : din_type (rfs.dev.blocks (RFS_BLKN_INODE + k)) = T_FREE)
    (hkused : ∀ j, j < k → din_type (rfs.dev.blocks (RFS_BLKN_INODE + j)) ≠ T_FREE)
    (hf : f < rfs.super.nblocks) (hffree : rd32 rfs.freemap (4 * f) = 0)
    (hfused : ∀ j, j < f → rd32 rfs.freemap (4 * j) ≠ 0)
    (hdir : dir.inum ≠ RFS_BLKN_INODE + k)
    (hD1 : dir.in_info.addrs (dir.in_info.size / RFS_BLKSIZE) ≠ RFS_BLKN_INODE + k)
    (hD2 : dir.in_info.addrs (dir.in_info.size / RFS_BLKSIZE) ≠ dir.inum) :
    ∃ node rfs', rfs_create rfs dir name = Except.ok (0, node, rfs') ∧
      node = ⟨dinode_of (rfs'.dev.blocks (RFS_BLKN_INODE + k)), RFS_BLKN_INODE + k, 0,
          dir.in_fs, inode_ops.rfs_node_fileops⟩ ∧
      rfs'.super = rfs.super ∧ rfs'.freemap = wr32 rfs.freemap (4 * f) 1 ∧
      rfs'.dev.blocks (RFS_BLKN_INODE + k) =
        wr32 (wr32 (wr32 (wr32 (wr32 (rfs.dev.blocks (RFS_BLKN_INODE + k)) 0 0) 4 T_FILE) 8 1)
          12 1) 16 (RFS_BLKN_FREE + f) ∧
      rfs'.dev.blocks dir.inum =
        wr32 (rfs.dev.blocks dir.inum) 0
          (din_size (rfs.dev.blocks dir.inum) + sizeof_rfs_direntry) ∧
      rfs'.dev.blocks (dir.in_info.addrs (dir.in_info.size / RFS_BLKSIZE)) =
        strcpy_at (wr32 (rfs.dev.blocks (dir.in_info.addrs (dir.in_info.size / RFS_BLKSIZE)))
          (dir.in_info.size % RFS_BLKSIZE) (RFS_BLKN_INODE + k))
          (dir.in_info.size % RFS_BLKSIZE + 4) name ∧
      (∀ b, b ≠ RFS_BLKN_INODE + k → b ≠ dir.inum →
        b ≠ dir.in_info.addrs (dir.in_info.size / RFS_BLKSIZE) →
        rfs'.dev.blocks b = rfs.dev.blocks b) ∧
      rfs'.buffer = rfs'.dev.blocks (dir.in_info.addrs (dir.in_info.size / RFS_BLKSIZE)) := by
  have hscan := rfs_create_scan_found rfs RFS_MAX_INODE_NUM 0 k 0 hk
    (by simpa using hkfree) (by intro j hj; simpa using hkused j hj)
  simp only [Nat.zero_add] at hscan
  have halloc := rfs_alloc_block_found
    { rfs with buffer := wr32 (wr32 (wr32 (wr32 (rfs.dev.blocks (RFS_BLKN_INODE + k)) 0 0) 4
        T_FILE) 8 1) 12 1 } f hf hffree hfused
  have hty : din_type (wr32 (wr32 (wr32 (wr32 (wr32 (rfs.dev.blocks (RFS_BLKN_INODE + k)) 0 0) 4
      T_FILE) 8 1) 12 1) 16 (RFS_BLKN_FREE + f)) = T_FILE := by
    simp (disch := omega) [din_type, rd32_wr32_same, rd32_wr32_disj, T_FILE]
  unfold rfs_create
  simp only [hscan, bind, Except.bind, pure, Except.pure, halloc, rfs_w1block, rfs_r1block,
    rfs_create_inode_file _ _ _ hty, ne_eq, not_true_eq_false, ↓reduceIte]
  refine ⟨_, _, rfl, ?_, ?_, ?_, ?_, ?_, ?_, ?_, ?_⟩
  · simp only [if_neg hD1.symm, if_neg hD2.symm, if_neg hdir.symm, ↓reduceIte, if_neg hD1]
  · rfl
  · rfl
  · simp only [if_neg hD1.symm, if_neg hD2.symm, if_neg hdir.symm, ↓reduceIte, if_neg hD1]
  · simp only [if_neg hD1.symm, if_neg hD2.symm, if_neg hdir.symm, ↓reduceIte, if_neg hD1,
      if_neg hD2, if_neg hdir]
  · simp only [if_neg hD1.symm, if_neg hD2.symm, if_neg hdir.symm, ↓reduceIte, if_neg hD1,
      if_neg hD2, if_neg hdir]
  · intro b h1 h2 h3
    simp only [if_neg h1, if_neg h2, if_neg h3]
  · simp only [↓reduceIte]

/-! ## Lemmas: `rfs_lookup` -/

theorem maxde_eq : RFS_BLKSIZE / sizeof_rfs_direntry = 128 := by decide

theorem rfs_lookup_loop_step (fs : Nat) (dnode : rfs_dinode) (path : Mem) (rfs : rfs_fs)
    (m i de : Nat) (buf : Mem)
    (hinv : i % 128 = 0 ∨ (buf = dir_entry_block rfs dnode i ∧ de = dir_entry_offset i)) :
    rfs_lookup_loop fs dnode path (m + 1) i de { rfs with buffer := buf } =
      if strcmp (dir_entry_name rfs dnode i) path = 0 then
        (rfs_create_inode fs (rfs.dev.blocks (dir_entry_inum rfs dnode i))
          (dir_entry_stored_inum rfs dnode i)).map (fun r =>
            ((0 : Int), some r.2,
              { rfs with buffer := rfs.dev.blocks (dir_entry_inum rfs dnode i) }))
      else rfs_lookup_loop fs dnode path m (i + 1) (dir_entry_offset i + sizeof_rfs_direntry)
        { rfs with buffer := dir_entry_block rfs dnode i } := by
  conv_lhs => rw [rfs_lookup_loop]
  simp only [maxde_eq, rfs_r1block]
  by_cases h : i % 128 = 0
  · have e1 : dir_entry_block rfs dnode i = rfs.dev.blocks (dnode.addrs (i / 128)) := by
      unfold dir_entry_block; rw [maxde_eq]
    have e2 : dir_entry_offset i = 0 := by
      unfold dir_entry_offset; rw [maxde_eq, h]; rfl
    simp only [h, ↓reduceIte, dir_entry_name, dir_entry_inum, dir_entry_stored_inum, e1, e2]
    split
    · cases hc : rfs_create_inode fs (rfs.dev.blocks
        (de_inum (rfs.dev.blocks (dnode.addrs (i / 128))) 0))
        (de_inum (rfs.dev.blocks (de_inum (rfs.dev.blocks (dnode.addrs (i / 128))) 0)) 0) <;>
        simp [bind, Except.bind, Except.map, pure, Except.pure]
    · rfl
  · rcases hinv with h' | ⟨h1, h2⟩
    · exact absurd h' h
    · subst h1 h2
      simp only [h, ↓reduceIte, dir_entry_name, dir_entry_inum, dir_entry_stored_inum]
      split
      · cases hc : rfs_create_inode fs (rfs.dev.blocks
          (de_inum (dir_entry_block rfs dnode i) (dir_entry_offset i)))
          (de_inum (rfs.dev.blocks (de_inum (dir_entry_block rfs dnode i) (dir_entry_offset i)))
            (dir_entry_offset i)) <;>
          simp [bind, Except.bind, Except.map, pure, Except.pure]
      · rfl

theorem dir_entry_next (rfs : rfs_fs) (dnode : rfs_dinode) (i : Nat) :
    (i + 1) % 128 = 0 ∨ (dir_entry_block rfs dnode i = dir_entry_block rfs dnode (i + 1) ∧
      dir_entry_offset i + sizeof_rfs_direntry = dir_entry_offset (i + 1)) := by
  by_cases h : (i + 1) % 128 = 0
  · exact Or.inl h
  · right
    unfold dir_entry_block dir_entry_offset
    rw [maxde_eq]
    have h1 : (i + 1) / 128 = i / 128 := by omega
    have h2 : (i + 1) % 128 = i % 128 + 1 := by omega
    rw [h1, h2]
    unfold sizeof_rfs_direntry
    exact ⟨rfl, by omega⟩

theorem rfs_lookup_loop_found (fs : Nat) (dnode : rfs_dinode) (path : Mem) (rfs : rfs_fs)
    (n i de k : Nat) (buf : Mem)
    (hinv : i % 128 = 0 ∨ (buf = dir_entry_block rfs dnode i ∧ de = dir_entry_offset i))
    (hk1 : i ≤ k) (hk2 : k < i + n)
    (hmatch : strcmp (dir_entry_name rfs dnode k) path = 0)
    (hno : ∀ j, i ≤ j → j < k → strcmp (dir_entry_name rfs dnode j) path ≠ 0) :
    rfs_lookup_loop fs dnode path n i de { rfs with buffer := buf } =
      (rfs_create_inode fs (rfs.dev.blocks (dir_entry_inum rfs dnode k))
        (dir_entry_stored_inum rfs dnode k)).map (fun r =>
          ((0 : Int), some r.2,
            { rfs with buffer := rfs.dev.blocks (dir_entry_inum rfs dnode k) })) := by
  induction n generalizing i de buf with
  | zero => omega
  | succ m ih =>
    rw [rfs_lookup_loop_step fs dnode path rfs m i de buf hinv]
    rcases Nat.eq_or_lt_of_le hk1 with h | h
    · subst h
      rw [if_pos hmatch]
    · rw [if_neg (hno i (Nat.le_refl i) h)]
      exact ih (i + 1) _ _ (by
        rcases dir_entry_next rfs dnode i with h' | ⟨h1, h2⟩
        · exact Or.inl h'
        · exact Or.inr ⟨h1, h2⟩) h (by omega) (fun j hj1 hj2 => hno j (by omega) hj2)

theorem rfs_lookup_loop_none (fs : Nat) (dnode : rfs_dinode) (path : Mem) (rfs : rfs_fs)
    (n i de : Nat) (buf : Mem)
    (hinv : i % 128 = 0 ∨ (buf = dir_entry_block rfs dnode i ∧ de = dir_entry_offset i))
    (hno : ∀ j, i ≤ j → j < i + n → strcmp (dir_entry_name rfs dnode j) path ≠ 0) :
    ∃ buf', rfs_lookup_loop fs dnode path n i de { rfs with buffer := buf } =
      Except.ok (1, none, { rfs with buffer := buf' }) := by
  induction n generalizing i de buf with
  | zero => exact ⟨buf, rfl⟩
  | succ m ih =>
    rw [rfs_lookup_loop_step fs dnode path rfs m i de buf hinv]
    rw [if_neg (hno i (Nat.le_refl i) (by omega))]
    exact ih (i + 1) _ _ (by
      rcases dir_entry_next rfs dnode i with h' | ⟨h1, h2⟩
      · exact Or.inl h'
      · exact Or.inr ⟨h1, h2⟩) (fun j hj1 hj2 => hno j (by omega) (by omega))

theorem rfs_fs_eta (rfs : rfs_fs) : { rfs with buffer := rfs.buffer } = rfs := by
  cases rfs; rfl

theorem rfs_lookup_found (rfs : rfs_fs) (node : inode) (path : Mem) (k : Nat)
    (hk : k < rfs_lookup_nde node.in_info)
    (hmatch : strcmp (dir_entry_name rfs node.in_info k) path = 0)
    (hno : ∀ j, j < k → strcmp (dir_entry_name rfs node.in_info j) path ≠ 0) :
    rfs_lookup rfs node path =
      (rfs_create_inode node.in_fs (rfs.dev.blocks (dir_entry_inum rfs node.in_info k))
        (dir_entry_stored_inum rfs node.in_info k)).map (fun r =>
          ((0 : Int), some r.2,
            { rfs with buffer := rfs.dev.blocks (dir_entry_inum rfs node.in_info k) })) := by
  unfold rfs_lookup
  have := rfs_lookup_loop_found node.in_fs node.in_info path rfs (rfs_lookup_nde node.in_info)
    0 0 k rfs.buffer (Or.inl rfl) (Nat.zero_le k) (by omega) hmatch (fun j _ hj => hno j hj)
  rw [rfs_fs_eta] at this
  exact this

theorem rfs_lookup_none (rfs : rfs_fs) (node : inode) (path : Mem)
    (hno : ∀ j, j < rfs_lookup_nde node.in_info →
      strcmp (dir_entry_name rfs node.in_info j) path ≠ 0) :
    ∃ buf', rfs_lookup rfs node path = Except.ok (1, none, { rfs with buffer := buf' }) := by
  unfold rfs_lookup
  have := rfs_lookup_loop_none node.in_fs node.in_info path rfs (rfs_lookup_nde node.in_info)
    0 0 rfs.buffer (Or.inl rfl) (fun j _ hj => hno j (by omega))
  rw [rfs_fs_eta] at this
  exact this

/-! ## Lemmas: the device table -/

theorem same_env_refl (k : Kernel) : same_env k k :=
  ⟨fun _ => rfl, rfl, rfl, rfl⟩

theorem same_env_trans (k k1 k2 : Kernel) (h1 : same_env k k1) (h2 : same_env k1 k2) :
    same_env k k2 :=
  ⟨fun j => (h2.1 j).trans (h1.1 j), h2.2.1.trans h1.2.1, h2.2.2.1.trans h1.2.2.1,
    h2.2.2.2.trans h1.2.2.2⟩

theorem same_env_set_fs (k : Kernel) (i : Nat) (prfs : rfs_fs) : same_env k (set_fs k i prfs) := by
  refine ⟨fun j => ?_, rfl, rfl, rfl⟩
  unfold set_fs
  by_cases h : j = i
  · subst h
    simp only [↓reduceIte]
    cases k.vdev_list j <;> rfl
  · simp only [if_neg h]

theorem same_env_pfiles (k : Kernel) (p : files_struct) : same_env k { k with pfiles := p } :=
  ⟨fun _ => rfl, rfl, rfl, rfl⟩

theorem device_at_same_env (MAX_DEV : Nat) (k k1 : Kernel) (devname : Mem) (i : Nat)
    (h : same_env k k1) (hd : device_at MAX_DEV k devname i) : device_at MAX_DEV k1 devname i := by
  have key : ∀ j d, k.vdev_list j = some d → ∃ d1, k1.vdev_list j = some d1 ∧
      d1.devname = d.devname := by
    intro j d hj
    have := h.1 j
    rw [hj] at this
    cases h1 : k1.vdev_list j with
    | none => rw [h1] at this; simp at this
    | some d1 =>
      rw [h1] at this
      simp only [Option.map_some', Option.some.injEq] at this
      exact ⟨d1, rfl, this⟩
  obtain ⟨h1, ⟨d, hd1, hd2⟩, h3⟩ := hd
  refine ⟨h1, ?_, ?_⟩
  · obtain ⟨d1, e1, e2⟩ := key i d hd1
    exact ⟨d1, e1, by rw [e2]; exact hd2⟩
  · intro j hj
    obtain ⟨d0, e0, e0'⟩ := h3 j hj
    obtain ⟨d1, e1, e2⟩ := key j d0 e0
    exact ⟨d1, e1, by rw [e2]; exact e0'⟩

theorem get_fs_set_fs (k : Kernel) (i : Nat) (prfs : rfs_fs) (d : vfs_dev_t)
    (h : k.vdev_list i = some d) : get_fs (set_fs k i prfs) i = Except.ok prfs := by
  simp [get_fs, set_fs, h, pure, Except.pure]

theorem set_fs_set_fs (k : Kernel) (i : Nat) (a b : rfs_fs) :
    set_fs (set_fs k i a) i b = set_fs k i b := by
  unfold set_fs
  simp only [↓reduceIte, Kernel.mk.injEq, and_true]
  funext j
  by_cases h : j = i
  · subst h
    simp only [↓reduceIte]
    cases k.vdev_list j <;> rfl
  · simp only [if_neg h]

theorem get_fs_slot (k : Kernel) (i : Nat) (prfs : rfs_fs) (h : get_fs k i = Except.ok prfs) :
    ∃ d, k.vdev_list i = some d := by
  unfold get_fs at h
  cases hd : k.vdev_list i with
  | none => rw [hd] at h; simp [fault] at h
  | some d => exact ⟨d, rfl⟩

theorem vfs_dev_loop_found (vdev_list : Nat → Option vfs_dev_t) (devname : Mem)
    (n s i : Nat) (p : Option Nat) (hi : i < n)
    (hat : ∃ d, vdev_list (s + i) = some d ∧ strcmp d.devname devname = 0)
    (hbefore : ∀ j, j < i → ∃ d, vdev_list (s + j) = some d ∧ strcmp d.devname devname ≠ 0) :
    vfs_dev_loop vdev_list devname n s p = Except.ok (some (s + i)) := by
  induction n generalizing s i p with
  | zero => omega
  | succ m ih =>
    unfold vfs_dev_loop
    rcases Nat.eq_zero_or_pos i with h0 | hpos
    · subst h0
      obtain ⟨d, e1, e2⟩ := hat
      simp only [Nat.add_zero] at e1
      simp [e1, e2, pure, Except.pure]
    · obtain ⟨d, e1, e2⟩ := hbefore 0 hpos
      simp only [Nat.add_zero] at e1
      simp only [e1, if_neg e2]
      have := ih (s + 1) (i - 1) (some s) (by omega)
        (by simpa [show s + 1 + (i - 1) = s + i by omega] using hat)
        (by
          intro j hj
          have := hbefore (j + 1) (by omega)
          simpa [show s + 1 + j = s + (j + 1) by omega] using this)
      rw [this, show s + 1 + (i - 1) = s + i by omega]

theorem vfs_dev_loop_device_at (MAX_DEV : Nat) (k : Kernel) (devname : Mem) (i : Nat)
    (h : device_at MAX_DEV k devname i) :
    vfs_dev_loop k.vdev_list devname MAX_DEV 0 none = Except.ok (some i) := by
  have := vfs_dev_loop_found k.vdev_list devname MAX_DEV 0 i none h.1
    (by simpa using h.2.1) (by intro j hj; simpa using h.2.2 j hj)
  simpa using this

theorem vfs_mount_eq (MAX_DEV : Nat) (k : Kernel) (devname : Mem) (pages : Nat → Mem) (i : Nat)
    (d : vfs_dev_t) (fs : rfs_fs) (h : device_at MAX_DEV k devname i)
    (hd : k.vdev_list i = some d) (hm : rfs_do_mount d.dev pages = Except.ok (0, fs)) :
    vfs_mount MAX_DEV k devname pages = Except.ok (0, set_fs k i fs) := by
  unfold vfs_mount
  simp [vfs_dev_loop_device_at MAX_DEV k devname i h, hd, hm, bind, Except.bind, pure,
    Except.pure]

theorem rfs_get_root_eq (fsp : Nat) (prfs : rfs_fs)
    (h : din_type (prfs.dev.blocks RFS_BLKN_INODE) = T_DIR) :
    rfs_get_root fsp prfs =
      Except.ok (⟨dinode_of (prfs.dev.blocks RFS_BLKN_INODE), RFS_BLKN_INODE, 0, fsp,
        inode_ops.rfs_node_dirops⟩, { prfs with buffer := prfs.dev.blocks RFS_BLKN_INODE }) := by
  unfold rfs_get_root rfs_load_dinode
  simp [rfs_r1block, rfs_create_inode_dir _ _ _ h, bind, Except.bind, pure, Except.pure]

theorem vfs_get_root_eq (MAX_DEV : Nat) (k : Kernel) (devname : Mem) (i : Nat) (prfs : rfs_fs)
    (h : device_at MAX_DEV k devname i) (hfs : get_fs k i = Except.ok prfs)
    (hroot : din_type (prfs.dev.blocks RFS_BLKN_INODE) = T_DIR) :
    vfs_get_root MAX_DEV k devname =
      Except.ok (0, ⟨dinode_of (prfs.dev.blocks RFS_BLKN_INODE), RFS_BLKN_INODE, 0, i,
        inode_ops.rfs_node_dirops⟩,
        set_fs k i { prfs with buffer := prfs.dev.blocks RFS_BLKN_INODE }) := by
  unfold vfs_get_root
  simp [vfs_dev_loop_device_at MAX_DEV k devname i h, hfs, rfs_get_root_eq i prfs hroot, bind,
    Except.bind, pure, Except.pure]

/-! ## Lemmas: `get_device` -/

theorem get_device_colon_none (path : Mem) (fuel i n : Nat)
    (h1 : ∀ j, i ≤ j → j < n → path j ≠ 58) (h0 : ∀ j, i ≤ j → j < n → path j ≠ 0)
    (h2 : path n = 0) (h3 : i ≤ n) : get_device_colon path fuel i = -1 := by
  induction fuel generalizing i with
  | zero => rfl
  | succ m ih =>
    unfold get_device_colon
    rcases Nat.eq_or_lt_of_le h3 with h | h
    · subst h; rw [if_pos h2]
    · rw [if_neg (h0 i (Nat.le_refl i) h), if_neg (h1 i (Nat.le_refl i) h)]
      exact ih (i + 1) (fun j hj => h1 j (by omega)) (fun j hj => h0 j (by omega)) h

theorem get_device_colon_found (path : Mem) (fuel i c : Nat)
    (h1 : ∀ j, i ≤ j → j < c → path j ≠ 58) (h0 : ∀ j, i ≤ j → j < c → path j ≠ 0)
    (h2 : path c = 58) (h3 : i ≤ c) (h4 : c < i + fuel) :
    get_device_colon path fuel i = (c : Int) := by
  induction fuel generalizing i with
  | zero => omega
  | succ m ih =>
    unfold get_device_colon
    rcases Nat.eq_or_lt_of_le h3 with h | h
    · subst h; rw [if_neg (by rw [h2]; decide), if_pos h2]
    · rw [if_neg (h0 i (Nat.le_refl i) h), if_neg (h1 i (Nat.le_refl i) h)]
      exact ih (i + 1) (fun j hj => h1 j (by omega)) (fun j hj => h0 j (by omega)) h (by omega)

theorem strcmp_congr (a b c : Mem) (hb : terminated b) (h : ∀ j, j ≤ strlen b → c j = b j) :
    strcmp a c = 0 ↔ strcmp a b = 0 := by
  have hl : strlen c = strlen b := strlen_congr b c hb h
  have hc : terminated c := by unfold terminated; rw [hl]; exact hb
  rw [strcmp_eq_zero_iff a c hc, strcmp_eq_zero_iff a b hb, hl]
  constructor
  · intro hh j hj; rw [hh j hj, h j hj]
  · intro hh j hj; rw [hh j hj, h j hj]

theorem device_at_congr (MAX_DEV : Nat) (k : Kernel) (b c : Mem) (i : Nat) (hb : terminated b)
    (h : ∀ j, j ≤ strlen b → c j = b j) (hd : device_at MAX_DEV k b i) :
    device_at MAX_DEV k c i := by
  obtain ⟨h1, ⟨d, hd1, hd2⟩, h3⟩ := hd
  refine ⟨h1, ⟨d, hd1, (strcmp_congr _ b c hb h).2 hd2⟩, ?_⟩
  intro j hj
  obtain ⟨d0, e0, e1⟩ := h3 j hj
  exact ⟨d0, e0, fun hh => e1 ((strcmp_congr _ b c hb h).1 hh)⟩

/-- The device name that `get_device` extracts from a path whose first colon
is at offset `c` is the string of the `c` bytes before the colon. -/
theorem get_device_devname (stack path : Mem) (c : Nat) (h0 : ∀ j, j < c → path j ≠ 0)
    (hc : c < STR_MAX) :
    strlen (fun i => if i = c then 0 else path i) = c ∧
    ∀ j, strcpy stack (fun i => if i = c then 0 else path i) j =
      if j < c then path j else if j = c then 0 else stack j := by
  have hl : strlen (fun i => if i = c then 0 else path i) = c := by
    apply strlen_eq
    · intro j hj
      simp only [if_neg (Nat.ne_of_lt hj)]
      exact h0 j hj
    · simp
    · exact hc
  refine ⟨hl, ?_⟩
  intro j
  unfold strcpy
  rw [hl]
  by_cases h1 : j < c
  · have h2 : j ≤ c := by omega
    have h3 : j ≠ c := by omega
    simp only [if_pos h2, if_pos h1, if_neg h3]
  · by_cases h2 : j = c
    · subst h2; simp
    · have h3 : ¬ j ≤ c := by omega
      simp only [if_neg h3, if_neg h1, if_neg h2]

theorem get_device_eq (MAX_DEV : Nat) (k : Kernel) (path : Mem) (c i : Nat) (prfs : rfs_fs)
    (devname : Mem) (hcolon : path c = 58) (h58 : ∀ j, j < c → path j ≠ 58)
    (h0 : ∀ j, j < c → path j ≠ 0) (hc : c < 32)
    (hname : strlen devname = c ∧ ∀ j, j < c → devname j = path j)
    (hdev : device_at MAX_DEV k devname i) (hfs : get_fs k i = Except.ok prfs)
    (hroot : din_type (prfs.dev.blocks RFS_BLKN_INODE) = T_DIR) :
    get_device MAX_DEV k path =
      Except.ok (0, ptr_add path (c + 2),
        some ⟨dinode_of (prfs.dev.blocks RFS_BLKN_INODE), RFS_BLKN_INODE, 0, i,
          inode_ops.rfs_node_dirops⟩, path,
        set_fs k i { prfs with buffer := prfs.dev.blocks RFS_BLKN_INODE }) := by
  have hcol : get_device_colon path STR_MAX 0 = (c : Int) :=
    get_device_colon_found path STR_MAX 0 c (fun j _ hj => h58 j hj) (fun j _ hj => h0 j hj)
      hcolon (Nat.zero_le c) (by unfold STR_MAX; omega)
  obtain ⟨hl, hcpy⟩ := get_device_devname (k.stack 2) path c h0 (by unfold STR_MAX; omega)
  have hterm : terminated devname := by unfold terminated STR_MAX; omega
  have hdev' : device_at MAX_DEV k
      (strcpy (k.stack 2) (fun i => if i = c then 0 else path i)) i := by
    apply device_at_congr MAX_DEV k devname _ i hterm _ hdev
    intro j hj
    rw [hcpy j]
    rw [hname.1] at hj
    by_cases h1 : j < c
    · rw [if_pos h1, hname.2 j h1]
    · have : j = c := by omega
      subst this
      have := strlen_zero devname hterm
      rw [hname.1] at this
      simp [this]
  have hpath : (fun i => if i = c then 58 else (fun i => if i = c then 0 else path i) i) = path := by
    funext j
    by_cases h : j = c
    · subst h; simp [hcolon]
    · simp [h]
  unfold get_device
  simp only [hcol, bind, Except.bind, pure, Except.pure, Int.toNat_ofNat]
  rw [if_neg (by omega), hl, if_neg (by omega), vfs_get_root_eq MAX_DEV k _ i prfs hdev' hfs hroot]
  simp only [hpath]

/-! ## Lemmas: `vfs_lookup` and `vfs_open` -/

theorem rfs_create_post (rfs : rfs_fs) (dir : inode) (name : Mem) (k f : Nat)
    (h : create_pre rfs dir k f) :
    ∃ node rfs1, rfs_create rfs dir name = Except.ok (0, node, rfs1) ∧
      create_post rfs dir name k f node rfs1 := by
  obtain ⟨h1, h2, h3, h4, h5, h6, h7, h8, h9⟩ := h
  exact rfs_create_spec rfs dir name k f h1 h2 h3 h4 h5 h6 h7 h8 h9

theorem get_device_path (MAX_DEV : Nat) (k : Kernel) (path devname : Mem) (c i : Nat)
    (prfs : rfs_fs) (hp : device_path path devname c) (hdev : device_at MAX_DEV k devname i)
    (hfs : get_fs k i = Except.ok prfs)
    (hroot : din_type (prfs.dev.blocks RFS_BLKN_INODE) = T_DIR) :
    get_device MAX_DEV k path =
      Except.ok (0, ptr_add path (c + 2), some (root_inode i prfs), path,
        set_fs k i { prfs with buffer := prfs.dev.blocks RFS_BLKN_INODE }) := by
  obtain ⟨h1, h2, h3, h4, h5, h6⟩ := hp
  exact get_device_eq MAX_DEV k path c i prfs devname h1 h2 h3 h4 ⟨h5, h6⟩ hdev hfs hroot

theorem vfs_lookup_none (MAX_DEV : Nat) (k : Kernel) (path devname : Mem) (c i : Nat)
    (prfs : rfs_fs) (hp : device_path path devname c) (hdev : device_at MAX_DEV k devname i)
    (hfs : get_fs k i = Except.ok prfs)
    (hroot : din_type (prfs.dev.blocks RFS_BLKN_INODE) = T_DIR)
    (hno : ∀ j, j < rfs_lookup_nde (root_inode i prfs).in_info →
      strcmp (dir_entry_name prfs (root_inode i prfs).in_info j) (ptr_add path (c + 2)) ≠ 0) :
    ∃ buf, vfs_lookup MAX_DEV k path =
      Except.ok (1, none, set_fs k i { prfs with buffer := buf }) := by
  obtain ⟨d, hd⟩ := get_fs_slot k i prfs hfs
  obtain ⟨buf, hl⟩ := rfs_lookup_none { prfs with buffer := prfs.dev.blocks RFS_BLKN_INODE }
    (root_inode i prfs) (ptr_add path (c + 2)) hno
  refine ⟨buf, ?_⟩
  unfold vfs_lookup
  rw [get_device_path MAX_DEV k path devname c i prfs hp hdev hfs hroot]
  simp only [bind, Except.bind, pure, Except.pure]
  rw [if_neg (by decide)]
  simp only [vop_lookup, root_inode, get_fs_set_fs k i _ d hd, bind, Except.bind]
  simp only [root_inode] at hl
  rw [hl]
  simp only [pure, Except.pure, set_fs_set_fs]

theorem vfs_lookup_found (MAX_DEV : Nat) (k : Kernel) (path devname : Mem) (c i : Nat)
    (prfs : rfs_fs) (e : Nat) (hp : device_path path devname c)
    (hdev : device_at MAX_DEV k devname i) (hfs : get_fs k i = Except.ok prfs)
    (hroot : din_type (prfs.dev.blocks RFS_BLKN_INODE) = T_DIR)
    (he : e < rfs_lookup_nde (root_inode i prfs).in_info)
    (hmatch : strcmp (dir_entry_name prfs (root_inode i prfs).in_info e)
      (ptr_add path (c + 2)) = 0)
    (hno : ∀ j, j < e →
      strcmp (dir_entry_name prfs (root_inode i prfs).in_info j) (ptr_add path (c + 2)) ≠ 0)
    (hfile : din_type (prfs.dev.blocks (dir_entry_inum prfs (root_inode i prfs).in_info e))
      = T_FILE) :
    vfs_lookup MAX_DEV k path =
      Except.ok (0,
        some ⟨dinode_of (prfs.dev.blocks (dir_entry_inum prfs (root_inode i prfs).in_info e)),
          dir_entry_stored_inum prfs (root_inode i prfs).in_info e, 0, i,
          inode_ops.rfs_node_fileops⟩,
        set_fs k i { prfs with
          buffer := prfs.dev.blocks (dir_entry_inum prfs (root_inode i prfs).in_info e) }) := by
  obtain ⟨d, hd⟩ := get_fs_slot k i prfs hfs
  have hl := rfs_lookup_found { prfs with buffer := prfs.dev.blocks RFS_BLKN_INODE }
    (root_inode i prfs) (ptr_add path (c + 2)) e he hmatch hno
  have hfile' : din_type (({ prfs with buffer := prfs.dev.blocks RFS_BLKN_INODE } : rfs_fs).dev.blocks
      (dir_entry_inum { prfs with buffer := prfs.dev.blocks RFS_BLKN_INODE }
        (root_inode i prfs).in_info e)) = T_FILE := hfile
  rw [rfs_create_inode_file _ _ _ hfile'] at hl
  unfold vfs_lookup
  rw [get_device_path MAX_DEV k path devname c i prfs hp hdev hfs hroot]
  simp only [bind, Except.bind, pure, Except.pure]
  rw [if_neg (by decide)]
  simp only [vop_lookup, root_inode, get_fs_set_fs k i _ d hd, bind, Except.bind]
  simp only [root_inode] at hl
  rw [hl]
  simp only [pure, Except.pure, set_fs_set_fs, Except.map]
  rfl

theorem vfs_open_create (MAX_DEV : Nat) (k : Kernel) (path devname : Mem) (c i : Nat)
    (prfs : rfs_fs) (flags kk f : Nat) (hp : device_path path devname c)
    (hdev : device_at MAX_DEV k devname i) (hfs : get_fs k i = Except.ok prfs)
    (hroot : din_type (prfs.dev.blocks RFS_BLKN_INODE) = T_DIR)
    (hno : ∀ j, j < rfs_lookup_nde (root_inode i prfs).in_info →
      strcmp (dir_entry_name prfs (root_inode i prfs).in_info j) (ptr_add path (c + 2)) ≠ 0)
    (hmode : flags &&& MASK_FILEMODE = O_RDONLY ∨ flags &&& MASK_FILEMODE = O_WRONLY ∨
      flags &&& MASK_FILEMODE = O_RDWR)
    (hcreat : flags &&& O_CREATE ≠ 0)
    (hpre : create_pre prfs (root_inode i prfs) kk f) :
    ∃ node rfs1, vfs_open MAX_DEV k path flags =
        Except.ok (0, some { node with ref := node.ref + 1 }, set_fs k i rfs1) ∧
      create_post prfs (root_inode i prfs) (ptr_add path (c + 2)) kk f node rfs1 := by
  obtain ⟨d, hd⟩ := get_fs_slot k i prfs hfs
  obtain ⟨buf, hl⟩ := vfs_lookup_none MAX_DEV k path devname c i prfs hp hdev hfs hroot hno
  have hdev1 : device_at MAX_DEV (set_fs k i { prfs with buffer := buf }) devname i :=
    device_at_same_env MAX_DEV k _ devname i (same_env_set_fs k i _) hdev
  have hfs1 := get_fs_set_fs k i { prfs with buffer := buf } d hd
  have hg := get_device_path MAX_DEV (set_fs k i { prfs with buffer := buf }) path devname c i
    { prfs with buffer := buf } hp hdev1 hfs1 hroot
  rw [set_fs_set_fs] at hg
  have hroot_eq : root_inode i { prfs with buffer := buf } = root_inode i prfs := rfl
  rw [hroot_eq] at hg
  dsimp only at hg
  obtain ⟨node, rfs1, hc, hpost⟩ := rfs_create_post
    { prfs with buffer := prfs.dev.blocks RFS_BLKN_INODE } (root_inode i prfs)
    (ptr_add path (c + 2)) kk f hpre
  refine ⟨node, rfs1, ?_, hpost⟩
  have hmode' : ¬ ((flags &&& MASK_FILEMODE) ≠ O_RDONLY ∧ (flags &&& MASK_FILEMODE) ≠ O_WRONLY
      ∧ (flags &&& MASK_FILEMODE) ≠ O_RDWR) := by
    rcases hmode with h | h | h <;> simp [h]
  have hvop : vop_create (set_fs k i { prfs with buffer := prfs.dev.blocks RFS_BLKN_INODE })
      (root_inode i prfs) (ptr_add path (c + 2)) = Except.ok (0, node, set_fs k i rfs1) := by
    simp only [vop_create, root_inode, get_fs_set_fs k i _ d hd, bind, Except.bind]
    simp only [root_inode] at hc
    rw [hc]
    simp only [pure, Except.pure, set_fs_set_fs]
  unfold vfs_open
  simp only [if_neg hmode', hl, bind, Except.bind, pure, Except.pure, ↓reduceIte, if_neg hcreat,
    vfs_lookup_parent, hg, hvop, ne_eq, not_true_eq_false, Int.reduceNeg, Int.reduceEq,
    one_ne_zero, zero_ne_one]

theorem vfs_open_found (MAX_DEV : Nat) (k : Kernel) (path devname : Mem) (c i : Nat)
    (prfs : rfs_fs) (flags e : Nat) (hp : device_path path devname c)
    (hdev : device_at MAX_DEV k devname i) (hfs : get_fs k i = Except.ok prfs)
    (hroot : din_type (prfs.dev.blocks RFS_BLKN_INODE) = T_DIR)
    (he : e < rfs_lookup_nde (root_inode i prfs).in_info)
    (hmatch : strcmp (dir_entry_name prfs (root_inode i prfs).in_info e)
      (ptr_add path (c + 2)) = 0)
    (hno : ∀ j, j < e →
      strcmp (dir_entry_name prfs (root_inode i prfs).in_info j) (ptr_add path (c + 2)) ≠ 0)
    (hfile : din_type (prfs.dev.blocks (dir_entry_inum prfs (root_inode i prfs).in_info e))
      = T_FILE)
    (hmode : flags &&& MASK_FILEMODE = O_RDONLY ∨ flags &&& MASK_FILEMODE = O_WRONLY ∨
      flags &&& MASK_FILEMODE = O_RDWR) :
    vfs_open MAX_DEV k path flags =
      Except.ok (0,
        some ⟨dinode_of (prfs.dev.blocks (dir_entry_inum prfs (root_inode i prfs).in_info e)),
          dir_entry_stored_inum prfs (root_inode i prfs).in_info e, 1, i,
          inode_ops.rfs_node_fileops⟩,
        set_fs k i { prfs with
          buffer := prfs.dev.blocks (dir_entry_inum prfs (root_inode i prfs).in_info e) }) := by
  have hl := vfs_lookup_found MAX_DEV k path devname c i prfs e hp hdev hfs hroot he hmatch hno
    hfile
  have hmode' : ¬ ((flags &&& MASK_FILEMODE) ≠ O_RDONLY ∧ (flags &&& MASK_FILEMODE) ≠ O_WRONLY
      ∧ (flags &&& MASK_FILEMODE) ≠ O_RDWR) := by
    rcases hmode with h | h | h <;> simp [h]
  unfold vfs_open
  simp only [if_neg hmode', hl, bind, Except.bind, pure, Except.pure, ↓reduceIte, Int.reduceNeg,
    Int.reduceEq, one_ne_zero, zero_ne_one]

/-! ## Lemmas: the file table -/

theorem do_open_loop_found (ofile : Nat → file) (n s fd : Nat) (p : Option Nat) (h : fd < n)
    (hat : (ofile (s + fd)).status = fd_status.FD_NONE)
    (hbefore : ∀ j, j < fd → (ofile (s + j)).status ≠ fd_status.FD_NONE) :
    do_open_loop ofile n s p = (s + fd, some (s + fd)) := by
  induction n generalizing s fd p with
  | zero => omega
  | succ m ih =>
    unfold do_open_loop
    rcases Nat.eq_zero_or_pos fd with h0 | hpos
    · subst h0
      rw [if_pos (by simpa using hat)]
      rfl
    · rw [if_neg (by simpa using hbefore 0 hpos)]
      have := ih (s + 1) (fd - 1) (some s) (by omega)
        (by simpa [show s + 1 + (fd - 1) = s + fd by omega] using hat)
        (by
          intro j hj
          have := hbefore (j + 1) (by omega)
          simpa [show s + 1 + j = s + (j + 1) by omega] using this)
      rw [this, show s + 1 + (fd - 1) = s + fd by omega]

theorem find_file_loop_found (ofile : Nat → file) (fd : Int) (n s i : Nat) (p : Option Nat)
    (h : i < n) (hat : (ofile (s + i)).fd = fd) (hbefore : ∀ j, j < i → (ofile (s + j)).fd ≠ fd) :
    find_file_loop ofile fd n s p = some (s + i) := by
  induction n generalizing s i p with
  | zero => omega
  | succ m ih =>
    unfold find_file_loop
    rcases Nat.eq_zero_or_pos i with h0 | hpos
    · subst h0
      rw [if_pos (by simpa using hat)]
      rfl
    · rw [if_neg (by simpa using hbefore 0 hpos)]
      have := ih (s + 1) (i - 1) (some s) (by omega)
        (by simpa [show s + 1 + (i - 1) = s + i by omega] using hat)
        (by
          intro j hj
          have := hbefore (j + 1) (by omega)
          simpa [show s + 1 + j = s + (j + 1) by omega] using this)
      rw [this, show s + 1 + (i - 1) = s + i by omega]

theorem do_open_rfs (MAX_DEV MAX_FILES : Nat) (k k1 : Kernel) (path : Mem) (flags fd : Nat)
    (node : inode)
    (hmode : flags &&& MASK_FILEMODE = O_RDONLY ∨ flags &&& MASK_FILEMODE = O_WRONLY ∨
      flags &&& MASK_FILEMODE = O_RDWR)
    (hopen : vfs_open MAX_DEV k path flags = Except.ok (0, some node, k1))
    (hfd : first_free_fd MAX_FILES k1.pfiles fd) :
    do_open MAX_DEV MAX_FILES k path flags =
      Except.ok ((fd : Int), { k1 with pfiles :=
        { ofile := fun j =>
            if j = fd then
              { status := fd_status.FD_OPENED,
                readable := if flags &&& MASK_FILEMODE = O_RDONLY ∨
                  flags &&& MASK_FILEMODE = O_RDWR then 1 else 0,
                writable := if flags &&& MASK_FILEMODE = O_WRONLY ∨
                  flags &&& MASK_FILEMODE = O_RDWR then 1 else 0,
                fd := (fd : Int), ref := 1, off := node.in_info.size, node := some node }
            else k1.pfiles.ofile j,
          nfile := k1.pfiles.nfile + 1 } }) := by
  have hmode' : ¬ ((flags &&& MASK_FILEMODE) ≠ O_RDONLY ∧ (flags &&& MASK_FILEMODE) ≠ O_WRONLY
      ∧ (flags &&& MASK_FILEMODE) ≠ O_RDWR) := by
    rcases hmode with h | h | h <;> simp [h]
  have hloop := do_open_loop_found k1.pfiles.ofile MAX_FILES 0 fd none hfd.1
    (by simpa using hfd.2.1) (by intro j hj; simpa using hfd.2.2 j hj)
  simp only [Nat.zero_add] at hloop
  unfold do_open
  simp only [if_neg hmode', hopen, bind, Except.bind, pure, Except.pure, ne_eq,
    not_true_eq_false, ↓reduceIte, hloop, hfd.2.1, rfs_fstat]

/-! ## Lemmas: `rfs_write` and `rfs_read` within one block -/

theorem int32_of_lt (v : Nat) (h : v < 2147483648) : int32 v = (v : Int) := by
  unfold int32
  rw [Nat.mod_eq_of_lt (by omega), if_pos h]

theorem rfs_write_one_block (prfs : rfs_fs) (node : inode) (buf : Mem) (len : Nat)
    (hlen1 : 0 < len) (hlen2 : len ≤ RFS_BLKSIZE) (hblocks : node.in_info.blocks ≠ 0)
    (hne : node.in_info.addrs 0 ≠ node.inum) :
    ∃ prfs1, rfs_write prfs node buf len =
        Except.ok (0, { node with in_info :=
          { node.in_info with size := (strlen buf + 1) % 4294967296 } }, prfs1) ∧
      prfs1.super = prfs.super ∧ prfs1.freemap = prfs.freemap ∧
      (∀ j, j < RFS_BLKSIZE → prfs1.dev.blocks (node.in_info.addrs 0) j = buf j) ∧
      prfs1.dev.blocks node.inum =
        wr32 (wr32 (prfs.dev.blocks node.inum) 0 (strlen buf + 1)) 12 node.in_info.blocks ∧
      (∀ b, b ≠ node.in_info.addrs 0 → b ≠ node.inum →
        prfs1.dev.blocks b = prfs.dev.blocks b) := by
  unfold RFS_BLKSIZE at hlen2
  have hwt : (if int32 (len % RFS_BLKSIZE) > 0 then int32 (len / RFS_BLKSIZE) + 1
      else int32 (len / RFS_BLKSIZE)) = 1 := by
    unfold RFS_BLKSIZE
    rw [int32_of_lt _ (by omega), int32_of_lt _ (by omega)]
    by_cases h : len = 4096
    · subst h; decide
    · have h1 : len / 4096 = 0 := by omega
      have h2 : len % 4096 = len := by omega
      rw [h1, h2, if_pos (by omega)]
      rfl
  unfold rfs_write
  simp only [hwt, bind, Except.bind, pure, Except.pure]
  have h1 : (1 : Int).toNat = 1 := rfl
  rw [h1]
  simp only [rfs_write_loop, bind, Except.bind, pure, Except.pure, if_neg (Ne.symm hblocks),
    rfs_w1block, rfs_r1block, Int.sub_self, Nat.cast_zero, ↓reduceIte, Nat.zero_mul]
  refine ⟨_, rfl, rfl, rfl, ?_, ?_, ?_⟩
  · intro j hj
    simp only [if_neg hne, ↓reduceIte]
    rw [memcpy_apply_lt _ _ _ _ hj]
    unfold ptr_add
    rw [Nat.zero_add]
  · simp only [↓reduceIte, if_neg (Ne.symm hne)]
  · intro b hb1 hb2
    simp only [if_neg hb1, if_neg hb2]

theorem rfs_read_one_block (prfs : rfs_fs) (node : inode) (buf : Mem) (len : Nat) (stack : Mem)
    (hsize0 : 0 < node.in_info.size) (hsize : node.in_info.size < RFS_BLKSIZE)
    (hlen : node.in_info.size ≤ len) :
    rfs_read prfs node buf len stack =
      (0, strcpy buf (fun j => if j = node.in_info.size then 0
          else memcpy_at stack 0 (prfs.dev.blocks (node.in_info.addrs 0)) node.in_info.size j),
        { prfs with buffer := prfs.dev.blocks (node.in_info.addrs 0) }) := by
  unfold RFS_BLKSIZE at hsize
  have hu : int_to_uint64 node.in_info.size = node.in_info.size := by
    unfold int_to_uint64; rw [if_pos (by omega)]
  have hclamp : (if int_to_uint64 node.in_info.size < len then int_to_uint64 node.in_info.size
      else len) = node.in_info.size := by
    rw [hu]
    by_cases h : node.in_info.size < len
    · rw [if_pos h]
    · rw [if_neg h]; omega
  unfold rfs_read
  simp only [hclamp]
  have h1 : node.in_info.size / RFS_BLKSIZE = 0 := by unfold RFS_BLKSIZE; omega
  have h2 : node.in_info.size % RFS_BLKSIZE = node.in_info.size := by unfold RFS_BLKSIZE; omega
  rw [h1, h2, int32_of_lt _ (by omega), int32_of_lt _ (by omega)]
  have h3 : ((node.in_info.size : Nat) : Int) > 0 := by omega
  simp only [if_pos h3, Nat.cast_zero, Int.zero_add, Int.sub_self, Int.toNat_zero, rfs_read_loop,
    rfs_r1block, Nat.zero_mul, Int.toNat_ofNat]

/-! ## Lemmas: `do_write` and `do_read` -/

theorem do_write_rfs (MAX_FILES : Nat) (k : Kernel) (fd : Int) (buf : Mem) (count i : Nat)
    (node node1 : inode) (prfs prfs1 : rfs_fs)
    (hfind : find_file_loop k.pfiles.ofile fd MAX_FILES 0 none = some i)
    (hst : (k.pfiles.ofile i).status ≠ fd_status.FD_HOST)
    (hw : (k.pfiles.ofile i).writable ≠ 0)
    (hnode : (k.pfiles.ofile i).node = some node)
    (hops : node.in_ops = inode_ops.rfs_node_fileops)
    (hfs : get_fs k node.in_fs = Except.ok prfs)
    (hwrite : rfs_write prfs node buf count = Except.ok (0, node1, prfs1)) :
    do_write MAX_FILES k fd buf count =
      Except.ok (0, { set_fs k node1.in_fs prfs1 with pfiles :=
        { k.pfiles with ofile := fun j =>
            if j = i then { k.pfiles.ofile i with node := some node1 }
            else k.pfiles.ofile j } }) := by
  unfold do_write
  simp only [hfind, if_neg hst, if_neg hw, hnode, vop_write, hops, hfs, hwrite, bind, Except.bind,
    pure, Except.pure]
  rfl

theorem do_read_rfs (MAX_FILES : Nat) (k : Kernel) (fd : Int) (buf : Mem) (count i : Nat)
    (node : inode) (prfs : rfs_fs)
    (hfind : find_file_loop k.pfiles.ofile fd MAX_FILES 0 none = some i)
    (hst : (k.pfiles.ofile i).status ≠ fd_status.FD_HOST)
    (hr : (k.pfiles.ofile i).readable ≠ 0)
    (hnode : (k.pfiles.ofile i).node = some node)
    (hops : node.in_ops = inode_ops.rfs_node_fileops)
    (hfs : get_fs k node.in_fs = Except.ok prfs) :
    do_read MAX_FILES k fd buf count =
      Except.ok (0, strcpy buf (rfs_read prfs node (k.stack 0) count (k.stack 1)).2.1,
        set_fs k node.in_fs (rfs_read prfs node (k.stack 0) count (k.stack 1)).2.2) := by
  unfold do_read
  simp only [hfind, if_neg hst, if_neg hr, hnode, vop_read, hops, hfs, bind, Except.bind,
    pure, Except.pure]

/-- The string that `rfs_read` and `do_read` deliver when the first block of
the file starts with a string of `n` bytes and the size is `n + 1`. -/
theorem read_back_string (buf stack blk s : Mem) (n : Nat) (hn : strlen s = n)
    (hterm : terminated s) (hblk : ∀ j, j ≤ n → blk j = s j) (ubuf : Mem) :
    ∀ j, j ≤ n →
      strcpy ubuf (strcpy buf (fun j => if j = n + 1 then 0
        else memcpy_at stack 0 blk (n + 1) j)) j = s j := by
  have hB : ∀ j, j ≤ n → (fun j => if j = n + 1 then 0
      else memcpy_at stack 0 blk (n + 1) j) j = s j := by
    intro j hj
    simp only [if_neg (show j ≠ n + 1 by omega)]
    unfold memcpy_at
    rw [if_pos (by omega), Nat.sub_zero, hblk j hj]
  have hlB : strlen (fun j => if j = n + 1 then 0
      else memcpy_at stack 0 blk (n + 1) j) = n :=
    (strlen_congr s _ hterm (fun j hj => hB j (by rw [hn] at hj; exact hj))).trans hn
  have hC : ∀ j, j ≤ n → strcpy buf (fun j => if j = n + 1 then 0
      else memcpy_at stack 0 blk (n + 1) j) j = s j := by
    intro j hj
    unfold strcpy
    rw [hlB, if_pos hj]
    exact hB j hj
  have hlC : strlen (strcpy buf (fun j => if j = n + 1 then 0
      else memcpy_at stack 0 blk (n + 1) j)) = n :=
    (strlen_congr s _ hterm (fun j hj => hC j (by rw [hn] at hj; exact hj))).trans hn
  intro j hj
  unfold strcpy at hlC ⊢
  rw [hlC, if_pos hj]
  exact hC j hj

/-! ## Lemmas: the session of `user/app_file.c` -/

theorem rfs_do_mount_post (dev : device) (pages : Nat → Mem) :
    ∃ fs, rfs_do_mount dev pages = Except.ok (0, fs) ∧ mount_post dev fs :=
  rfs_do_mount_spec dev pages

theorem ramdisk0_path_start (name : List Nat) (j : Nat) (hj : j < 10) :
    ramdisk0_path name j = [114, 97, 109, 100, 105, 115, 107, 48, 58, 47].getD j 0 := by
  unfold ramdisk0_path cstr
  exact List.getD_append _ _ _ _ (by simpa using hj)

theorem ramdisk0_path_device (name : List Nat) : device_path (ramdisk0_path name) ramdisk0 8 := by
  refine ⟨ramdisk0_path_start name 8 (by omega), ?_, ?_, by decide, by decide, ?_⟩
  · intro j hj
    rw [ramdisk0_path_start name j (by omega)]
    interval_cases j <;> decide
  · intro j hj
    rw [ramdisk0_path_start name j (by omega)]
    interval_cases j <;> decide
  · intro j hj
    rw [ramdisk0_path_start name j (by omega)]
    interval_cases j <;> rfl

theorem ramdisk0_subpath (name : List Nat) : ptr_add (ramdisk0_path name) (8 + 2) = cstr name := by
  funext j
  unfold ptr_add ramdisk0_path cstr
  rw [List.getD_append_right _ _ _ _ (by simp)]
  congr 1
  simp

theorem strcmp_slash_ne (a : Mem) (name : List Nat) (h0 : a 0 = 47) (h1 : a 1 = 0)
    (hname0 : ∀ c ∈ name, c ≠ 0) (hne : name ≠ [47]) (hlen : name.length < STR_MAX) :
    strcmp a (cstr name) ≠ 0 := by
  have hl := strlen_cstr name hname0 hlen
  have hterm : terminated (cstr name) := by unfold terminated; rw [hl]; exact hlen
  intro h
  rw [strcmp_eq_zero_iff a _ hterm, hl] at h
  match name, hname0, hne, h with
  | [], _, _, h =>
    have := h 0 (by simp)
    rw [h0] at this
    simp [cstr] at this
  | [x], _, hne, h =>
    have := h 0 (by simp)
    rw [h0] at this
    simp [cstr] at this
    exact hne (by rw [this])
  | x :: y :: rest, hname0, _, h =>
    have := h 1 (by simp)
    rw [h1] at this
    simp [cstr] at this
    exact hname0 y (by simp) this.symm

theorem root_entry (fs : rfs_fs) (i j : Nat) (hj : j < 128)
    (ha : din_addrs (fs.dev.blocks 1) 0 = 12) :
    dir_entry_block fs (root_inode i fs).in_info j = fs.dev.blocks 12 ∧
    dir_entry_offset j = j * 32 := by
  unfold dir_entry_block dir_entry_offset
  rw [maxde_eq]
  have h1 : j / 128 = 0 := by omega
  have h2 : j % 128 = j := by omega
  rw [h1, h2]
  refine ⟨?_, rfl⟩
  simp [root_inode, dinode_of, RFS_NDIRECT, RFS_BLKN_INODE, ha]

theorem rfs_lookup_nde_root (fs : rfs_fs) (i n : Nat) (h : din_size (fs.dev.blocks 1) = n)
    (hn : n < 2147483648) : rfs_lookup_nde (root_inode i fs).in_info = n / 32 := by
  unfold rfs_lookup_nde
  simp only [root_inode, dinode_of, RFS_BLKN_INODE, h, if_pos hn, sizeof_rfs_direntry]

theorem flags_rdwr_create :
    ((O_RDWR ||| O_CREATE) &&& MASK_FILEMODE = O_RDWR) ∧ ((O_RDWR ||| O_CREATE) &&& O_CREATE ≠ 0)
      ∧ (O_RDWR &&& MASK_FILEMODE = O_RDWR) := by
  decide

theorem mount_create_pre (dev : device) (fs0 : rfs_fs) (i : Nat) (hm : mount_post dev fs0) :
    create_pre fs0 (root_inode i fs0) 1 1 := by
  obtain ⟨hsuper, hfm0, hfm, ⟨hsz, hty, _, _, ha0, _⟩, hfree, _⟩ := hm
  refine ⟨by decide, ?_, ?_, ?_, ?_, ?_, ?_, ?_, ?_⟩
  · unfold din_type
    exact rd32_eq_zero _ _ (fun o _ _ => hfree 1 (by omega) (by omega) o (by omega))
  · intro j hj
    have : j = 0 := by omega
    subst this
    show din_type (fs0.dev.blocks 1) ≠ T_FREE
    rw [hty]
    decide
  · rw [hsuper]; decide
  · exact hfm 1 (by omega) (by omega)
  · intro j hj
    have : j = 0 := by omega
    subst this
    show rd32 fs0.freemap 0 ≠ 0
    rw [hfm0]
    decide
  · show (1 : Nat) ≠ 1 + 1
    decide
  · simp [root_inode, dinode_of, hsz, RFS_BLKSIZE, RFS_NDIRECT, RFS_BLKN_INODE, ha0]
  · simp [root_inode, dinode_of, hsz, RFS_BLKSIZE, RFS_NDIRECT, RFS_BLKN_INODE, ha0]

theorem open_create_session (MAX_DEV MAX_FILES : Nat) (k : Kernel) (pages : Nat → Mem)
    (i fd : Nat) (name : List Nat) (hdev : device_at MAX_DEV k ramdisk0 i)
    (hfd : first_free_fd MAX_FILES k.pfiles fd) (hname0 : ∀ c ∈ name, c ≠ 0)
    (hname : name ≠ [47]) (hlen : name.length < 28) :
    ∃ d fs0 fs1 node, k.vdev_list i = some d ∧ mount_post d.dev fs0 ∧
      rfs_init MAX_DEV k pages = Except.ok (set_fs k i fs0) ∧
      do_open MAX_DEV MAX_FILES (set_fs k i fs0) (ramdisk0_path name) (O_RDWR ||| O_CREATE) =
        Except.ok ((fd : Int), { set_fs k i fs1 with pfiles :=
          { ofile := fun j =>
              if j = fd then
                { status := fd_status.FD_OPENED, readable := 1, writable := 1, fd := (fd : Int),
                  ref := 1, off := node.in_info.size,
                  node := some { node with ref := node.ref + 1 } }
              else k.pfiles.ofile j,
            nfile := k.pfiles.nfile + 1 } }) ∧
      create_post fs0 (root_inode i fs0) (cstr name) 1 1 node fs1 := by
  obtain ⟨d, hd, _⟩ := hdev.2.1
  obtain ⟨fs0, hmount, hm⟩ := rfs_do_mount_post d.dev pages
  have hinit : rfs_init MAX_DEV k pages = Except.ok (set_fs k i fs0) := by
    unfold rfs_init
    simp [vfs_mount_eq MAX_DEV k ramdisk0 pages i d fs0 hdev hd hmount, bind, Except.bind, pure,
      Except.pure]
  have hdev1 : device_at MAX_DEV (set_fs k i fs0) ramdisk0 i :=
    device_at_same_env MAX_DEV k _ ramdisk0 i (same_env_set_fs k i _) hdev
  have hfs1 := get_fs_set_fs k i fs0 d hd
  have hpre := mount_create_pre d.dev fs0 i hm
  have hm' := hm
  obtain ⟨_, _, _, ⟨hsz, hty, _, _, ha0, _⟩, _, ⟨_, h4, h5⟩, _⟩ := hm'
  have hnde := rfs_lookup_nde_root fs0 i 32 hsz (by omega)
  have hno : ∀ j, j < rfs_lookup_nde (root_inode i fs0).in_info →
      strcmp (dir_entry_name fs0 (root_inode i fs0).in_info j)
        (ptr_add (ramdisk0_path name) (8 + 2)) ≠ 0 := by
    intro j hj
    rw [hnde] at hj
    have : j = 0 := by omega
    subst this
    rw [ramdisk0_subpath]
    unfold dir_entry_name
    rw [(root_entry fs0 i 0 (by omega) ha0).1, (root_entry fs0 i 0 (by omega) ha0).2]
    exact strcmp_slash_ne _ name h4 h5 hname0 hname (by unfold STR_MAX; omega)
  obtain ⟨node, fs1, hopen, hpost⟩ := vfs_open_create MAX_DEV (set_fs k i fs0)
    (ramdisk0_path name) ramdisk0 8 i fs0 (O_RDWR ||| O_CREATE) 1 1 (ramdisk0_path_device name)
    hdev1 hfs1 hty hno (Or.inr (Or.inr flags_rdwr_create.1)) flags_rdwr_create.2.1 hpre
  rw [set_fs_set_fs] at hopen
  rw [ramdisk0_subpath] at hpost
  have hopen2 := do_open_rfs MAX_DEV MAX_FILES (set_fs k i fs0) (set_fs k i fs1)
    (ramdisk0_path name) (O_RDWR ||| O_CREATE) fd { node with ref := node.ref + 1 }
    (Or.inr (Or.inr flags_rdwr_create.1)) hopen hfd
  refine ⟨d, fs0, fs1, node, hd, hm, hinit, ?_, hpost⟩
  rw [hopen2]
  simp only [flags_rdwr_create.1]
  rfl

theorem session_create_facts (dev : device) (fs0 fs1 : rfs_fs) (node : inode) (i : Nat)
    (name : Mem) (hm : mount_post dev fs0)
    (hpost : create_post fs0 (root_inode i fs0) name 1 1 node fs1) :
    node = ⟨dinode_of (fs1.dev.blocks 2), 2, 0, i, inode_ops.rfs_node_fileops⟩ ∧
    (din_size (fs1.dev.blocks 2) = 0 ∧ din_type (fs1.dev.blocks 2) = T_FILE ∧
      din_nlinks (fs1.dev.blocks 2) = 1 ∧ din_blocks (fs1.dev.blocks 2) = 1 ∧
      din_addrs (fs1.dev.blocks 2) 0 = 13) ∧
    (din_size (fs1.dev.blocks 1) = 64 ∧ din_type (fs1.dev.blocks 1) = T_DIR ∧
      din_addrs (fs1.dev.blocks 1) 0 = 12) ∧
    (de_inum (fs1.dev.blocks 12) 32 = 2 ∧
      (∀ j, j ≤ strlen name → fs1.dev.blocks 12 (36 + j) = name j) ∧
      fs1.dev.blocks 12 4 = 47 ∧ fs1.dev.blocks 12 5 = 0) ∧
    (∀ b, 13 ≤ b → fs1.dev.blocks b = dev.blocks b) := by
  obtain ⟨_, _, _, ⟨hsz, hty, _, _, ha0, _⟩, _, ⟨_, h4, h5⟩, _, _, hrest⟩ := hm
  have hD : (root_inode i fs0).in_info.addrs ((root_inode i fs0).in_info.size / RFS_BLKSIZE)
      = 12 := by
    simp [root_inode, dinode_of, hsz, RFS_BLKSIZE, RFS_NDIRECT, RFS_BLKN_INODE, ha0]
  have hoff : (root_inode i fs0).in_info.size % RFS_BLKSIZE = 32 := by
    simp [root_inode, dinode_of, hsz, RFS_BLKSIZE, RFS_BLKN_INODE]
  obtain ⟨hnode, _, _, hb2, hb1, hb12, hframe, _⟩ := hpost
  rw [hD, hoff] at hb12
  rw [hD] at hframe
  have hb2' : fs1.dev.blocks 2 = wr32 (wr32 (wr32 (wr32 (wr32 (fs0.dev.blocks 2) 0 0) 4 T_FILE)
      8 1) 12 1) 16 13 := hb2
  have hb1' : fs1.dev.blocks 1 = wr32 (fs0.dev.blocks 1) 0 (din_size (fs0.dev.blocks 1) + 32) :=
    hb1
  obtain ⟨f1, f2, f3, f4, f5, _⟩ := create_dinode_fields (fs0.dev.blocks 2) 13 (by omega)
  refine ⟨hnode, ?_, ?_, ?_, ?_⟩
  · rw [hb2']
    exact ⟨f1, f2, f3, f4, f5⟩
  · rw [hb1', hsz]
    refine ⟨?_, ?_, ?_⟩
    · unfold din_size; rw [rd32_wr32_same]
    · unfold din_type at hty ⊢; rw [rd32_wr32_disj _ _ _ _ (by omega)]; exact hty
    · unfold din_addrs at ha0 ⊢; rw [rd32_wr32_disj _ _ _ _ (by omega)]; exact ha0
  · rw [hb12]
    refine ⟨?_, ?_, ?_, ?_⟩
    · unfold de_inum
      rw [rd32_strcpy_at_lt _ _ _ _ (by omega), rd32_wr32_same]
      rfl
    · intro j hj
      exact strcpy_at_apply_in _ 36 name j hj
    · rw [strcpy_at_apply_lt _ _ _ _ (by omega), wr32_apply_lt _ _ _ _ (by omega)]
      exact h4
    · rw [strcpy_at_apply_lt _ _ _ _ (by omega), wr32_apply_lt _ _ _ _ (by omega)]
      exact h5
  · intro b hb
    rw [hframe b (by unfold RFS_BLKN_INODE; omega)
      (by simp only [root_inode, RFS_BLKN_INODE]; omega) (by omega)]
    exact hrest b hb

/-! ## Lemmas: writing and reading a file through its descriptor -/

theorem find_file_loop_congr (o1 o2 : Nat → file) (fd : Int) (n s : Nat) (p : Option Nat)
    (h : ∀ j, (o1 j).fd = (o2 j).fd) :
    find_file_loop o1 fd n s p = find_file_loop o2 fd n s p := by
  induction n generalizing s p with
  | zero => rfl
  | succ m ih =>
    unfold find_file_loop
    rw [h s, ih]

theorem find_file_own (MAX_FILES : Nat) (ofile : Nat → file) (fd : Nat) (h : fd < MAX_FILES)
    (hown : (ofile fd).fd = (fd : Int)) (hbefore : ∀ j, j < fd → (ofile j).fd = (j : Int)) :
    find_file_loop ofile (fd : Int) MAX_FILES 0 none = some fd := by
  have := find_file_loop_found ofile (fd : Int) MAX_FILES 0 fd none h (by simpa using hown)
    (by
      intro j hj
      rw [Nat.zero_add, hbefore j hj]
      omega)
  simpa using this

/-- One `do_write` of at most one block through a descriptor whose inode has a
first data block: the data block, the dinode block and the cached inode. -/
theorem do_write_one_block (MAX_FILES : Nat) (k : Kernel) (fd : Nat) (buf : Mem) (count : Nat)
    (node : inode) (prfs : rfs_fs)
    (hfind : find_file_loop k.pfiles.ofile (fd : Int) MAX_FILES 0 none = some fd)
    (hst : (k.pfiles.ofile fd).status = fd_status.FD_OPENED)
    (hw : (k.pfiles.ofile fd).writable ≠ 0)
    (hnode : (k.pfiles.ofile fd).node = some node)
    (hops : node.in_ops = inode_ops.rfs_node_fileops)
    (hfs : get_fs k node.in_fs = Except.ok prfs)
    (hlen1 : 0 < count) (hlen2 : count ≤ RFS_BLKSIZE) (hblocks : node.in_info.blocks ≠ 0)
    (hne : node.in_info.addrs 0 ≠ node.inum) :
    ∃ k1 prfs1, do_write MAX_FILES k (fd : Int) buf count = Except.ok (0, k1) ∧
      get_fs k1 node.in_fs = Except.ok prfs1 ∧ same_env k k1 ∧
      (∀ j, j ≠ fd → k1.pfiles.ofile j = k.pfiles.ofile j) ∧
      k1.pfiles.ofile fd = { k.pfiles.ofile fd with node := some { node with in_info :=
        { node.in_info with size := (strlen buf + 1) % 4294967296 } } } ∧
      prfs1.super = prfs.super ∧ prfs1.freemap = prfs.freemap ∧
      (∀ j, j < RFS_BLKSIZE → prfs1.dev.blocks (node.in_info.addrs 0) j = buf j) ∧
      prfs1.dev.blocks node.inum =
        wr32 (wr32 (prfs.dev.blocks node.inum) 0 (strlen buf + 1)) 12 node.in_info.blocks ∧
      (∀ b, b ≠ node.in_info.addrs 0 → b ≠ node.inum →
        prfs1.dev.blocks b = prfs.dev.blocks b) := by
  obtain ⟨prfs1, hwrite, h1, h2, h3, h4, h5⟩ :=
    rfs_write_one_block prfs node buf count hlen1 hlen2 hblocks hne
  obtain ⟨d, hd⟩ := get_fs_slot k node.in_fs prfs hfs
  have hdo := do_write_rfs MAX_FILES k (fd : Int) buf count fd node _ prfs prfs1 hfind
    (by rw [hst]; decide) hw hnode hops hfs hwrite
  refine ⟨_, prfs1, hdo, ?_, ?_, ?_, ?_, h1, h2, h3, h4, h5⟩
  · exact get_fs_set_fs k node.in_fs prfs1 d hd
  · exact same_env_trans k _ _ (same_env_set_fs k node.in_fs prfs1) (same_env_pfiles _ _)
  · intro j hj
    simp only [if_neg hj]
  · simp only [↓reduceIte]

/-- One `do_read` through a descriptor whose inode has a size below one
block. -/
theorem do_read_one_block (MAX_FILES : Nat) (k : Kernel) (fd : Nat) (buf : Mem) (count : Nat)
    (node : inode) (prfs : rfs_fs)
    (hfind : find_file_loop k.pfiles.ofile (fd : Int) MAX_FILES 0 none = some fd)
    (hst : (k.pfiles.ofile fd).status = fd_status.FD_OPENED)
    (hr : (k.pfiles.ofile fd).readable ≠ 0)
    (hnode : (k.pfiles.ofile fd).node = some node)
    (hops : node.in_ops = inode_ops.rfs_node_fileops)
    (hfs : get_fs k node.in_fs = Except.ok prfs)
    (hsize0 : 0 < node.in_info.size) (hsize : node.in_info.size < RFS_BLKSIZE)
    (hlen : node.in_info.size ≤ count) :
    ∃ k1, do_read MAX_FILES k (fd : Int) buf count =
      Except.ok (0, strcpy buf (strcpy (k.stack 0) (fun j => if j = node.in_info.size then 0
        else memcpy_at (k.stack 1) 0 (prfs.dev.blocks (node.in_info.addrs 0))
          node.in_info.size j)), k1) := by
  have hdo := do_read_rfs MAX_FILES k (fd : Int) buf count fd node prfs hfind
    (by rw [hst]; decide) hr hnode hops hfs
  rw [rfs_read_one_block prfs node (k.stack 0) count (k.stack 1) hsize0 hsize hlen] at hdo
  exact ⟨_, hdo⟩

/-- `do_open` of "ramdisk0:/name" with `O_RDWR` when the root directory holds
the entries "/" and `name`, the latter with inum 2.  The inode number of the
descriptor is the word at offset 32 of the dinode block. -/
theorem open_existing (MAX_DEV MAX_FILES : Nat) (k : Kernel) (i fd2 : Nat) (name : List Nat)
    (prfs : rfs_fs) (hdev : device_at MAX_DEV k ramdisk0 i) (hfs : get_fs k i = Except.ok prfs)
    (hfd2 : first_free_fd MAX_FILES k.pfiles fd2)
    (hname0 : ∀ c ∈ name, c ≠ 0) (hname : name ≠ [47]) (hlen : name.length < 28)
    (hr1 : din_size (prfs.dev.blocks 1) = 64) (hr2 : din_type (prfs.dev.blocks 1) = T_DIR)
    (hr3 : din_addrs (prfs.dev.blocks 1) 0 = 12)
    (h4 : prfs.dev.blocks 12 4 = 47) (h5 : prfs.dev.blocks 12 5 = 0)
    (he1 : de_inum (prfs.dev.blocks 12) 32 = 2)
    (he2 : ∀ j, j ≤ strlen (cstr name) → prfs.dev.blocks 12 (36 + j) = cstr name j)
    (hfile : din_type (prfs.dev.blocks 2) = T_FILE) :
    ∃ k1, do_open MAX_DEV MAX_FILES k (ramdisk0_path name) O_RDWR = Except.ok ((fd2 : Int), k1) ∧
      get_fs k1 i = Except.ok { prfs with buffer := prfs.dev.blocks 2 } ∧
      k1.pfiles.ofile fd2 =
        { status := fd_status.FD_OPENED, readable := 1, writable := 1, fd := (fd2 : Int),
          ref := 1, off := din_size (prfs.dev.blocks 2),
          node := some ⟨dinode_of (prfs.dev.blocks 2), de_inum (prfs.dev.blocks 2) 32, 1, i,
            inode_ops.rfs_node_fileops⟩ } ∧
      (∀ j, j ≠ fd2 → k1.pfiles.ofile j = k.pfiles.ofile j) ∧ k1.stack = k.stack := by
  obtain ⟨d, hd⟩ := get_fs_slot k i prfs hfs
  have hl := strlen_cstr name hname0 (by unfold STR_MAX; omega)
  have hterm : terminated (cstr name) := by unfold terminated STR_MAX; omega
  have hnde := rfs_lookup_nde_root prfs i 64 hr1 (by omega)
  have hinum : dir_entry_inum prfs (root_inode i prfs).in_info 1 = 2 := by
    unfold dir_entry_inum
    rw [(root_entry prfs i 1 (by omega) hr3).1, (root_entry prfs i 1 (by omega) hr3).2]
    exact he1
  have hmatch : strcmp (dir_entry_name prfs (root_inode i prfs).in_info 1)
      (ptr_add (ramdisk0_path name) (8 + 2)) = 0 := by
    rw [ramdisk0_subpath, strcmp_eq_zero_iff _ _ hterm]
    intro j hj
    unfold dir_entry_name
    rw [(root_entry prfs i 1 (by omega) hr3).1, (root_entry prfs i 1 (by omega) hr3).2]
    unfold de_name ptr_add
    exact he2 j hj
  have hno : ∀ j, j < 1 → strcmp (dir_entry_name prfs (root_inode i prfs).in_info j)
      (ptr_add (ramdisk0_path name) (8 + 2)) ≠ 0 := by
    intro j hj
    have : j = 0 := by omega
    subst this
    rw [ramdisk0_subpath]
    unfold dir_entry_name
    rw [(root_entry prfs i 0 (by omega) hr3).1, (root_entry prfs i 0 (by omega) hr3).2]
    exact strcmp_slash_ne _ name h4 h5 hname0 hname (by unfold STR_MAX; omega)
  have hopen := vfs_open_found MAX_DEV k (ramdisk0_path name) ramdisk0 8 i prfs O_RDWR 1
    (ramdisk0_path_device name) hdev hfs hr2 (by rw [hnde]; decide) hmatch hno
    (by rw [hinum]; exact hfile) (Or.inr (Or.inr flags_rdwr_create.2.2))
  have hstored : dir_entry_stored_inum prfs (root_inode i prfs).in_info 1 =
      de_inum (prfs.dev.blocks 2) 32 := by
    unfold dir_entry_stored_inum
    rw [hinum, (root_entry prfs i 1 (by omega) hr3).2]
  rw [hinum, hstored] at hopen
  have hopen2 := do_open_rfs MAX_DEV MAX_FILES k _ (ramdisk0_path name) O_RDWR fd2 _
    (Or.inr (Or.inr flags_rdwr_create.2.2)) hopen hfd2
  refine ⟨_, hopen2, get_fs_set_fs k i _ d hd, ?_, ?_, rfl⟩
  · simp only [↓reduceIte, flags_rdwr_create.2.2]
    rfl
  · intro j hj
    simp only [if_neg hj]
    rfl

/-- `do_read` through a descriptor whose inode has size `strlen s + 1`, below
one block, and whose first data block starts with the string `s`, delivers
`s`. -/
theorem do_read_string (MAX_FILES : Nat) (k : Kernel) (fd : Nat) (ubuf : Mem) (count : Nat)
    (node : inode) (prfs : rfs_fs) (s : Mem)
    (hfind : find_file_loop k.pfiles.ofile (fd : Int) MAX_FILES 0 none = some fd)
    (hst : (k.pfiles.ofile fd).status = fd_status.FD_OPENED)
    (hr : (k.pfiles.ofile fd).readable ≠ 0)
    (hnode : (k.pfiles.ofile fd).node = some node)
    (hops : node.in_ops = inode_ops.rfs_node_fileops)
    (hfs : get_fs k node.in_fs = Except.ok prfs)
    (hs : strlen s + 1 < RFS_BLKSIZE) (hsize : node.in_info.size = strlen s + 1)
    (hcount : strlen s + 1 ≤ count)
    (hblk : ∀ j, j ≤ strlen s → prfs.dev.blocks (node.in_info.addrs 0) j = s j) :
    ∃ buf k1, do_read MAX_FILES k (fd : Int) ubuf count = Except.ok (0, buf, k1) ∧
      same_string buf s := by
  obtain ⟨k1, h⟩ := do_read_one_block MAX_FILES k fd ubuf count node prfs hfind hst hr hnode
    hops hfs (by omega) (by omega) (by omega)
  rw [hsize] at h
  have hterm : terminated s := by
    unfold terminated STR_MAX
    unfold RFS_BLKSIZE at hs
    omega
  exact ⟨_, k1, h, read_back_string (k.stack 0) (k.stack 1) _ s (strlen s) rfl hterm hblk ubuf⟩

/-! ## Lemmas: what `rfs_create` and `rfs_write` leave untouched -/

theorem rfs_alloc_block_loop_some (fm fm1 : Mem) (n i b : Nat)
    (h : rfs_alloc_block_loop fm n i = (fm1, some b)) :
    ∃ f, i ≤ f ∧ f < i + n ∧ b = RFS_BLKN_FREE + f ∧ rd32 fm (4 * f) = 0 ∧
      (∀ j, i ≤ j → j < f → rd32 fm (4 * j) ≠ 0) ∧ fm1 = wr32 fm (4 * f) 1 := by
  induction n generalizing i with
  | zero => simp [rfs_alloc_block_loop] at h
  | succ m ih =>
    unfold rfs_alloc_block_loop at h
    by_cases h0 : rd32 fm (4 * i) = 0
    · rw [if_pos h0] at h
      simp only [Prod.mk.injEq, Option.some.injEq] at h
      exact ⟨i, Nat.le_refl _, by omega, h.2.symm, h0, fun j h1 h2 => absurd h2 (by omega),
        h.1.symm⟩
    · rw [if_neg h0] at h
      obtain ⟨f, h1, h2, h3, h4, h5, h6⟩ := ih (i + 1) h
      refine ⟨f, by omega, by omega, h3, h4, ?_, h6⟩
      intro j hj1 hj2
      by_cases hji : j = i
      · rw [hji]; exact h0
      · exact h5 j (by omega) hj2

theorem rfs_alloc_block_ok (rfs rfs1 : rfs_fs) (b : Nat)
    (h : rfs_alloc_block rfs = Except.ok (b, rfs1)) :
    ∃ f, f < rfs.super.nblocks ∧ b = RFS_BLKN_FREE + f ∧ rd32 rfs.freemap (4 * f) = 0 ∧
      (∀ j, j < f → rd32 rfs.freemap (4 * j) ≠ 0) ∧
      rfs1 = { rfs with freemap := wr32 rfs.freemap (4 * f) 1 } := by
  unfold rfs_alloc_block at h
  generalize hl : rfs_alloc_block_loop rfs.freemap rfs.super.nblocks 0 = r at h
  obtain ⟨fm1, ob⟩ := r
  cases ob with
  | none => simp [panic] at h
  | some b1 =>
    simp only [pure, Except.pure, Except.ok.injEq, Prod.mk.injEq] at h
    obtain ⟨f, _, h2, h3, h4, h5, h6⟩ := rfs_alloc_block_loop_some _ _ _ _ _ hl
    exact ⟨f, by omega, by rw [← h.1, h3], h4, fun j hj => h5 j (Nat.zero_le _) hj,
      by rw [← h.2, h6]⟩

theorem rfs_create_scan_frame (n i b0 : Nat) (rfs : rfs_fs) :
    (rfs_create_scan n i (b0, rfs)).2.dev = rfs.dev ∧
    (rfs_create_scan n i (b0, rfs)).2.freemap = rfs.freemap ∧
    (rfs_create_scan n i (b0, rfs)).2.super = rfs.super ∧
    ((n = 0 ∧ (rfs_create_scan n i (b0, rfs)).1 = b0) ∨
      (RFS_BLKN_INODE + i ≤ (rfs_create_scan n i (b0, rfs)).1 ∧
        (rfs_create_scan n i (b0, rfs)).1 < RFS_BLKN_INODE + i + n)) := by
  induction n generalizing i b0 rfs with
  | zero => exact ⟨rfl, rfl, rfl, Or.inl ⟨rfl, rfl⟩⟩
  | succ m ih =>
    unfold rfs_create_scan
    simp only [rfs_r1block]
    split
    · exact ⟨rfl, rfl, rfl, Or.inr ⟨Nat.le_refl _, by omega⟩⟩
    · obtain ⟨h1, h2, h3, h4⟩ := ih (i + 1) (RFS_BLKN_INODE + i)
        { rfs with buffer := rfs.dev.blocks (RFS_BLKN_INODE + i) }
      refine ⟨h1, h2, h3, Or.inr ?_⟩
      rcases h4 with ⟨_, h⟩ | ⟨h, h'⟩
      · rw [h]; omega
      · omega
theorem rfs_create_frame (rfs : rfs_fs) (dir : inode) (name : Mem) (r : Int) (node : inode)
    (rfs1 : rfs_fs) (h : rfs_create rfs dir name = Except.ok (r, node, rfs1)) :
    (∀ b, (b < RFS_BLKN_INODE ∨ RFS_BLKN_INODE + RFS_MAX_INODE_NUM ≤ b) → b ≠ dir.inum →
      b ≠ dir.in_info.addrs (dir.in_info.size / RFS_BLKSIZE) →
      rfs1.dev.blocks b = rfs.dev.blocks b) ∧
    rfs1.super = rfs.super ∧
    ∃ f, f < rfs.super.nblocks ∧ rd32 rfs.freemap (4 * f) = 0 ∧
      (∀ j, j < f → rd32 rfs.freemap (4 * j) ≠ 0) ∧ rfs1.freemap = wr32 rfs.freemap (4 * f) 1 := by
  unfold rfs_create at h
  obtain ⟨s1, s2, s3, s4⟩ := rfs_create_scan_frame RFS_MAX_INODE_NUM 0 0 rfs
  generalize rfs_create_scan RFS_MAX_INODE_NUM 0 (0, rfs) = sc at h s1 s2 s3 s4
  obtain ⟨blkno, rfs0⟩ := sc
  simp only [bind, Except.bind, pure, Except.pure, rfs_w1block, rfs_r1block] at h
  simp only at s1 s2 s3 s4
  have hblk : RFS_BLKN_INODE ≤ blkno ∧ blkno < RFS_BLKN_INODE + RFS_MAX_INODE_NUM := by
    unfold RFS_MAX_INODE_NUM at s4 ⊢
    omega
  cases halloc : rfs_alloc_block { rfs0 with
      buffer := wr32 (wr32 (wr32 (wr32 rfs0.buffer 0 0) 4 T_FILE) 8 1) 12 1 } with
  | error e => rw [halloc] at h; simp at h
  | ok v =>
    obtain ⟨fb, rfs2⟩ := v
    rw [halloc] at h
    obtain ⟨f, f1, _, f3, f4, f5⟩ := rfs_alloc_block_ok _ _ _ halloc
    simp only at h f1 f3 f4 f5
    cases hino : rfs_create_inode dir.in_fs (wr32 rfs2.buffer 16 fb) blkno with
    | error e => rw [hino] at h; simp at h
    | ok w =>
      rw [hino] at h
      simp only at h
      split at h
      · simp [panic] at h
      · simp only [Except.ok.injEq, Prod.mk.injEq] at h
        obtain ⟨_, _, h⟩ := h
        subst h
        subst f5
        refine ⟨?_, s3, f, by rw [← s3]; exact f1, by rw [← s2]; exact f3,
          fun j hj => by rw [← s2]; exact f4 j hj, by rw [← s2]⟩
        intro b hb h1 h2
        simp only [if_neg h2, if_neg h1]
        rw [if_neg (by omega), s1]
theorem rfs_write_loop_frame (buf : Mem) (writetime remain : Int) (n B : Nat)
    (din din1 : rfs_dinode) (rfs rfs1 : rfs_fs) (hB : B < RFS_BLKN_FREE)
    (haddr : ∀ j, din.addrs j ≠ B)
    (h : rfs_write_loop buf writetime remain n (din, rfs) = Except.ok (din1, rfs1)) :
    rfs1.dev.blocks B = rfs.dev.blocks B ∧ (∀ j, din1.addrs j ≠ B) ∧ rfs1.super = rfs.super := by
  induction n generalizing din1 rfs1 with
  | zero =>
    simp only [rfs_write_loop, pure, Except.pure, Except.ok.injEq, Prod.mk.injEq] at h
    rw [← h.1, ← h.2]
    exact ⟨rfl, haddr, rfl⟩
  | succ m ih =>
    unfold rfs_write_loop at h
    simp only [bind, Except.bind, pure, Except.pure, rfs_w1block] at h
    cases hprev : rfs_write_loop buf writetime remain m (din, rfs) with
    | error e => rw [hprev] at h; simp at h
    | ok v =>
      obtain ⟨din2, rfs2⟩ := v
      obtain ⟨i1, i2, i3⟩ := ih din2 rfs2 hprev
      rw [hprev] at h
      simp only at h
      by_cases hm : m = din2.blocks
      · rw [if_pos hm] at h
        cases halloc : rfs_alloc_block rfs2 with
        | error e => rw [halloc] at h; simp at h
        | ok v =>
          obtain ⟨fb, rfs3⟩ := v
          obtain ⟨f, _, f2, _, _, f5⟩ := rfs_alloc_block_ok _ _ _ halloc
          rw [halloc] at h
          simp only [Except.ok.injEq, Prod.mk.injEq] at h
          obtain ⟨h1, h2⟩ := h
          subst h1 h2 f5
          have hfb : B ≠ fb := by omega
          by_cases hw : (m : Int) = writetime - 1
          · simp only [hw, ↓reduceIte, if_neg hfb]
            refine ⟨i1, ?_, i3⟩
            intro j
            split
            · omega
            · exact i2 j
          · simp only [hw, ↓reduceIte, if_neg hfb]
            refine ⟨i1, ?_, i3⟩
            intro j
            split
            · omega
            · exact i2 j
      · rw [if_neg hm] at h
        simp only [Except.ok.injEq, Prod.mk.injEq] at h
        obtain ⟨h1, h2⟩ := h
        subst h1 h2
        have hfb : B ≠ din2.addrs m := (i2 m).symm
        by_cases hw : (m : Int) = writetime - 1
        · simp only [hw, ↓reduceIte, if_neg hfb]
          exact ⟨i1, i2, i3⟩
        · simp only [hw, ↓reduceIte, if_neg hfb]
          exact ⟨i1, i2, i3⟩

theorem rfs_write_frame (rfs : rfs_fs) (node : inode) (buf : Mem) (len B : Nat) (r : Int)
    (node1 : inode) (rfs1 : rfs_fs) (hB : B < RFS_BLKN_FREE) (hinum : node.inum ≠ B)
    (haddr : ∀ j, node.in_info.addrs j ≠ B)
    (h : rfs_write rfs node buf len = Except.ok (r, node1, rfs1)) :
    rfs1.dev.blocks B = rfs.dev.blocks B ∧ rfs1.super = rfs.super := by
  unfold rfs_write at h
  simp only [bind, Except.bind, pure, Except.pure, rfs_w1block, rfs_r1block] at h
  split at h
  · simp at h
  · rename_i v hv
    obtain ⟨din2, rfs2⟩ := v
    obtain ⟨i1, _, i3⟩ := rfs_write_loop_frame _ _ _ _ B
      { node.in_info with size := (strlen buf + 1) % 4294967296 } _ _ _ hB (fun j => haddr j) hv
    simp only [Except.ok.injEq, Prod.mk.injEq] at h
    obtain ⟨_, _, h⟩ := h
    subst h
    simp only [if_neg (Ne.symm hinum)]
    exact ⟨i1, i3⟩

theorem returns_of_not_fatal {α : Type} (x : K α) (h : fatal_of x = none) : ∃ a, x = Except.ok a := by
  cases x with
  | ok a => exact ⟨a, rfl⟩
  | error e => simp [fatal_of] at h

/-! ## Lemmas: strings behind a pointer -/

theorem strlen_ptr_add (p : Mem) (k : Nat) (hk : k ≤ strlen p) (hp : terminated p) :
    strlen (ptr_add p k) + k = strlen p := by
  have : strlen (ptr_add p k) = strlen p - k := by
    apply strlen_eq
    · intro j hj
      unfold ptr_add
      exact strlen_nonzero p (k + j) (by omega)
    · unfold ptr_add
      rw [show k + (strlen p - k) = strlen p by omega]
      exact strlen_zero p hp
    · unfold terminated at hp
      omega
  omega

/-! ## Lemmas: the calls below `do_open` leave the file table alone -/

theorem vfs_get_root_pfiles (MAX_DEV : Nat) (k k1 : Kernel) (devname : Mem) (r : Int)
    (node : inode) (h : vfs_get_root MAX_DEV k devname = Except.ok (r, node, k1)) :
    k1.pfiles = k.pfiles := by
  unfold vfs_get_root at h
  simp only [bind, Except.bind, pure, Except.pure] at h
  split at h
  · simp at h
  · split at h
    · simp [panic] at h
    · split at h
      · simp at h
      · split at h
        · simp at h
        · simp only [Except.ok.injEq, Prod.mk.injEq] at h
          rw [← h.2.2]
          rfl

theorem get_device_pfiles (MAX_DEV : Nat) (k k1 : Kernel) (path sub p1 : Mem) (r : Int)
    (node : Option inode) (h : get_device MAX_DEV k path = Except.ok (r, sub, node, p1, k1)) :
    k1.pfiles = k.pfiles := by
  unfold get_device at h
  simp only [bind, Except.bind, pure, Except.pure] at h
  split at h
  · simp only [Except.ok.injEq, Prod.mk.injEq] at h
    rw [← h.2.2.2.2]
  · split at h
    · simp [fault] at h
    · split at h
      · simp at h
      · rename_i v hv
        obtain ⟨ret, nd, k2⟩ := v
        simp only [Except.ok.injEq, Prod.mk.injEq] at h
        rw [← h.2.2.2.2]
        exact vfs_get_root_pfiles _ _ _ _ _ _ hv

theorem vop_lookup_pfiles (k k1 : Kernel) (node : inode) (path : Mem) (r : Int)
    (res : Option inode) (h : vop_lookup k node path = Except.ok (r, res, k1)) :
    k1.pfiles = k.pfiles := by
  unfold vop_lookup at h
  simp only [bind, Except.bind, pure, Except.pure] at h
  split at h
  · split at h
    · simp at h
    · split at h
      · simp at h
      · simp only [Except.ok.injEq, Prod.mk.injEq] at h
        rw [← h.2.2]
        rfl
  · simp [fault] at h

theorem vop_create_pfiles (k k1 : Kernel) (dir : inode) (name : Mem) (r : Int)
    (res : inode) (h : vop_create k dir name = Except.ok (r, res, k1)) :
    k1.pfiles = k.pfiles := by
  unfold vop_create at h
  simp only [bind, Except.bind, pure, Except.pure] at h
  split at h
  · split at h
    · simp at h
    · split at h
      · simp at h
      · simp only [Except.ok.injEq, Prod.mk.injEq] at h
        rw [← h.2.2]
        rfl
  · simp [fault] at h

theorem vfs_lookup_pfiles (MAX_DEV : Nat) (k k1 : Kernel) (path : Mem) (r : Int)
    (res : Option inode) (h : vfs_lookup MAX_DEV k path = Except.ok (r, res, k1)) :
    k1.pfiles = k.pfiles := by
  unfold vfs_lookup at h
  simp only [bind, Except.bind, pure, Except.pure] at h
  split at h
  · simp at h
  · rename_i v hv
    obtain ⟨ret, fn, dir, p1, k2⟩ := v
    have h2 := get_device_pfiles _ _ _ _ _ _ _ _ hv
    simp only at h
    split at h
    · simp only [Except.ok.injEq, Prod.mk.injEq] at h
      rw [← h.2.2, h2]
    · split at h
      · simp [fault] at h
      · rw [vop_lookup_pfiles _ _ _ _ _ _ h, h2]

theorem vfs_lookup_parent_pfiles (MAX_DEV : Nat) (k k1 : Kernel) (path fn : Mem) (r : Int)
    (dir : Option inode) (h : vfs_lookup_parent MAX_DEV k path = Except.ok (r, dir, fn, k1)) :
    k1.pfiles = k.pfiles := by
  unfold vfs_lookup_parent at h
  simp only [bind, Except.bind, pure, Except.pure] at h
  split at h
  · simp at h
  · rename_i v hv
    obtain ⟨ret, fn1, dir1, p1, k2⟩ := v
    have h2 := get_device_pfiles _ _ _ _ _ _ _ _ hv
    simp only at h
    split at h
    · simp [panic] at h
    · simp only [Except.ok.injEq, Prod.mk.injEq] at h
      rw [← h.2.2.2, h2]
theorem vfs_open_pfiles (MAX_DEV : Nat) (k k1 : Kernel) (path : Mem) (flags : Nat) (r : Int)
    (res : Option inode) (h : vfs_open MAX_DEV k path flags = Except.ok (r, res, k1)) :
    k1.pfiles = k.pfiles := by
  unfold vfs_open at h
  simp only [bind, Except.bind, pure, Except.pure] at h
  split at h
  · simp [panic] at h
  · split at h
    · simp at h
    · rename_i v hv
      obtain ⟨ret, node, k2⟩ := v
      have h2 := vfs_lookup_pfiles _ _ _ _ _ _ hv
      simp only at h
      split at h
      · simp only [Except.ok.injEq, Prod.mk.injEq] at h
        rw [← h.2.2, h2]
      · split at h
        · split at h
          · simp [panic] at h
          · split at h
            · simp at h
            · rename_i w hw
              obtain ⟨ret2, dir, fn, k3⟩ := w
              have h3 := vfs_lookup_parent_pfiles _ _ _ _ _ _ _ hw
              simp only at h
              split at h
              · simp [panic] at h
              · split at h
                · simp [fault] at h
                · split at h
                  · simp at h
                  · rename_i u hu
                    obtain ⟨ret3, nd, k4⟩ := u
                    have h4 := vop_create_pfiles _ _ _ _ _ _ hu
                    simp only at h
                    split at h
                    · simp [panic] at h
                    · simp only [Except.ok.injEq, Prod.mk.injEq] at h
                      rw [← h.2.2, h4, h3, h2]
        · split at h
          · simp [fault] at h
          · simp only [Except.ok.injEq, Prod.mk.injEq] at h
            rw [← h.2.2, h2]
theorem do_open_loop_none (ofile : Nat → file) (n s : Nat) (p : Option Nat)
    (h : ∀ j, j < n + 1 → (ofile (s + j)).status ≠ fd_status.FD_NONE) :
    do_open_loop ofile (n + 1) s p = (s + n + 1, some (s + n)) := by
  induction n generalizing s p with
  | zero =>
    unfold do_open_loop
    rw [if_neg (by simpa using h 0 (by omega))]
    rfl
  | succ m ih =>
    unfold do_open_loop
    rw [if_neg (by simpa using h 0 (by omega))]
    rw [ih (s + 1) (some s) (by
      intro j hj
      have := h (j + 1) (by omega)
      simpa [show s + 1 + j = s + (j + 1) by omega] using this)]
    simp only [Prod.mk.injEq, Option.some.injEq]
    omega

theorem vfs_open_mode (MAX_DEV : Nat) (k k1 : Kernel) (path : Mem) (flags : Nat) (r : Int)
    (res : Option inode) (h : vfs_open MAX_DEV k path flags = Except.ok (r, res, k1)) :
    flags &&& MASK_FILEMODE = O_RDONLY ∨ flags &&& MASK_FILEMODE = O_WRONLY ∨
      flags &&& MASK_FILEMODE = O_RDWR := by
  unfold vfs_open at h
  simp only [bind, Except.bind, pure, Except.pure] at h
  split at h
  · simp [panic] at h
  · rename_i hm
    by_cases h1 : flags &&& MASK_FILEMODE = O_RDONLY
    · exact Or.inl h1
    · by_cases h2 : flags &&& MASK_FILEMODE = O_WRONLY
      · exact Or.inr (Or.inl h2)
      · by_cases h3 : flags &&& MASK_FILEMODE = O_RDWR
        · exact Or.inr (Or.inr h3)
        · exact absurd ⟨h1, h2, h3⟩ hm

theorem do_open_full (MAX_DEV MAX_FILES : Nat) (k k1 : Kernel) (path : Mem) (flags : Nat)
    (res : Option inode) (hopen : vfs_open MAX_DEV k path flags = Except.ok (0, res, k1))
    (hpos : 0 < MAX_FILES)
    (hfull : ∀ j, j < MAX_FILES → (k1.pfiles.ofile j).status ≠ fd_status.FD_NONE) :
    do_open MAX_DEV MAX_FILES k path flags =
      Except.error (Fatal.panic "do_open: no file entry for current process!") := by
  have hmode := vfs_open_mode _ _ _ _ _ _ _ hopen
  have hmode' : ¬ ((flags &&& MASK_FILEMODE) ≠ O_RDONLY ∧ (flags &&& MASK_FILEMODE) ≠ O_WRONLY
      ∧ (flags &&& MASK_FILEMODE) ≠ O_RDWR) := by
    rcases hmode with h | h | h <;> simp [h]
  obtain ⟨n, rfl⟩ : ∃ n, MAX_FILES = n + 1 := ⟨MAX_FILES - 1, by omega⟩
  have hloop := do_open_loop_none k1.pfiles.ofile n 0 none
    (by intro j hj; simpa using hfull j hj)
  simp only [Nat.zero_add] at hloop
  unfold do_open
  simp only [if_neg hmode', hopen, bind, Except.bind, pure, Except.pure, ne_eq,
    not_true_eq_false, ↓reduceIte, hloop, hfull n (by omega), panic]
  rfl

theorem vfs_open_returns (MAX_DEV : Nat) (k : Kernel) (path : Mem) (flags : Nat)
    (h : observe (vfs_open MAX_DEV k path flags) (fun v => (v.1, v.2.1.isSome)) = some (0, true)) :
    ∃ node k1, vfs_open MAX_DEV k path flags = Except.ok (0, some node, k1) := by
  cases hv : vfs_open MAX_DEV k path flags with
  | error e => rw [hv] at h; simp [observe] at h
  | ok v =>
    obtain ⟨r, res, k1⟩ := v
    rw [hv] at h
    simp only [observe, Option.some.injEq, Prod.mk.injEq] at h
    obtain ⟨h1, h2⟩ := h
    cases res with
    | none => simp at h2
    | some node => exact ⟨node, k1, by rw [h1]⟩

/-! ## Lemmas: the access checks of `do_read` and `do_write` -/

theorem do_write_denied (MAX_FILES : Nat) (k : Kernel) (fd : Int) (buf : Mem) (count i : Nat)
    (hfind : find_file_loop k.pfiles.ofile fd MAX_FILES 0 none = some i)
    (hst : (k.pfiles.ofile i).status ≠ fd_status.FD_HOST)
    (hw : (k.pfiles.ofile i).writable = 0) :
    do_write MAX_FILES k fd buf count =
      Except.error (Fatal.panic "do_write: cannot write file!") := by
  unfold do_write
  simp only [hfind, if_neg hst, if_pos hw, panic]

theorem do_read_denied (MAX_FILES : Nat) (k : Kernel) (fd : Int) (buf : Mem) (count i : Nat)
    (hfind : find_file_loop k.pfiles.ofile fd MAX_FILES 0 none = some i)
    (hst : (k.pfiles.ofile i).status ≠ fd_status.FD_HOST)
    (hr : (k.pfiles.ofile i).readable = 0) :
    do_read MAX_FILES k fd buf count =
      Except.error (Fatal.panic "do_read: no readable file!") := by
  unfold do_read
  simp only [hfind, if_neg hst, if_pos hr, panic]

theorem do_write_delegates (MAX_FILES : Nat) (k : Kernel) (fd : Int) (buf : Mem) (count i : Nat)
    (node : inode)
    (hfind : find_file_loop k.pfiles.ofile fd MAX_FILES 0 none = some i)
    (hst : (k.pfiles.ofile i).status ≠ fd_status.FD_HOST)
    (hw : (k.pfiles.ofile i).writable ≠ 0)
    (hnode : (k.pfiles.ofile i).node = some node) :
    do_write MAX_FILES k fd buf count =
      (match vop_write k node buf count with
        | Except.ok (_, node1, k1) =>
          Except.ok (0, { k1 with pfiles :=
            { k1.pfiles with ofile := fun j =>
                if j = i then { k.pfiles.ofile i with node := some node1 }
                else k1.pfiles.ofile j } })
        | Except.error e => Except.error e) := by
  unfold do_write
  simp only [hfind, if_neg hst, if_neg hw, hnode, bind, Except.bind, pure, Except.pure]
  cases vop_write k node buf count with
  | error e => rfl
  | ok v => rfl

theorem do_read_delegates (MAX_FILES : Nat) (k : Kernel) (fd : Int) (buf : Mem) (count i : Nat)
    (node : inode)
    (hfind : find_file_loop k.pfiles.ofile fd MAX_FILES 0 none = some i)
    (hst : (k.pfiles.ofile i).status ≠ fd_status.FD_HOST)
    (hr : (k.pfiles.ofile i).readable ≠ 0)
    (hnode : (k.pfiles.ofile i).node = some node) :
    do_read MAX_FILES k fd buf count =
      (match vop_read k node (k.stack 0) count (k.stack 1) with
        | Except.ok (_, buffer, k1) => Except.ok (0, strcpy buf buffer, k1)
        | Except.error e => Except.error e) := by
  unfold do_read
  simp only [hfind, if_neg hst, if_neg hr, hnode, bind, Except.bind, pure, Except.pure]
  cases vop_read k node (k.stack 0) count (k.stack 1) with
  | error e => rfl
  | ok v => rfl

theorem rfs_alloc_block_error (rfs : rfs_fs) (e : Fatal) (h : rfs_alloc_block rfs = Except.error e) :
    e = Fatal.panic "rfs_alloc_block: no free block!" := by
  unfold rfs_alloc_block at h
  split at h
  · simp [pure, Except.pure] at h
  · simp only [panic, Except.error.injEq] at h
    exact h.symm

theorem rfs_write_loop_error (buf : Mem) (writetime remain : Int) (n : Nat)
    (s : rfs_dinode × rfs_fs) (e : Fatal)
    (h : rfs_write_loop buf writetime remain n s = Except.error e) :
    e = Fatal.panic "rfs_alloc_block: no free block!" := by
  induction n generalizing e with
  | zero => simp [rfs_write_loop, pure, Except.pure] at h
  | succ m ih =>
    unfold rfs_write_loop at h
    simp only [bind, Except.bind, pure, Except.pure] at h
    cases hprev : rfs_write_loop buf writetime remain m s with
    | error e1 =>
      rw [hprev] at h
      simp only [Except.error.injEq] at h
      rw [← h]
      exact ih e1 hprev
    | ok v =>
      rw [hprev] at h
      simp only at h
      by_cases hm : m = v.1.blocks
      · rw [if_pos hm] at h
        cases halloc : rfs_alloc_block v.2 with
        | error e2 =>
          rw [halloc] at h
          simp only [Except.error.injEq] at h
          rw [← h]
          exact rfs_alloc_block_error _ _ halloc
        | ok w =>
          rw [halloc] at h
          simp at h
      · rw [if_neg hm] at h
        simp at h

theorem rfs_write_error (rfs : rfs_fs) (node : inode) (buf : Mem) (len : Nat) (e : Fatal)
    (h : rfs_write rfs node buf len = Except.error e) :
    e = Fatal.panic "rfs_alloc_block: no free block!" := by
  unfold rfs_write at h
  simp only [bind, Except.bind, pure, Except.pure] at h
  split at h
  · rename_i e1 he1
    simp only [Except.error.injEq] at h
    rw [← h]
    exact rfs_write_loop_error _ _ _ _ _ _ he1
  · simp at h

theorem get_fs_error (k : Kernel) (fs : Nat) (e : Fatal) (h : get_fs k fs = Except.error e) :
    e = Fatal.fault "fs is NULL" := by
  unfold get_fs at h
  split at h
  · simp only [fault, Except.error.injEq] at h
    exact h.symm
  · split at h
    · simp only [fault, Except.error.injEq] at h
      exact h.symm
    · simp [pure, Except.pure] at h

theorem vop_write_error (k : Kernel) (node : inode) (buf : Mem) (len : Nat) (e : Fatal)
    (h : vop_write k node buf len = Except.error e) :
    e = Fatal.panic "rfs_alloc_block: no free block!" ∨ e = Fatal.fault "fs is NULL" ∨
      e = Fatal.fault "vop_write is NULL" := by
  unfold vop_write at h
  simp only [bind, Except.bind, pure, Except.pure] at h
  split at h
  · split at h
    · rename_i e1 he1
      simp only [Except.error.injEq] at h
      rw [← h]
      exact Or.inr (Or.inl (get_fs_error _ _ _ he1))
    · split at h
      · rename_i e1 he1
        simp only [Except.error.injEq] at h
        rw [← h]
        exact Or.inl (rfs_write_error _ _ _ _ _ he1)
      · simp at h
  · simp only [fault, Except.error.injEq] at h
    exact Or.inr (Or.inr h.symm)

theorem vop_read_error (k : Kernel) (node : inode) (buf : Mem) (len : Nat) (stack : Mem)
    (e : Fatal) (h : vop_read k node buf len stack = Except.error e) :
    e = Fatal.fault "fs is NULL" ∨ e = Fatal.fault "vop_read is NULL" := by
  unfold vop_read at h
  simp only [bind, Except.bind, pure, Except.pure] at h
  split at h
  · split at h
    · rename_i e1 he1
      simp only [Except.error.injEq] at h
      rw [← h]
      exact Or.inl (get_fs_error _ _ _ he1)
    · simp at h
  · simp only [fault, Except.error.injEq] at h
    exact Or.inr h.symm

theorem find_installed (MAX_FILES : Nat) (ofile : Nat → file) (pf : file) (i : Nat)
    (hi : i < MAX_FILES) (hfd : pf.fd = (i : Int)) (hbefore : ∀ j, j < i → (ofile j).fd ≠ (i : Int)) :
    find_file_loop (fun j => if j = i then pf else ofile j) (i : Int) MAX_FILES 0 none = some i := by
  have := find_file_loop_found (fun j => if j = i then pf else ofile j) (i : Int) MAX_FILES 0 i
    none hi (by simp only [Nat.zero_add, ↓reduceIte]; exact hfd)
    (by
      intro j hj
      simp only [Nat.zero_add, if_neg (Nat.ne_of_lt hj)]
      exact hbefore j hj)
  simpa using this

/-! ## Lemmas: a created file is found by the next lookup -/

theorem strcmp_zero_congr (a a1 b : Mem) (hb : terminated b)
    (h : ∀ t, t ≤ strlen b → a1 t = a t) : strcmp a1 b = 0 ↔ strcmp a b = 0 := by
  rw [strcmp_eq_zero_iff a1 b hb, strcmp_eq_zero_iff a b hb]
  constructor
  · intro hh j hj; rw [← h j hj]; exact hh j hj
  · intro hh j hj; rw [h j hj]; exact hh j hj

theorem dir_ready_create_pre (rfs : rfs_fs) (i kk f : Nat)
    (hdir : dir_ready (dinode_of (rfs.dev.blocks RFS_BLKN_INODE)))
    (hk : kk < RFS_MAX_INODE_NUM)
    (hkfree : din_type (rfs.dev.blocks (RFS_BLKN_INODE + kk)) = T_FREE)
    (hkused : ∀ j, j < kk → din_type (rfs.dev.blocks (RFS_BLKN_INODE + j)) ≠ T_FREE)
    (hf : f < rfs.super.nblocks) (hffree : rd32 rfs.freemap (4 * f) = 0)
    (hfused : ∀ j, j < f → rd32 rfs.freemap (4 * j) ≠ 0) :
    create_pre rfs (root_inode i rfs) kk f := by
  obtain ⟨d1, _, _, d4, _⟩ := hdir
  have hD := d4 _ (Nat.le_refl _)
  have hk0 : kk ≠ 0 := by
    intro h
    subst h
    have : din_type (rfs.dev.blocks RFS_BLKN_INODE) = T_DIR := d1
    rw [Nat.add_zero] at hkfree
    rw [hkfree] at this
    exact absurd this (by decide)
  refine ⟨hk, hkfree, hkused, hf, hffree, hfused, ?_, ?_, ?_⟩
  · show RFS_BLKN_INODE ≠ RFS_BLKN_INODE + kk
    omega
  · show (dinode_of (rfs.dev.blocks RFS_BLKN_INODE)).addrs
      ((dinode_of (rfs.dev.blocks RFS_BLKN_INODE)).size / RFS_BLKSIZE) ≠ RFS_BLKN_INODE + kk
    unfold RFS_BLKN_FREE at hD
    unfold RFS_MAX_INODE_NUM at hk
    unfold RFS_BLKN_INODE
    unfold RFS_BLKN_INODE at hD
    omega
  · show (dinode_of (rfs.dev.blocks RFS_BLKN_INODE)).addrs
      ((dinode_of (rfs.dev.blocks RFS_BLKN_INODE)).size / RFS_BLKSIZE) ≠ RFS_BLKN_INODE
    unfold RFS_BLKN_FREE at hD
    unfold RFS_BLKN_INODE
    unfold RFS_BLKN_INODE at hD
    omega
theorem root_after_create (rfs rfs1 : rfs_fs) (i : Nat)
    (hdir : dir_ready (dinode_of (rfs.dev.blocks RFS_BLKN_INODE)))
    (hb1 : rfs1.dev.blocks RFS_BLKN_INODE =
      wr32 (rfs.dev.blocks RFS_BLKN_INODE) 0
        (din_size (rfs.dev.blocks RFS_BLKN_INODE) + sizeof_rfs_direntry)) :
    din_type (rfs1.dev.blocks RFS_BLKN_INODE) = T_DIR ∧
    din_size (rfs1.dev.blocks RFS_BLKN_INODE) =
      din_size (rfs.dev.blocks RFS_BLKN_INODE) + sizeof_rfs_direntry ∧
    (∀ j, (root_inode i rfs1).in_info.addrs j = (root_inode i rfs).in_info.addrs j) ∧
    rfs_lookup_nde (root_inode i rfs).in_info =
      din_size (rfs.dev.blocks RFS_BLKN_INODE) / sizeof_rfs_direntry ∧
    rfs_lookup_nde (root_inode i rfs1).in_info =
      din_size (rfs.dev.blocks RFS_BLKN_INODE) / sizeof_rfs_direntry + 1 := by
  obtain ⟨d1, d2, d3, _, _⟩ := hdir
  have e1 : (dinode_of (rfs.dev.blocks RFS_BLKN_INODE)).size =
      din_size (rfs.dev.blocks RFS_BLKN_INODE) := rfl
  rw [e1] at d2 d3
  have hs : din_size (rfs1.dev.blocks RFS_BLKN_INODE) =
      din_size (rfs.dev.blocks RFS_BLKN_INODE) + sizeof_rfs_direntry := by
    rw [hb1]
    unfold din_size
    rw [rd32_wr32_same]
    apply Nat.mod_eq_of_lt
    unfold din_size at d3
    omega
  refine ⟨?_, hs, ?_, ?_, ?_⟩
  · rw [hb1]
    unfold din_type
    rw [rd32_wr32_disj _ _ _ _ (by omega)]
    exact d1
  · intro j
    show (dinode_of (rfs1.dev.blocks RFS_BLKN_INODE)).addrs j =
      (dinode_of (rfs.dev.blocks RFS_BLKN_INODE)).addrs j
    unfold dinode_of
    simp only
    rw [hb1]
    unfold din_addrs
    rw [rd32_wr32_disj _ _ _ _ (by omega)]
  · show rfs_lookup_nde (dinode_of (rfs.dev.blocks RFS_BLKN_INODE)) = _
    unfold rfs_lookup_nde
    rw [e1, if_pos (by omega)]
  · show rfs_lookup_nde (dinode_of (rfs1.dev.blocks RFS_BLKN_INODE)) = _
    unfold rfs_lookup_nde
    have e2 : (dinode_of (rfs1.dev.blocks RFS_BLKN_INODE)).size =
      din_size (rfs1.dev.blocks RFS_BLKN_INODE) := rfl
    rw [e2, hs, if_pos d3]
    unfold sizeof_rfs_direntry
    omega
theorem entries_after_create (rfs rfs1 : rfs_fs) (i kk f : Nat) (fn : Mem) (node : inode)
    (hdir : dir_ready (dinode_of (rfs.dev.blocks RFS_BLKN_INODE)))
    (hname : strlen fn < 28) (hk : kk < RFS_MAX_INODE_NUM)
    (hpost : create_post rfs (root_inode i rfs) fn kk f node rfs1) :
    strcmp (dir_entry_name rfs1 (root_inode i rfs1).in_info
      (din_size (rfs.dev.blocks RFS_BLKN_INODE) / sizeof_rfs_direntry)) fn = 0 ∧
    dir_entry_inum rfs1 (root_inode i rfs1).in_info
      (din_size (rfs.dev.blocks RFS_BLKN_INODE) / sizeof_rfs_direntry) = RFS_BLKN_INODE + kk ∧
    din_type (rfs1.dev.blocks (RFS_BLKN_INODE + kk)) = T_FILE ∧
    (∀ j, j < din_size (rfs.dev.blocks RFS_BLKN_INODE) / sizeof_rfs_direntry →
      (strcmp (dir_entry_name rfs1 (root_inode i rfs1).in_info j) fn = 0 ↔
        strcmp (dir_entry_name rfs (root_inode i rfs).in_info j) fn = 0)) := by
  obtain ⟨_, _, _, p4, p5, p6, p7, _⟩ := hpost
  have hb1 : rfs1.dev.blocks RFS_BLKN_INODE =
      wr32 (rfs.dev.blocks RFS_BLKN_INODE) 0
        (din_size (rfs.dev.blocks RFS_BLKN_INODE) + sizeof_rfs_direntry) := p5
  obtain ⟨_, _, ha, _, _⟩ := root_after_create rfs rfs1 i hdir hb1
  obtain ⟨_, d2, d3, d4, d5⟩ := hdir
  have hterm : terminated fn := by unfold terminated STR_MAX; omega
  have e1 : (dinode_of (rfs.dev.blocks RFS_BLKN_INODE)).size =
      din_size (rfs.dev.blocks RFS_BLKN_INODE) := rfl
  have e2 : (root_inode i rfs).in_info = dinode_of (rfs.dev.blocks RFS_BLKN_INODE) := rfl
  rw [e2] at p6 p7 ha
  rw [e1] at d2 d3 d4 d5 p6 p7
  generalize hS : din_size (rfs.dev.blocks RFS_BLKN_INODE) = S at *
  generalize hA : (dinode_of (rfs.dev.blocks RFS_BLKN_INODE)).addrs = addrs at *
  unfold sizeof_rfs_direntry at d2 d3 ⊢
  unfold RFS_BLKSIZE at d4 d5 p6 p7
  unfold RFS_BLKN_FREE at d4
  unfold RFS_MAX_INODE_NUM at hk
  have hblk : ∀ j, dir_entry_block rfs1 (root_inode i rfs1).in_info j =
      rfs1.dev.blocks (addrs (j / 128)) := by
    intro j
    unfold dir_entry_block
    rw [maxde_eq, ha]
  have hblk0 : ∀ j, dir_entry_block rfs (dinode_of (rfs.dev.blocks RFS_BLKN_INODE)) j =
      rfs.dev.blocks (addrs (j / 128)) := by
    intro j
    unfold dir_entry_block
    rw [maxde_eq, hA]
  have hoff : ∀ j, dir_entry_offset j = j % 128 * 32 := by
    intro j
    unfold dir_entry_offset
    rw [maxde_eq]
    rfl
  have hq : S / 32 / 128 = S / 4096 := by omega
  have hr : S / 32 % 128 * 32 = S % 4096 := by omega
  refine ⟨?_, ?_, ?_, ?_⟩
  · rw [strcmp_eq_zero_iff _ _ hterm]
    intro j hj
    unfold dir_entry_name de_name ptr_add
    rw [hblk, hoff, hq, hr, p6]
    exact strcpy_at_apply_in _ _ fn j hj
  · unfold dir_entry_inum de_inum
    rw [hblk, hoff, hq, hr, p6, rd32_strcpy_at_lt _ _ _ _ (by omega), rd32_wr32_same]
    apply Nat.mod_eq_of_lt
    unfold RFS_BLKN_INODE
    omega
  · rw [p4]
    simp (disch := omega) [din_type, rd32_wr32_same, rd32_wr32_disj, T_FILE]
  · intro j hj
    apply strcmp_zero_congr _ _ _ hterm
    intro t ht
    unfold dir_entry_name de_name ptr_add
    rw [hblk, e2, hblk0, hoff]
    have hb := d4 (j / 128) (by omega)
    by_cases hsame : addrs (j / 128) = addrs (S / 4096)
    · have hidx : j / 128 = S / 4096 := by
        by_contra hne
        exact d5 (j / 128) (by omega) hsame
      rw [hsame, p6, strcpy_at_apply_lt _ _ _ _ (by omega), wr32_apply_lt _ _ _ _ (by omega)]
    · rw [p7 _ (by unfold RFS_BLKN_INODE; omega)
        (by show addrs (j / 128) ≠ RFS_BLKN_INODE; unfold RFS_BLKN_INODE; omega) hsame]
theorem vfs_open_missing (MAX_DEV : Nat) (k : Kernel) (path devname : Mem) (c i : Nat)
    (prfs : rfs_fs) (flags : Nat) (hp : device_path path devname c)
    (hdev : device_at MAX_DEV k devname i) (hfs : get_fs k i = Except.ok prfs)
    (hroot : din_type (prfs.dev.blocks RFS_BLKN_INODE) = T_DIR)
    (hno : ∀ j, j < rfs_lookup_nde (root_inode i prfs).in_info →
      strcmp (dir_entry_name prfs (root_inode i prfs).in_info j) (ptr_add path (c + 2)) ≠ 0)
    (hmode : flags &&& MASK_FILEMODE = O_RDONLY ∨ flags &&& MASK_FILEMODE = O_WRONLY ∨
      flags &&& MASK_FILEMODE = O_RDWR)
    (hcreat : flags &&& O_CREATE = 0) :
    vfs_open MAX_DEV k path flags =
      Except.error (Fatal.panic "vfs_open: open a non-existent-uncreatable file!") := by
  obtain ⟨buf, hl⟩ := vfs_lookup_none MAX_DEV k path devname c i prfs hp hdev hfs hroot hno
  have hmode' : ¬ ((flags &&& MASK_FILEMODE) ≠ O_RDONLY ∧ (flags &&& MASK_FILEMODE) ≠ O_WRONLY
      ∧ (flags &&& MASK_FILEMODE) ≠ O_RDWR) := by
    rcases hmode with h | h | h <;> simp [h]
  unfold vfs_open
  simp only [if_neg hmode', hl, bind, Except.bind, pure, Except.pure, ↓reduceIte, if_pos hcreat,
    Int.reduceNeg, Int.reduceEq, panic]

theorem get_fs_mounted : get_fs mounted 0 = Except.ok mounted_fs := by
  obtain ⟨a, h⟩ := returns_of_not_fatal (get_fs mounted 0) (by decide!)
  have : mounted_fs = a := by
    unfold mounted_fs
    rw [h]
    rfl
  rw [this, h]

theorem device_at_mounted : device_at 1 mounted ramdisk0 0 := by
  refine ⟨by decide, ?_, fun j hj => absurd hj (by omega)⟩
  have h1 : (mounted.vdev_list 0).map (fun d => strcmp d.devname ramdisk0) = some 0 := by
    decide!
  cases h : mounted.vdev_list 0 with
  | none => rw [h] at h1; simp at h1
  | some d =>
    rw [h] at h1
    simp only [Option.map_some', Option.some.injEq] at h1
    exact ⟨d, rfl, h1⟩

/-! ## The claims -/

/-- C1 (code defect): a write of more than one block is not read back.  After
mount and `do_open("ramdisk0:/ramfile", O_RDWR | O_CREATE)`, writing the 4097
letters `A` and their terminator (4098 bytes) and reading 4098 bytes through
the same descriptor yields the string "AA": `rfs_write` copies only
`len % RFS_BLKSIZE = 2` bytes into block 0. -/
theorem C1_two_block_write_not_read_back :
    observe (write_then_read 1 16 boot zero_pages (ramdisk0_path ramfile) (letters 4097)
        4098 4098 (fun _ => 0)) (fun buf => (strlen buf, buf 0, buf 1, buf 2)) =
      some (2, 65, 65, 0) ∧
    strlen (letters 4097) = 4097 ∧ 4097 + 1 ≤ RFS_NDIRECT * RFS_BLKSIZE := by
  decide!

/-- C3 (code defect): after mount, `do_open("ramdisk0:/ramfile",
O_RDWR | O_CREATE)` and a write of 4098 bytes, the flag of data block 2 (block
number 14) is set in the free map, yet no dinode on the device references
block 14 within its block count, and block 14 is not the root data block. -/
theorem C3_allocated_block_not_referenced :
    observe (create_and_write 1 16 boot zero_pages (ramdisk0_path ramfile) (letters 4097) 4098)
      (fun fs => (rd32 fs.freemap (4 * 2),
        decide (∀ i, i < RFS_MAX_INODE_NUM → ∀ j, j < RFS_NDIRECT →
          j < din_blocks (fs.dev.blocks (RFS_BLKN_INODE + i)) →
          din_addrs (fs.dev.blocks (RFS_BLKN_INODE + i)) j ≠ RFS_BLKN_FREE + 2),
        din_blocks (fs.dev.blocks 2), din_addrs (fs.dev.blocks 2) 0,
        din_addrs (fs.dev.blocks 2) 1)) =
      some (1, true, 2, 13, 0) := by
  decide!

/-- C4 (code defect): with all ten inode slots in use (mount, which takes slot
0 for the root, then nine files), one more `do_open` with `O_CREATE` of a new
name is not fatal: it returns descriptor 9 and overwrites the dinode of the
last slot (block 10), whose first data block changes from 21 to 22, and sets
the flag of data block 10. -/
theorem C4_create_with_no_free_inode_returns :
    observe (do
        let k ← create_files 1 16 boot zero_pages 9
        create_one_more 1 16 k (ramdisk0_path [122]))
      (fun r =>
        (decide (∀ i, i < RFS_MAX_INODE_NUM →
          din_type (r.1.dev.blocks (RFS_BLKN_INODE + i)) ≠ T_FREE),
        r.2.2.1, din_addrs (r.1.dev.blocks 10) 0, din_addrs (r.2.1.dev.blocks 10) 0,
        rd32 r.1.freemap (4 * 10), rd32 r.2.1.freemap (4 * 10))) =
      some (true, 9, 21, 22, 0, 1) := by
  decide!

/-- C7 (code defect): the file created when no inode slot is free gets inode
number 10, the block of the last slot, whose type was `T_FILE` and not
`T_FREE` before the call; no slot was free. -/
theorem C7_inode_number_of_a_used_slot :
    observe (do
        let k ← create_files 1 16 boot zero_pages 9
        create_one_more 1 16 k (ramdisk0_path [122]))
      (fun r =>
        (((r.2.2.2.pfiles.ofile 9).node.map (fun node => node.inum)),
        din_type (r.1.dev.blocks 10),
        decide (∃ i, i < RFS_MAX_INODE_NUM ∧
          din_type (r.1.dev.blocks (RFS_BLKN_INODE + i)) = T_FREE))) =
      some (some 10, T_FILE, false) := by
  decide!

/-- C5 (counterexample): an entry of the directory has exactly the name looked
up, yet `rfs_lookup` does not return: the dinode the entry points to has an
invalid type and `rfs_get_ops` panics. -/
theorem C5_lookup_of_dangling_entry_is_fatal :
    fatal_of (rfs_lookup fs_dangling root_dangling (cstr [97])) =
      some (Fatal.panic "RFS: invalid file type") ∧
    1 < root_dangling.in_info.size / sizeof_rfs_direntry ∧
    strcmp (dir_entry_name fs_dangling root_dangling.in_info 1) (cstr [97]) = 0 ∧
    strcmp (dir_entry_name fs_dangling root_dangling.in_info 0) (cstr [97]) ≠ 0 ∧
    din_type (fs_dangling.dev.blocks (dir_entry_inum fs_dangling root_dangling.in_info 1))
      = T_FREE := by
  decide!

/-- C5 (amended): for every directory inode and terminated name, let `k` be
the first of the first `size / sizeof(struct rfs_direntry)` entries whose name
is exactly that name.  If the dinode in the block numbered by that entry's
inum has type `T_DIR` or `T_FILE`, `rfs_lookup` returns 0 and stores the inode
materialized from that dinode (size, type, link count, block count, direct
addresses and the operation table of its type) with reference count 0; if it
has another type, `rfs_lookup` is fatal.  If no such entry exists, `rfs_lookup`
returns 1 and stores nothing.  The device is unchanged.  Nothing is said about
the inode number that is stored. -/
theorem C5_rfs_lookup (rfs : rfs_fs) (dir : inode) (path : Mem) (hpath : terminated path) :
    (∀ k, k < rfs_lookup_nde dir.in_info →
      same_string (dir_entry_name rfs dir.in_info k) path →
      (∀ j, j < k → ¬ same_string (dir_entry_name rfs dir.in_info j) path) →
      ((din_type (rfs.dev.blocks (dir_entry_inum rfs dir.in_info k)) = T_DIR ∨
          din_type (rfs.dev.blocks (dir_entry_inum rfs dir.in_info k)) = T_FILE) →
        ∃ node rfs', rfs_lookup rfs dir path = Except.ok (0, some node, rfs') ∧
          node.in_info = dinode_of (rfs.dev.blocks (dir_entry_inum rfs dir.in_info k)) ∧
          node.ref = 0 ∧ node.in_fs = dir.in_fs ∧
          (node.in_ops = inode_ops.rfs_node_dirops ↔
            din_type (rfs.dev.blocks (dir_entry_inum rfs dir.in_info k)) = T_DIR) ∧
          rfs'.dev = rfs.dev ∧ rfs'.freemap = rfs.freemap ∧ rfs'.super = rfs.super) ∧
      ((din_type (rfs.dev.blocks (dir_entry_inum rfs dir.in_info k)) ≠ T_DIR ∧
          din_type (rfs.dev.blocks (dir_entry_inum rfs dir.in_info k)) ≠ T_FILE) →
        rfs_lookup rfs dir path = panic "RFS: invalid file type")) ∧
    ((∀ k, k < rfs_lookup_nde dir.in_info →
        ¬ same_string (dir_entry_name rfs dir.in_info k) path) →
      ∃ rfs', rfs_lookup rfs dir path = Except.ok (1, none, rfs') ∧
        rfs'.dev = rfs.dev ∧ rfs'.freemap = rfs.freemap ∧ rfs'.super = rfs.super) := by
  have hs : ∀ a : Mem, strcmp a path = 0 ↔ same_string a path :=
    fun a => strcmp_eq_zero_iff a path hpath
  refine ⟨?_, ?_⟩
  · intro k hk hmatch hno
    have hfound := rfs_lookup_found rfs dir path k hk ((hs _).2 hmatch)
      (fun j hj h => hno j hj ((hs _).1 h))
    refine ⟨?_, ?_⟩
    · intro hty
      rcases hty with hty | hty
      · rw [rfs_create_inode_dir _ _ _ hty] at hfound
        exact ⟨_, _, hfound, rfl, rfl, rfl, by simp [hty], rfl, rfl, rfl⟩
      · rw [rfs_create_inode_file _ _ _ hty] at hfound
        refine ⟨_, _, hfound, rfl, rfl, rfl, ?_, rfl, rfl, rfl⟩
        simp [hty, T_FILE, T_DIR]
    · intro hty
      rw [rfs_create_inode_invalid _ _ _ hty.1 hty.2] at hfound
      exact hfound
  · intro hno
    obtain ⟨buf, h⟩ := rfs_lookup_none rfs dir path (fun j hj h => hno j hj ((hs _).1 h))
    exact ⟨_, h, rfl, rfl, rfl⟩

/-- C5 (witness): the lookup of "ramfile" in the root directory after its
creation finds entry 1 and returns the inode of the file: type `T_FILE`, size
0, one block, 13. -/
theorem C5_rfs_lookup_witness :
    terminated (cstr ramfile) ∧
    ∃ node rfs', rfs_lookup fs_with_ramfile
        { fresh_root with in_info := dinode_of (fs_with_ramfile.dev.blocks RFS_BLKN_INODE) }
        (cstr ramfile) = Except.ok (0, some node, rfs') ∧
      dinode_fields node.in_info = [0, T_FILE, 1, 1, 13, 0] ∧
      node.in_ops = inode_ops.rfs_node_fileops := by
  refine ⟨by decide, ?_⟩
  obtain ⟨node, rfs', h, h1, _, _, h4, _⟩ :=
    ((C5_rfs_lookup fs_with_ramfile
      { fresh_root with in_info := dinode_of (fs_with_ramfile.dev.blocks RFS_BLKN_INODE) }
      (cstr ramfile) (by decide)).1 1 (by decide!)
      (by decide!) (by decide!)).1 (Or.inr (by decide!))
  refine ⟨node, rfs', h, by rw [h1]; decide!, ?_⟩
  cases hops : node.in_ops with
  | rfs_node_fileops => rfl
  | rfs_node_dirops => exact absurd (h4.1 hops) (by decide!)

/-- C8 (counterexample): the path "hostfile.txt" has no colon, yet `vfs_open`
with flags 3 does not return the result of `host_open`: the access mode 3 is
rejected before the path is looked at. -/
theorem C8_vfs_open_rejects_access_mode_3 :
    fatal_of (vfs_open 1 boot hostfile 3) = some (Fatal.panic "fs_open: invalid open flags!") ∧
    ∀ i, i < strlen hostfile → hostfile i ≠ 58 := by
  decide!

/-- C8 (amended): for every terminated path without a colon and every kernel
state, `get_device` and `vfs_lookup` return -1 and leave the state as it was,
and for every flags value whose access mode is `O_RDONLY`, `O_WRONLY` or
`O_RDWR`, `vfs_open` returns the result of `host_open(path, flags)` and leaves
the state as it was. -/
theorem C8_host_routing (MAX_DEV : Nat) (k : Kernel) (path : Mem) (hterm : terminated path)
    (hno : ∀ i, i < strlen path → path i ≠ 58) :
    get_device MAX_DEV k path = Except.ok (-1, path, none, path, k) ∧
    vfs_lookup MAX_DEV k path = Except.ok (-1, none, k) ∧
    ∀ flags, (flags &&& MASK_FILEMODE = O_RDONLY ∨ flags &&& MASK_FILEMODE = O_WRONLY ∨
        flags &&& MASK_FILEMODE = O_RDWR) →
      vfs_open MAX_DEV k path flags = Except.ok (k.host_open path flags, none, k) := by
  have hcol : get_device_colon path STR_MAX 0 = -1 :=
    get_device_colon_none path STR_MAX 0 (strlen path) (fun j _ hj => hno j hj)
      (fun j _ hj => strlen_nonzero path j hj) (strlen_zero path hterm) (Nat.zero_le _)
  have hdev : get_device MAX_DEV k path = Except.ok (-1, path, none, path, k) := by
    unfold get_device
    simp [hcol, pure, Except.pure]
  have hlook : vfs_lookup MAX_DEV k path = Except.ok (-1, none, k) := by
    unfold vfs_lookup
    simp [hdev, bind, Except.bind, pure, Except.pure]
  refine ⟨hdev, hlook, ?_⟩
  intro flags hflags
  unfold vfs_open
  have hmode : ¬ ((flags &&& MASK_FILEMODE) ≠ O_RDONLY ∧ (flags &&& MASK_FILEMODE) ≠ O_WRONLY
      ∧ (flags &&& MASK_FILEMODE) ≠ O_RDWR) := by
    rcases hflags with h | h | h <;> simp [h]
  simp only [if_neg hmode, hlook, bind, Except.bind, pure, Except.pure, ↓reduceIte]

/-- C8 (witness): "hostfile.txt" opened read-only on the sample kernel goes to
the host. -/
theorem C8_host_routing_witness :
    terminated hostfile ∧ (∀ i, i < strlen hostfile → hostfile i ≠ 58) ∧
    vfs_open 1 boot hostfile O_RDONLY = Except.ok (boot.host_open hostfile O_RDONLY, none, boot) :=
  ⟨by decide, by decide,
    (C8_host_routing 1 boot hostfile (by decide) (by decide)).2.2 O_RDONLY (Or.inl (by decide))⟩

/-- C10 (counterexample): on an all-zero RAM disk the root inode that
`rfs_get_root` loads after `rfs_do_mount` has number 1, the first block of the
inode region, and the entry "/" of the root data block has inum 1; neither is
0. -/
theorem C10_root_inode_number_is_1 :
    observe (do
        let (_, fs) ← rfs_do_mount ⟨fun _ _ => 0⟩ zero_pages
        rfs_get_root 0 fs)
      (fun r => (r.1.inum, de_inum (r.2.dev.blocks RFS_BLKN_FREE) 0)) = some (1, 1) := by
  decide!

/-- C10 (amended): after `rfs_do_mount` on any device the root inode loaded by
`rfs_get_root` has number `RFS_BLKN_INODE = 1`; the dinode in block
`RFS_BLKN_INODE` has type `T_DIR`, `nlinks = 1`, one direct block, the first
data block `RFS_BLKN_FREE`, and the size of one directory entry; that block
starts with the entry of inum `RFS_BLKN_INODE` and name "/". -/
theorem C10_mount_builds_root (dev : device) (pages : Nat → Mem) (fsp : Nat) :
    ∃ fs, rfs_do_mount dev pages = Except.ok (0, fs) ∧
      (∃ root fs1, rfs_get_root fsp fs = Except.ok (root, fs1) ∧ root.inum = RFS_BLKN_INODE ∧
        root.in_info.type = T_DIR ∧ fs1.dev = fs.dev) ∧
      din_type (fs.dev.blocks RFS_BLKN_INODE) = T_DIR ∧
      din_nlinks (fs.dev.blocks RFS_BLKN_INODE) = 1 ∧
      din_blocks (fs.dev.blocks RFS_BLKN_INODE) = 1 ∧
      din_addrs (fs.dev.blocks RFS_BLKN_INODE) 0 = RFS_BLKN_FREE ∧
      din_size (fs.dev.blocks RFS_BLKN_INODE) = sizeof_rfs_direntry ∧
      de_inum (fs.dev.blocks RFS_BLKN_FREE) 0 = RFS_BLKN_INODE ∧
      same_string (de_name (fs.dev.blocks RFS_BLKN_FREE) 0) (cstr [47]) ∧
      RFS_BLKN_INODE = 1 := by
  obtain ⟨fs, hm, _, _, _, ⟨hsize, htype, hnl, hbl, ha0, _⟩, _, ⟨hde, h4, h5⟩, _⟩ :=
    rfs_do_mount_spec dev pages
  refine ⟨fs, hm, ?_, htype, hnl, hbl, ha0, hsize, hde, ?_, rfl⟩
  · exact ⟨_, _, rfs_get_root_eq fsp fs htype, rfl, htype, rfl⟩
  · intro j hj
    rw [strlen_slash] at hj
    unfold de_name ptr_add
    rcases Nat.eq_zero_or_pos j with h | h
    · subst h; exact h4
    · have : j = 1 := by omega
      subst this; exact h5

/-- C6 (counterexample): a directory inode that is reused after a first
`rfs_create` still caches the old size.  The second `rfs_create` through it
raises the on-disk size from 64 to 96 but writes its entry at offset 32, over
the entry of the first file (inum 2, name "a" becomes inum 3, name "b"), and
not at the old end 64 of the directory content. -/
theorem C6_stale_directory_inode_overwrites_entry :
    observe (do
        let (_, _, fs1) ← rfs_create fresh_fs fresh_root (cstr [97])
        let (_, node, fs2) ← rfs_create fs1 fresh_root (cstr [98])
        pure (fs1, node, fs2))
      (fun r =>
        ((din_size (r.1.dev.blocks 1), de_inum (r.1.dev.blocks 12) 32, r.1.dev.blocks 12 36),
         (din_size (r.2.2.dev.blocks 1), de_inum (r.2.2.dev.blocks 12) 32,
          r.2.2.dev.blocks 12 36), r.2.1.inum, de_inum (r.2.2.dev.blocks 12) 64)) =
      some ((64, 2, 97), (96, 3, 98), 3, 0) := by
  decide!

/-- C6 (amended): let `dir` be a directory inode whose cached size is the size
in its on-disk dinode, whose dinode lies in the inode region and has type
`T_DIR`, and whose data blocks up to the end of the content are distinct blocks
of the data region; let `k` be the first free inode slot and `f` the first
free data block.  Then `rfs_create(dir, name)` returns 0, raises the size in
the on-disk dinode of the directory by `sizeof(struct rfs_direntry)`, stores
the entry with the inode number of the new file and the name `name` at the old
end of the directory content, and leaves the bytes of every earlier entry as
they were. -/
theorem C6_directory_growth (rfs : rfs_fs) (dir : inode) (name : Mem) (k f : Nat)
    (hk : k < RFS_MAX_INODE_NUM)
    (hkfree : din_type (rfs.dev.blocks (RFS_BLKN_INODE + k)) = T_FREE)
    (hkused : ∀ j, j < k → din_type (rfs.dev.blocks (RFS_BLKN_INODE + j)) ≠ T_FREE)
    (hf : f < rfs.super.nblocks) (hffree : rd32 rfs.freemap (4 * f) = 0)
    (hfused : ∀ j, j < f → rd32 rfs.freemap (4 * j) ≠ 0)
    (hsync : dir.in_info.size = din_size (rfs.dev.blocks dir.inum))
    (hinum : RFS_BLKN_INODE ≤ dir.inum ∧ dir.inum < RFS_BLKN_INODE + RFS_MAX_INODE_NUM)
    (htype : din_type (rfs.dev.blocks dir.inum) = T_DIR)
    (hdata : ∀ j, j ≤ dir.in_info.size / RFS_BLKSIZE → RFS_BLKN_FREE ≤ dir.in_info.addrs j)
    (hdistinct : ∀ j, j < dir.in_info.size / RFS_BLKSIZE →
      dir.in_info.addrs j ≠ dir.in_info.addrs (dir.in_info.size / RFS_BLKSIZE))
    (hsize : dir.in_info.size + sizeof_rfs_direntry < 2147483648) :
    ∃ node rfs', rfs_create rfs dir name = Except.ok (0, node, rfs') ∧
      node.inum = RFS_BLKN_INODE + k ∧
      din_size (rfs'.dev.blocks dir.inum) =
        din_size (rfs.dev.blocks dir.inum) + sizeof_rfs_direntry ∧
      de_inum (rfs'.dev.blocks (dir.in_info.addrs (din_size (rfs.dev.blocks dir.inum)
        / RFS_BLKSIZE))) (din_size (rfs.dev.blocks dir.inum) % RFS_BLKSIZE) = node.inum ∧
      same_string (de_name (rfs'.dev.blocks (dir.in_info.addrs
        (din_size (rfs.dev.blocks dir.inum) / RFS_BLKSIZE)))
        (din_size (rfs.dev.blocks dir.inum) % RFS_BLKSIZE)) name ∧
      ∀ i, i < din_size (rfs.dev.blocks dir.inum) / sizeof_rfs_direntry →
        ∀ o, dir_entry_offset i ≤ o → o < dir_entry_offset i + sizeof_rfs_direntry →
          dir_entry_block rfs' dir.in_info i o = dir_entry_block rfs dir.in_info i o := by
  have hD := hdata (dir.in_info.size / RFS_BLKSIZE) (Nat.le_refl _)
  have hdir : dir.inum ≠ RFS_BLKN_INODE + k := by
    intro h
    rw [h, hkfree] at htype
    exact absurd htype (by decide)
  unfold RFS_BLKN_FREE at hD
  unfold RFS_BLKN_INODE RFS_MAX_INODE_NUM at hinum
  unfold RFS_MAX_INODE_NUM at hk
  obtain ⟨node, rfs', hc, hnode, _, _, _, hdisk, hblk, hframe, _⟩ :=
    rfs_create_spec rfs dir name k f hk hkfree hkused hf hffree hfused hdir
      (by unfold RFS_BLKN_INODE; omega) (by omega)
  rw [← hsync]
  refine ⟨node, rfs', hc, by rw [hnode], ?_, ?_, ?_, ?_⟩
  · rw [hdisk]
    unfold din_size at hsync ⊢
    rw [rd32_wr32_same, ← hsync]
    apply Nat.mod_eq_of_lt
    omega
  · rw [hblk, hnode]
    unfold de_inum
    rw [rd32_strcpy_at_lt _ _ _ _ (by omega), rd32_wr32_same]
    apply Nat.mod_eq_of_lt
    unfold RFS_BLKN_INODE
    omega
  · intro j hj
    rw [hblk]
    unfold de_name ptr_add
    exact strcpy_at_apply_in _ _ name j hj
  · intro i hi o ho1 ho2
    unfold dir_entry_block
    unfold dir_entry_offset at ho1 ho2
    rw [maxde_eq] at ho1 ho2 ⊢
    unfold sizeof_rfs_direntry at hi ho1 ho2
    have hle : i / 128 ≤ dir.in_info.size / RFS_BLKSIZE := by
      unfold RFS_BLKSIZE; omega
    have hb := hdata (i / 128) hle
    unfold RFS_BLKN_FREE at hb
    by_cases hsame : dir.in_info.addrs (i / 128) = dir.in_info.addrs (dir.in_info.size / RFS_BLKSIZE)
    · have hidx : i / 128 = dir.in_info.size / RFS_BLKSIZE := by
        by_contra hne
        exact hdistinct (i / 128) (by omega) hsame
      rw [hsame, hblk]
      unfold RFS_BLKSIZE at hidx ⊢
      rw [strcpy_at_apply_lt _ _ _ _ (by omega), wr32_apply_lt _ _ _ _ (by omega)]
    · rw [hframe _ (by unfold RFS_BLKN_INODE; omega) (by omega) hsame]

/-- C6 (witness): the creation of "ramfile" in the root directory of a fresh
file system, with the first free inode slot 1 and the first free data block
1. -/
theorem C6_directory_growth_witness :
    din_type (fresh_fs.dev.blocks (RFS_BLKN_INODE + 1)) = T_FREE ∧
    rd32 fresh_fs.freemap (4 * 1) = 0 ∧
    fresh_root.in_info.size = din_size (fresh_fs.dev.blocks fresh_root.inum) ∧
    ∃ node rfs', rfs_create fresh_fs fresh_root (cstr ramfile) = Except.ok (0, node, rfs') ∧
      node.inum = 2 ∧ din_size (rfs'.dev.blocks 1) = 64 := by
  refine ⟨by decide!, by decide!, by decide!, ?_⟩
  obtain ⟨node, rfs', h, h1, h2, _⟩ := C6_directory_growth fresh_fs fresh_root (cstr ramfile) 1 1
    (by decide) (by decide!) (by decide!) (by decide!) (by decide!) (by decide!) (by decide!)
    (by decide!) (by decide!) (by decide!) (by decide!) (by decide!)
  exact ⟨node, rfs', h, h1, h2.trans (by decide!)⟩

/-- C9 (counterexample): on a freshly mounted all-zero RAM disk the file that
`do_open("ramdisk0:/ramfile", O_RDWR | O_CREATE)` creates has inode number 2
and its directory entry has inum 2; the dinode in block 1 is the root
directory, not a file. -/
theorem C9_created_inode_is_numbered_2 :
    observe (do
        let k ← rfs_init 1 boot zero_pages
        let (fd, k) ← do_open 1 16 k (ramdisk0_path ramfile) (O_RDWR ||| O_CREATE)
        let fs ← get_fs k 0
        pure (fd, k, fs))
      (fun r => ((r.2.1.pfiles.ofile 0).node.map (fun node => node.inum),
        de_inum (r.2.2.dev.blocks 12) 32, din_type (r.2.2.dev.blocks 1),
        din_type (r.2.2.dev.blocks 2))) = some (some 2, 2, T_DIR, T_FILE) := by
  decide!

/-- C9 (amended): on a freshly mounted RFS, whatever the RAM disk held before,
`do_open("ramdisk0:/ramfile", O_RDWR | O_CREATE)` creates the inode numbered 2
(the block after the root dinode) with type `T_FILE` and `blocks = 1`, makes
the root directory two entries long with second entry inum 2 and name
"ramfile", and returns the first free descriptor, whose file-table entry has
status `FD_OPENED`, `readable = 1` and `writable = 1` and holds that inode. -/
theorem C9_open_create (MAX_DEV MAX_FILES : Nat) (k : Kernel) (pages : Nat → Mem) (i fd : Nat)
    (hdev : device_at MAX_DEV k ramdisk0 i) (hfd : first_free_fd MAX_FILES k.pfiles fd) :
    ∃ k1 k2 fs node, rfs_init MAX_DEV k pages = Except.ok k1 ∧
      do_open MAX_DEV MAX_FILES k1 (ramdisk0_path ramfile) (O_RDWR ||| O_CREATE) =
        Except.ok ((fd : Int), k2) ∧
      get_fs k2 i = Except.ok fs ∧
      (k2.pfiles.ofile fd).node = some node ∧ node.inum = 2 ∧
      node.in_info.type = T_FILE ∧ node.in_info.blocks = 1 ∧
      din_type (fs.dev.blocks 2) = T_FILE ∧ din_blocks (fs.dev.blocks 2) = 1 ∧
      rfs_lookup_nde (root_inode i fs).in_info = 2 ∧
      dir_entry_inum fs (root_inode i fs).in_info 1 = 2 ∧
      same_string (dir_entry_name fs (root_inode i fs).in_info 1) (cstr ramfile) ∧
      (k2.pfiles.ofile fd).status = fd_status.FD_OPENED ∧
      (k2.pfiles.ofile fd).readable = 1 ∧ (k2.pfiles.ofile fd).writable = 1 := by
  obtain ⟨d, fs0, fs1, node, hd, hm, hinit, hopen, hpost⟩ :=
    open_create_session MAX_DEV MAX_FILES k pages i fd ramfile hdev hfd (by decide) (by decide)
      (by decide)
  obtain ⟨hnode, ⟨_, f2, _, f4, _⟩, ⟨r1, _, r3⟩, ⟨e1, e2, _, _⟩, _⟩ :=
    session_create_facts d.dev fs0 fs1 node i (cstr ramfile) hm hpost
  refine ⟨_, _, fs1, { node with ref := node.ref + 1 }, hinit, hopen,
    get_fs_set_fs k i fs1 d hd, ?_, ?_, ?_, ?_, f2, f4, ?_, ?_, ?_, ?_, ?_, ?_⟩
  · simp only [↓reduceIte]
  · rw [hnode]
  · rw [hnode]; exact f2
  · rw [hnode]; exact f4
  · exact rfs_lookup_nde_root fs1 i 64 r1 (by omega)
  · unfold dir_entry_inum
    rw [(root_entry fs1 i 1 (by omega) r3).1, (root_entry fs1 i 1 (by omega) r3).2]
    exact e1
  · intro j hj
    unfold dir_entry_name
    rw [(root_entry fs1 i 1 (by omega) r3).1, (root_entry fs1 i 1 (by omega) r3).2]
    unfold de_name ptr_add
    exact e2 j hj
  · simp only [↓reduceIte]
  · simp only [↓reduceIte]
  · simp only [↓reduceIte]

/-- C9 (witness): the sample kernel, whose device table has "ramdisk0" in
entry 0 and whose file table is empty. -/
theorem C9_open_create_witness :
    device_at 1 boot ramdisk0 0 ∧ first_free_fd 16 boot.pfiles 0 ∧
    ∃ k1 k2, rfs_init 1 boot zero_pages = Except.ok k1 ∧
      do_open 1 16 k1 (ramdisk0_path ramfile) (O_RDWR ||| O_CREATE) = Except.ok (0, k2) ∧
      (k2.pfiles.ofile 0).status = fd_status.FD_OPENED := by
  have h1 : device_at 1 boot ramdisk0 0 :=
    ⟨by decide, ⟨_, rfl, by decide⟩, fun j hj => absurd hj (by omega)⟩
  have h2 : first_free_fd 16 boot.pfiles 0 :=
    ⟨by decide, rfl, fun j hj => absurd hj (by omega)⟩
  obtain ⟨k1, k2, _, _, e1, e2, _, _, _, _, _, _, _, _, _, _, e3, _⟩ :=
    C9_open_create 1 16 boot zero_pages 0 0 h1 h2
  exact ⟨h1, h2, k1, k2, e1, e2, e3⟩

/-- C2: for every string `s` with `strlen(s) + 1 < RFS_BLKSIZE` and every file
name that fits a directory entry and is not "/": after mount,
`do_open("ramdisk0:/name", O_RDWR | O_CREATE)` and
`do_write(fd, s, strlen(s) + 1)`, a `do_read` of at least `strlen(s) + 1` bytes
delivers exactly `s`, both through the same descriptor and through the
descriptor of a second `do_open("ramdisk0:/name", O_RDWR)`, and the size in the
on-disk dinode of the file is `strlen(s) + 1`.  The file table is one in which
every used entry carries its own index as descriptor number. -/
theorem C2_single_block_round_trip (MAX_DEV MAX_FILES : Nat) (k : Kernel) (pages : Nat → Mem)
    (i fd fd2 : Nat) (name : List Nat) (s ubuf : Mem) (count : Nat)
    (hdev : device_at MAX_DEV k ramdisk0 i)
    (htable : ∀ j, j < MAX_FILES → (k.pfiles.ofile j).status ≠ fd_status.FD_NONE →
      (k.pfiles.ofile j).fd = (j : Int))
    (hfd : first_free_fd MAX_FILES k.pfiles fd)
    (hfd2 : fd < fd2 ∧ fd2 < MAX_FILES ∧ (k.pfiles.ofile fd2).status = fd_status.FD_NONE ∧
      ∀ j, fd < j → j < fd2 → (k.pfiles.ofile j).status ≠ fd_status.FD_NONE)
    (hname0 : ∀ c ∈ name, c ≠ 0) (hname : name ≠ [47]) (hlen : name.length < 28)
    (hs : strlen s + 1 < RFS_BLKSIZE) (hcount : strlen s + 1 ≤ count) :
    ∃ k1 k2 k3, rfs_init MAX_DEV k pages = Except.ok k1 ∧
      do_open MAX_DEV MAX_FILES k1 (ramdisk0_path name) (O_RDWR ||| O_CREATE) =
        Except.ok ((fd : Int), k2) ∧
      do_write MAX_FILES k2 (fd : Int) s (strlen s + 1) = Except.ok (0, k3) ∧
      (∃ buf k4, do_read MAX_FILES k3 (fd : Int) ubuf count = Except.ok (0, buf, k4) ∧
        same_string buf s) ∧
      (∃ k5 buf k6, do_open MAX_DEV MAX_FILES k3 (ramdisk0_path name) O_RDWR =
          Except.ok ((fd2 : Int), k5) ∧
        do_read MAX_FILES k5 (fd2 : Int) ubuf count = Except.ok (0, buf, k6) ∧
        same_string buf s) ∧
      (∃ fs, get_fs k3 i = Except.ok fs ∧ din_size (fs.dev.blocks 2) = strlen s + 1) := by
  obtain ⟨d, fs0, fs1, node, hd, hm, hinit, hopen, hpost⟩ :=
    open_create_session MAX_DEV MAX_FILES k pages i fd name hdev hfd hname0 hname hlen
  obtain ⟨hnode, ⟨_, f2, _, f4, f5⟩, ⟨r1, r2, r3⟩, ⟨e1, e2, e4, e5⟩, _⟩ :=
    session_create_facts d.dev fs0 fs1 node i (cstr name) hm hpost
  subst hnode
  -- the kernel after the first open
  obtain ⟨k2, hopen, hfs2, hdev2, hent2, hoth2⟩ : ∃ k2,
      do_open MAX_DEV MAX_FILES (set_fs k i fs0) (ramdisk0_path name) (O_RDWR ||| O_CREATE) =
        Except.ok ((fd : Int), k2) ∧
      get_fs k2 i = Except.ok fs1 ∧ device_at MAX_DEV k2 ramdisk0 i ∧
      k2.pfiles.ofile fd =
        { status := fd_status.FD_OPENED, readable := 1, writable := 1, fd := (fd : Int),
          ref := 1, off := din_size (fs1.dev.blocks 2),
          node := some ⟨dinode_of (fs1.dev.blocks 2), 2, 1, i,
            inode_ops.rfs_node_fileops⟩ } ∧
      (∀ j, j ≠ fd → k2.pfiles.ofile j = k.pfiles.ofile j) := by
    refine ⟨_, hopen, get_fs_set_fs k i fs1 d hd, ?_, ?_, ?_⟩
    · exact device_at_same_env MAX_DEV k _ ramdisk0 i
        (same_env_trans k _ _ (same_env_set_fs k i fs1) (same_env_pfiles _ _)) hdev
    · simp only [↓reduceIte]
      rfl
    · intro j hj
      simp only [if_neg hj]
  have hfind2 : find_file_loop k2.pfiles.ofile (fd : Int) MAX_FILES 0 none = some fd := by
    apply find_file_own MAX_FILES _ fd hfd.1
    · rw [hent2]
    · intro j hj
      rw [hoth2 j (by omega)]
      exact htable j (by have := hfd.1; omega) (hfd.2.2 j hj)
  have hb13 : (dinode_of (fs1.dev.blocks 2)).addrs 0 = 13 := by
    simp [dinode_of, RFS_NDIRECT, f5]
  -- the write
  obtain ⟨k3, fs2, hwrite, hfs3, henv3, hoth3, hent3, _, _, w1, w2, w3⟩ :=
    do_write_one_block MAX_FILES k2 fd s (strlen s + 1)
      ⟨dinode_of (fs1.dev.blocks 2), 2, 1, i, inode_ops.rfs_node_fileops⟩ fs1 hfind2
      (by rw [hent2]) (by rw [hent2]; exact Nat.one_ne_zero) (by rw [hent2]) rfl hfs2
      (by omega) (by omega)
      (by show din_blocks (fs1.dev.blocks 2) ≠ 0; rw [f4]; decide)
      (by show (dinode_of (fs1.dev.blocks 2)).addrs 0 ≠ 2; rw [hb13]; decide)
  simp only [hb13] at w1 w2 w3
  have hsmall : (strlen s + 1) % 4294967296 = strlen s + 1 := by
    apply Nat.mod_eq_of_lt
    unfold RFS_BLKSIZE at hs
    omega
  rw [hent2] at hent3
  have hfind3 : find_file_loop k3.pfiles.ofile (fd : Int) MAX_FILES 0 none = some fd := by
    apply find_file_own MAX_FILES _ fd hfd.1
    · rw [hent3]
    · intro j hj
      rw [hoth3 j (by omega), hoth2 j (by omega)]
      exact htable j (by have := hfd.1; omega) (hfd.2.2 j hj)
  have hsize2 : din_size (fs2.dev.blocks 2) = strlen s + 1 := by
    rw [w2]
    unfold din_size
    rw [rd32_wr32_disj _ _ _ _ (by omega), rd32_wr32_same, hsmall]
  have htype2 : din_type (fs2.dev.blocks 2) = T_FILE := by
    rw [w2]
    unfold din_type at f2 ⊢
    rw [rd32_wr32_disj _ _ _ _ (by omega), rd32_wr32_disj _ _ _ _ (by omega)]
    exact f2
  have haddr2 : din_addrs (fs2.dev.blocks 2) 0 = 13 := by
    rw [w2]
    unfold din_addrs at f5 ⊢
    rw [rd32_wr32_disj _ _ _ _ (by omega), rd32_wr32_disj _ _ _ _ (by omega)]
    exact f5
  have hblk : ∀ j, j ≤ strlen s → fs2.dev.blocks 13 j = s j :=
    fun j hj => w1 j (by omega)
  refine ⟨_, k2, k3, hinit, hopen, hwrite, ?_, ?_, ⟨fs2, hfs3, hsize2⟩⟩
  · -- the read through the same descriptor
    exact do_read_string MAX_FILES k3 fd ubuf count
      ⟨{ dinode_of (fs1.dev.blocks 2) with size := (strlen s + 1) % 4294967296 }, 2, 1, i,
        inode_ops.rfs_node_fileops⟩ fs2 s hfind3 (by rw [hent3])
      (by rw [hent3]; exact Nat.one_ne_zero) (by rw [hent3]) rfl hfs3 hs hsmall hcount
      (by intro j hj; show fs2.dev.blocks ((dinode_of (fs1.dev.blocks 2)).addrs 0) j = s j
          rw [hb13]; exact hblk j hj)
  · -- the second open and the read through its descriptor
    have hfree3 : first_free_fd MAX_FILES k3.pfiles fd2 := by
      refine ⟨hfd2.2.1, ?_, ?_⟩
      · rw [hoth3 fd2 (by omega), hoth2 fd2 (by omega)]
        exact hfd2.2.2.1
      · intro j hj
        by_cases h : j = fd
        · subst h
          rw [hent3]
          exact fun hh => fd_status.noConfusion hh
        · rw [hoth3 j h, hoth2 j h]
          by_cases h2 : j < fd
          · exact hfd.2.2 j h2
          · exact hfd2.2.2.2 j (by omega) hj
    obtain ⟨k5, hopen5, hfs5, hent5, hoth5, _⟩ := open_existing MAX_DEV MAX_FILES k3 i fd2 name
      fs2 (device_at_same_env MAX_DEV k2 k3 ramdisk0 i henv3 hdev2) hfs3 hfree3 hname0 hname hlen
      (by rw [w3 1 (by omega) (by omega)]; exact r1)
      (by rw [w3 1 (by omega) (by omega)]; exact r2)
      (by rw [w3 1 (by omega) (by omega)]; exact r3)
      (by rw [w3 12 (by omega) (by omega)]; exact e4)
      (by rw [w3 12 (by omega) (by omega)]; exact e5)
      (by rw [w3 12 (by omega) (by omega)]; exact e1)
      (by intro j hj; rw [w3 12 (by omega) (by omega)]; exact e2 j hj)
      htype2
    have hfind5 : find_file_loop k5.pfiles.ofile (fd2 : Int) MAX_FILES 0 none = some fd2 := by
      apply find_file_own MAX_FILES _ fd2 hfd2.2.1
      · rw [hent5]
      · intro j hj
        rw [hoth5 j (by omega)]
        by_cases h : j = fd
        · subst h
          rw [hent3]
        · rw [hoth3 j h, hoth2 j h]
          apply htable j (by have := hfd2.2.1; omega)
          by_cases h2 : j < fd
          · exact hfd.2.2 j h2
          · exact hfd2.2.2.2 j (by omega) hj
    obtain ⟨buf, k6, hread, hsame⟩ := do_read_string MAX_FILES k5 fd2 ubuf count
      ⟨dinode_of (fs2.dev.blocks 2), de_inum (fs2.dev.blocks 2) 32, 1, i,
        inode_ops.rfs_node_fileops⟩
      { fs2 with buffer := fs2.dev.blocks 2 } s hfind5 (by rw [hent5])
      (by rw [hent5]; exact Nat.one_ne_zero) (by rw [hent5]) rfl hfs5 hs hsize2 hcount
      (by
        intro j hj
        show fs2.dev.blocks ((dinode_of (fs2.dev.blocks 2)).addrs 0) j = s j
        have : (dinode_of (fs2.dev.blocks 2)).addrs 0 = 13 := by
          simp [dinode_of, RFS_NDIRECT, haddr2]
        rw [this]
        exact hblk j hj)
    exact ⟨k5, buf, k6, hopen5, hread, hsame⟩

/-- C2 (witness): on the sample kernel the string "hello" written to the new
file "ramdisk0:/ramfile" through descriptor 0 is read back through descriptor
0 and through descriptor 1 of a second open, and the on-disk size is 6. -/
theorem C2_single_block_round_trip_witness :
    device_at 1 boot ramdisk0 0 ∧ first_free_fd 16 boot.pfiles 0 ∧
    strlen (cstr [104, 101, 108, 108, 111]) + 1 < RFS_BLKSIZE ∧
    ∃ k1 k2 k3, rfs_init 1 boot zero_pages = Except.ok k1 ∧
      do_open 1 16 k1 (ramdisk0_path ramfile) (O_RDWR ||| O_CREATE) = Except.ok (0, k2) ∧
      do_write 16 k2 0 (cstr [104, 101, 108, 108, 111]) 6 = Except.ok (0, k3) ∧
      (∃ buf k4, do_read 16 k3 0 (fun _ => 0) 512 = Except.ok (0, buf, k4) ∧
        same_string buf (cstr [104, 101, 108, 108, 111])) ∧
      (∃ k5 buf k6, do_open 1 16 k3 (ramdisk0_path ramfile) O_RDWR = Except.ok (1, k5) ∧
        do_read 16 k5 1 (fun _ => 0) 512 = Except.ok (0, buf, k6) ∧
        same_string buf (cstr [104, 101, 108, 108, 111])) ∧
      (∃ fs, get_fs k3 0 = Except.ok fs ∧ din_size (fs.dev.blocks 2) = 6) := by
  have h1 : device_at 1 boot ramdisk0 0 :=
    ⟨by decide, ⟨_, rfl, by decide⟩, fun j hj => absurd hj (by omega)⟩
  have h2 : first_free_fd 16 boot.pfiles 0 :=
    ⟨by decide, rfl, fun j hj => absurd hj (by omega)⟩
  have h3 : strlen (cstr [104, 101, 108, 108, 111]) = 5 := by decide
  have h := C2_single_block_round_trip 1 16 boot zero_pages 0 0 1 ramfile
    (cstr [104, 101, 108, 108, 111]) (fun _ => 0) 512 h1
    (fun j _ hj => absurd rfl hj) h2
    ⟨by decide, by decide, rfl, fun j hj hj2 => absurd hj2 (by omega)⟩
    (by decide) (by decide) (by decide) (by rw [h3]; decide) (by rw [h3]; decide)
  rw [h3] at h
  exact ⟨h1, h2, by rw [h3]; decide, h⟩

/-- C11: for every device and every content of the fresh pages, `rfs_do_mount`
returns 0 and both the in-memory superblock and the copy in device block
`RFS_BLKN_SUPER` hold `size = 1 + ninodes + 1 + nblocks`,
`nblocks = ninodes * RFS_NDIRECT` and `magic = RFS_MAGIC`. -/
theorem C11_superblock_layout (dev : device) (pages : Nat → Mem) :
    ∃ fs, rfs_do_mount dev pages = Except.ok (0, fs) ∧
      (fs.super.magic = RFS_MAGIC ∧
        fs.super.size = 1 + fs.super.ninodes + 1 + fs.super.nblocks ∧
        fs.super.nblocks = fs.super.ninodes * RFS_NDIRECT) ∧
      (rd32 (fs.dev.blocks RFS_BLKN_SUPER) 0 = RFS_MAGIC ∧
        rd32 (fs.dev.blocks RFS_BLKN_SUPER) 4 =
          1 + rd32 (fs.dev.blocks RFS_BLKN_SUPER) 12 + 1 + rd32 (fs.dev.blocks RFS_BLKN_SUPER) 8 ∧
        rd32 (fs.dev.blocks RFS_BLKN_SUPER) 8 =
          rd32 (fs.dev.blocks RFS_BLKN_SUPER) 12 * RFS_NDIRECT) ∧
      (rd32 (fs.dev.blocks RFS_BLKN_SUPER) 0 = fs.super.magic ∧
        rd32 (fs.dev.blocks RFS_BLKN_SUPER) 4 = fs.super.size ∧
        rd32 (fs.dev.blocks RFS_BLKN_SUPER) 8 = fs.super.nblocks ∧
        rd32 (fs.dev.blocks RFS_BLKN_SUPER) 12 = fs.super.ninodes) := by
  obtain ⟨fs, h, hs, _, _, _, _, _, ⟨b0, b4, b8, b12⟩, _⟩ := rfs_do_mount_spec dev pages
  refine ⟨fs, h, ?_, ?_, ?_⟩
  · rw [hs]
    exact ⟨rfl, by decide, by decide⟩
  · unfold RFS_BLKN_SUPER
    rw [b0, b4, b8, b12]
    exact ⟨rfl, by decide, by decide⟩
  · unfold RFS_BLKN_SUPER
    rw [b0, b4, b8, b12, hs]
    exact ⟨rfl, rfl, rfl, rfl⟩

/-- C17: `rfs_alloc_block` is first fit.  If flag `i` is the first clear flag
below `nblocks`, the call returns `RFS_BLKN_FREE + i`, flag `i` is set afterwards
and every byte of the free map outside flag `i`, hence every other flag, is
what it was; superblock, device and buffer are untouched.  If no flag below
`nblocks` is clear the call panics and the scan leaves the free map as it
was. -/
theorem C17_first_fit_allocation (rfs : rfs_fs) :
    (∀ i, i < rfs.super.nblocks → rd32 rfs.freemap (4 * i) = 0 →
      (∀ j, j < i → rd32 rfs.freemap (4 * j) ≠ 0) →
      ∃ rfs', rfs_alloc_block rfs = Except.ok (RFS_BLKN_FREE + i, rfs') ∧
        rd32 rfs'.freemap (4 * i) = 1 ∧
        (∀ j, j ≠ i → rd32 rfs'.freemap (4 * j) = rd32 rfs.freemap (4 * j)) ∧
        (∀ o, o < 4 * i ∨ 4 * i + 4 ≤ o → rfs'.freemap o = rfs.freemap o) ∧
        rfs'.super = rfs.super ∧ rfs'.dev = rfs.dev ∧ rfs'.buffer = rfs.buffer) ∧
    ((∀ j, j < rfs.super.nblocks → rd32 rfs.freemap (4 * j) ≠ 0) →
      rfs_alloc_block rfs = Except.error (Fatal.panic "rfs_alloc_block: no free block!") ∧
      (rfs_alloc_block_loop rfs.freemap rfs.super.nblocks 0).1 = rfs.freemap) := by
  constructor
  · intro i hi hfree hused
    refine ⟨_, rfs_alloc_block_found rfs i hi hfree hused, ?_, ?_, ?_, rfl, rfl, rfl⟩
    · show rd32 (wr32 rfs.freemap (4 * i) 1) (4 * i) = 1
      rw [rd32_wr32_same]
    · intro j hj
      show rd32 (wr32 rfs.freemap (4 * i) 1) (4 * j) = rd32 rfs.freemap (4 * j)
      exact rd32_wr32_disj _ _ _ _ (by omega)
    · intro o ho
      show wr32 rfs.freemap (4 * i) 1 o = rfs.freemap o
      rcases ho with h | h
      · exact wr32_apply_lt _ _ _ _ h
      · exact wr32_apply_gt _ _ _ _ (by omega)
  · intro hused
    refine ⟨rfs_alloc_block_none rfs hused, ?_⟩
    rw [rfs_alloc_block_loop_none rfs.freemap rfs.super.nblocks 0
      (by intro j hj; simpa using hused j hj)]

/-- C17 (witness): in the freshly mounted file system flag 1 is the first clear
flag and block 13 is allocated; with every flag set the call panics. -/
theorem C17_first_fit_allocation_witness :
    (∃ rfs', rfs_alloc_block fresh_fs = Except.ok (13, rfs') ∧ rd32 rfs'.freemap 4 = 1 ∧
      rd32 rfs'.freemap 0 = 1 ∧ rd32 rfs'.freemap 8 = 0) ∧
    rfs_alloc_block full_fs = Except.error (Fatal.panic "rfs_alloc_block: no free block!") := by
  constructor
  · obtain ⟨rfs', h, h1, h2, _⟩ := (C17_first_fit_allocation fresh_fs).1 1 (by decide!)
      (by decide!) (fun j hj => by
        have : j = 0 := by omega
        subst this
        decide!)
    exact ⟨rfs', h, h1, (h2 0 (by omega)).trans (by decide!), (h2 2 (by omega)).trans (by decide!)⟩
  · refine ((C17_first_fit_allocation full_fs).2 (fun j _ => ?_)).1
    have : rd32 full_fs.freemap (4 * j) = 1 := by
      unfold rd32 full_fs
      simp only []
      rw [if_pos (by omega), if_neg (by omega), if_neg (by omega), if_neg (by omega)]
    omega

/-- C15 (failing input): with a file table of 16 entries that all hold open
descriptors 0 .. 15 of the file "ramdisk0:/ramfile" (content "hello"), the
descriptor number 99 is the `fd` of no entry, yet `do_read(99, ...)` returns 0
and delivers "hello", and `do_write(99, "bye", 4)` returns 0 and puts "bye"
into the data block 13 of the file: both calls go on with the last entry of
the table instead of panicking.  (The inode of that entry comes from
`rfs_lookup` and carries the number 0, so the size 4 is written back to block
0 and the dinode of the file in block 2 keeps the size 6.) -/
theorem C15_unknown_descriptor_uses_last_entry :
    observe (fill_table 1 16 boot zero_pages (ramdisk0_path ramfile) hello 6 15)
      (fun k => (List.range 16).map (fun j => (k.pfiles.ofile j).fd)) =
      some [0, 1, 2, 3, 4, 5, 6, 7, 8, 9, 10, 11, 12, 13, 14, 15] ∧
    observe (do
        let k ← fill_table 1 16 boot zero_pages (ramdisk0_path ramfile) hello 6 15
        read_then_write 16 k 99 (fun _ => 0) 512 bye 4)
      (fun r => (r.1, (List.range 6).map r.2.1, r.2.2.1,
        (List.range 4).map (r.2.2.2.dev.blocks 13), din_size (r.2.2.2.dev.blocks 2),
        din_size (r.2.2.2.dev.blocks 0))) =
      some (0, [104, 101, 108, 108, 111, 0], 0, [98, 121, 101, 0], 6, 4) := by
  decide!

/-- C16 (failing input): the device table holds "ramdisk0" and "ramdisk1"; the
name "nodev" matches neither, yet `vfs_mount("nodev", rfs_do_mount)` returns 0
and mounts on the last entry, and `vfs_get_root("nodev", ...)` returns 0 with
the root inode of the file system on the last entry. -/
theorem C16_unknown_device_uses_last_entry :
    (strcmp ramdisk0 nodev ≠ 0 ∧ strcmp ramdisk1 nodev ≠ 0) ∧
    observe (vfs_mount 2 boot2 nodev zero_pages)
      (fun r => (r.1, mounted_at r.2 0, mounted_at r.2 1)) = some (0, false, true) ∧
    observe (do
        let (_, k) ← vfs_mount 2 boot2 ramdisk0 zero_pages
        let (_, k) ← vfs_mount 2 k ramdisk1 zero_pages
        vfs_get_root 2 k nodev)
      (fun r => (r.1, r.2.1.inum, r.2.1.in_fs)) = some (0, 1, 1) := by
  decide!

/-- C18 (failing input): a file whose stored size is exactly one block.  After
mount, `do_open("ramdisk0:/ramfile", O_RDWR | O_CREATE)` and a write of 4095
letters `A` with their terminator (4096 bytes), the dinode has size 4096 and
one block, 13, which holds the letters.  A read of 4096 bytes through the same
descriptor copies `remain = 4096 % RFS_BLKSIZE = 0` bytes of that block and
delivers the empty string (the local buffer of `rfs_read`, zero here, cut at
offset 4096); a read of 4095 bytes delivers the 4095 letters. -/
theorem C18_read_of_whole_block_delivers_nothing :
    observe (create_and_write 1 16 boot zero_pages (ramdisk0_path ramfile) (letters 4095) 4096)
      (fun fs => (din_size (fs.dev.blocks 2), din_blocks (fs.dev.blocks 2),
        din_addrs (fs.dev.blocks 2) 0, fs.dev.blocks 13 0, fs.dev.blocks 13 4094,
        fs.dev.blocks 13 4095)) = some (4096, 1, 13, 65, 65, 0) ∧
    observe (write_then_read 1 16 boot zero_pages (ramdisk0_path ramfile) (letters 4095)
        4096 4096 (fun _ => 66)) (fun buf => (strlen buf, buf 0, buf 1)) = some (0, 0, 66) ∧
    observe (write_then_read 1 16 boot zero_pages (ramdisk0_path ramfile) (letters 4095)
        4096 4095 (fun _ => 66)) (fun buf => (strlen buf, buf 0, buf 4094, buf 4095)) =
      some (4095, 65, 65, 0) := by
  decide!

/-- C20 (counterexample): on an all-zero RAM disk, after mount and the
`rfs_create` of "ramfile" the flag of data block 1 is set in the in-memory
free map and clear in the bitmap block on the device; after a further write
of 4098 bytes through `do_write` the same holds for the flag of data block
2. -/
theorem C20_bitmap_block_is_stale_after_allocation :
    observe (do
        let (_, fs) ← rfs_do_mount ⟨fun _ _ => 0⟩ zero_pages
        let (root, fs) ← rfs_get_root 0 fs
        let (r, _, fs) ← rfs_create fs root (cstr ramfile)
        pure (r, fs))
      (fun r => (r.1, rd32 r.2.freemap 4, rd32 (r.2.dev.blocks RFS_BLKN_BITMAP) 4)) =
      some (0, 1, 0) ∧
    observe (create_and_write 1 16 boot zero_pages (ramdisk0_path ramfile) (letters 4097) 4098)
      (fun fs => (rd32 fs.freemap 4, rd32 fs.freemap 8,
        rd32 (fs.dev.blocks RFS_BLKN_BITMAP) 4, rd32 (fs.dev.blocks RFS_BLKN_BITMAP) 8)) =
      some (1, 1, 0, 0) := by
  decide!

/-- C20 (amended): `rfs_do_mount` returns with the bitmap block on the device
equal to the in-memory free map.  An `rfs_create` that returns has set the
flag of the first free data block in the in-memory free map and has left the
bitmap block on the device as it was, and an `rfs_write` that returns has left
the bitmap block on the device as it was, whenever the inode and the block
addresses they are given do not designate the bitmap block itself. -/
theorem C20_bitmap_block_written_at_mount_only :
    (∀ (dev : device) (pages : Nat → Mem), ∃ fs, rfs_do_mount dev pages = Except.ok (0, fs) ∧
      ∀ o, o < RFS_BLKSIZE → fs.dev.blocks RFS_BLKN_BITMAP o = fs.freemap o) ∧
    (∀ (rfs : rfs_fs) (dir : inode) (name : Mem) (r : Int) (node : inode) (rfs1 : rfs_fs),
      dir.inum ≠ RFS_BLKN_BITMAP →
      dir.in_info.addrs (dir.in_info.size / RFS_BLKSIZE) ≠ RFS_BLKN_BITMAP →
      rfs_create rfs dir name = Except.ok (r, node, rfs1) →
      rfs1.dev.blocks RFS_BLKN_BITMAP = rfs.dev.blocks RFS_BLKN_BITMAP ∧
      ∃ f, f < rfs.super.nblocks ∧ rd32 rfs.freemap (4 * f) = 0 ∧
        (∀ j, j < f → rd32 rfs.freemap (4 * j) ≠ 0) ∧
        rfs1.freemap = wr32 rfs.freemap (4 * f) 1) ∧
    (∀ (rfs : rfs_fs) (node : inode) (buf : Mem) (len : Nat) (r : Int) (node1 : inode)
        (rfs1 : rfs_fs),
      node.inum ≠ RFS_BLKN_BITMAP → (∀ j, node.in_info.addrs j ≠ RFS_BLKN_BITMAP) →
      rfs_write rfs node buf len = Except.ok (r, node1, rfs1) →
      rfs1.dev.blocks RFS_BLKN_BITMAP = rfs.dev.blocks RFS_BLKN_BITMAP) := by
  refine ⟨?_, ?_, ?_⟩
  · intro dev pages
    obtain ⟨fs, h, _, _, _, _, _, _, _, hb, _⟩ := rfs_do_mount_spec dev pages
    exact ⟨fs, h, hb⟩
  · intro rfs dir name r node rfs1 h1 h2 h
    obtain ⟨hf, _, hm⟩ := rfs_create_frame rfs dir name r node rfs1 h
    exact ⟨hf RFS_BLKN_BITMAP (Or.inr (by decide)) (Ne.symm h1) (Ne.symm h2), hm⟩
  · intro rfs node buf len r node1 rfs1 h1 h2 h
    exact (rfs_write_frame rfs node buf len RFS_BLKN_BITMAP r node1 rfs1 (by decide) h1 h2 h).1

/-- C20 (witness): the `rfs_create` of "ramfile" in the root directory of the
freshly mounted file system, and a write of "hello" to that file. -/
theorem C20_bitmap_block_written_at_mount_only_witness :
    (∃ r node rfs1, rfs_create fresh_fs fresh_root (cstr ramfile) = Except.ok (r, node, rfs1) ∧
      rfs1.dev.blocks RFS_BLKN_BITMAP = fresh_fs.dev.blocks RFS_BLKN_BITMAP) ∧
    (∃ r node1 rfs1, rfs_write fs_with_ramfile ramfile_inode hello 6 = Except.ok (r, node1, rfs1) ∧
      rfs1.dev.blocks RFS_BLKN_BITMAP = fs_with_ramfile.dev.blocks RFS_BLKN_BITMAP) := by
  constructor
  · obtain ⟨⟨r, node, rfs1⟩, h⟩ := returns_of_not_fatal
      (rfs_create fresh_fs fresh_root (cstr ramfile)) (by decide!)
    exact ⟨r, node, rfs1, h, (C20_bitmap_block_written_at_mount_only.2.1 fresh_fs fresh_root
      (cstr ramfile) r node rfs1 (by decide) (by decide!) h).1⟩
  · obtain ⟨⟨r, node1, rfs1⟩, h⟩ := returns_of_not_fatal
      (rfs_write fs_with_ramfile ramfile_inode hello 6) (by decide!)
    refine ⟨r, node1, rfs1, h, C20_bitmap_block_written_at_mount_only.2.2 fs_with_ramfile
      ramfile_inode hello 6 r node1 rfs1 (by decide) ?_ h⟩
    intro j
    by_cases hj : j < 10
    · interval_cases j <;> decide!
    · have : ramfile_inode.in_info.addrs j = 0 := by
        unfold ramfile_inode dinode_of
        simp only []
        rw [if_neg (by unfold RFS_NDIRECT; omega)]
      rw [this]
      decide

/-- C19 (counterexample): the path string "ramdisk0:" ends with its colon, at
index 8, and has length 9.  `get_device` returns 0 with an intra-device path
that starts at index 10, beyond the terminator of the path string: it is the
string "x" that happens to follow in the buffer, not a suffix of the path. -/
theorem C19_subpath_starts_beyond_the_terminator :
    strlen colon_last = 9 ∧ get_device_colon colon_last STR_MAX 0 = 8 ∧
    observe (get_device 1 mounted colon_last)
      (fun r => (r.1, r.2.1 0, strlen r.2.1)) = some (0, 120, 1) := by
  decide!

/-- C19 (amended): for every path whose first colon is at index `c`, with no
NUL before it and `c < 32` (the size of the local `devname`), `get_device`
calls `vfs_get_root` with the device name made of the `c` characters before
the colon, returns its result, sets the intra-device path to the pointer
`path + c + 2` and leaves the bytes of the path as they were.  When at least
one character follows the colon (`c + 2 ≤ strlen path`) that pointer lies
inside the path string and the intra-device path is its suffix from index
`c + 2`. -/
theorem C19_get_device (MAX_DEV : Nat) (k : Kernel) (path : Mem) (c : Nat)
    (hcolon : path c = 58) (h58 : ∀ j, j < c → path j ≠ 58) (h0 : ∀ j, j < c → path j ≠ 0)
    (hc : c < 32) :
    ∃ devname, strlen devname = c ∧ (∀ j, j < c → devname j = path j) ∧
      get_device MAX_DEV k path =
        (match vfs_get_root MAX_DEV k devname with
          | Except.ok (ret, node, k1) =>
            Except.ok (ret, ptr_add path (c + 2), some node, path, k1)
          | Except.error e => Except.error e) ∧
      (∀ j, ptr_add path (c + 2) j = path (c + 2 + j)) ∧
      (terminated path → c + 2 ≤ strlen path →
        strlen (ptr_add path (c + 2)) + (c + 2) = strlen path) := by
  have hcol : get_device_colon path STR_MAX 0 = (c : Int) :=
    get_device_colon_found path STR_MAX 0 c (fun j _ hj => h58 j hj) (fun j _ hj => h0 j hj)
      hcolon (Nat.zero_le c) (by unfold STR_MAX; omega)
  obtain ⟨hl, hcpy⟩ := get_device_devname (k.stack 2) path c h0 (by unfold STR_MAX; omega)
  have hpath : (fun i => if i = c then 58 else (fun i => if i = c then 0 else path i) i) = path := by
    funext j
    by_cases h : j = c
    · subst h; simp [hcolon]
    · simp [h]
  refine ⟨strcpy (k.stack 2) (fun i => if i = c then 0 else path i), ?_, ?_, ?_, fun j => rfl,
    fun hp hk => strlen_ptr_add path (c + 2) hk hp⟩
  · apply strlen_eq
    · intro j hj
      rw [hcpy j, if_pos hj]
      exact h0 j hj
    · rw [hcpy c]
      simp
    · unfold STR_MAX; omega
  · intro j hj
    rw [hcpy j, if_pos hj]
  · unfold get_device
    simp only [hcol, bind, Except.bind, pure, Except.pure, Int.toNat_ofNat]
    rw [if_neg (by omega), hl, if_neg (by omega)]
    cases vfs_get_root MAX_DEV k (strcpy (k.stack 2) (fun i => if i = c then 0 else path i)) with
    | error e => rfl
    | ok v => simp only [hpath]

/-- C19 (witness): the path "ramdisk0:/ramfile" on the mounted sample kernel:
the colon is at index 8 and the intra-device path is the suffix "ramfile" of
length 7. -/
theorem C19_get_device_witness :
    terminated (ramdisk0_path ramfile) ∧ 8 + 2 ≤ strlen (ramdisk0_path ramfile) ∧
    ∃ devname, strlen devname = 8 ∧
      get_device 1 mounted (ramdisk0_path ramfile) =
        (match vfs_get_root 1 mounted devname with
          | Except.ok (ret, node, k1) =>
            Except.ok (ret, ptr_add (ramdisk0_path ramfile) (8 + 2), some node,
              ramdisk0_path ramfile, k1)
          | Except.error e => Except.error e) ∧
      strlen (ptr_add (ramdisk0_path ramfile) (8 + 2)) + (8 + 2) =
        strlen (ramdisk0_path ramfile) := by
  have ht : terminated (ramdisk0_path ramfile) := by decide
  have hl : 8 + 2 ≤ strlen (ramdisk0_path ramfile) := by decide
  obtain ⟨h1, h2, h3, _, _, _⟩ := ramdisk0_path_device ramfile
  obtain ⟨devname, e1, _, e3, _, e5⟩ :=
    C19_get_device 1 mounted (ramdisk0_path ramfile) 8 h1 h2 h3 (by omega)
  exact ⟨ht, hl, devname, e1, e3, e5 ht hl⟩

/-- C13: let `vfs_open(pathname, flags, &node)` return 0 with the inode
`node`.  If `i` is the least index whose file-table entry has status
`FD_NONE`, `do_open` returns `i`, entry `i` has status `FD_OPENED`, `fd = i`,
`ref = 1`, the access flags decoded from `flags`, the inode `node` and offset
`node`'s size, `nfile` is one more than before and every other entry is what
it was.  If no entry has status `FD_NONE`, `do_open` is fatal, with the panic
"no file entry" when the table has at least one entry. -/
theorem C13_descriptor_installation (MAX_DEV MAX_FILES : Nat) (k k1 : Kernel) (path : Mem)
    (flags : Nat) (node : inode)
    (hres : vfs_open MAX_DEV k path flags = Except.ok (0, some node, k1)) :
    (∀ i, first_free_fd MAX_FILES k.pfiles i →
      ∃ k2, do_open MAX_DEV MAX_FILES k path flags = Except.ok ((i : Int), k2) ∧
        (k2.pfiles.ofile i).status = fd_status.FD_OPENED ∧
        (k2.pfiles.ofile i).fd = (i : Int) ∧ (k2.pfiles.ofile i).ref = 1 ∧
        (k2.pfiles.ofile i).node = some node ∧
        (k2.pfiles.ofile i).off = node.in_info.size ∧
        (k2.pfiles.ofile i).readable =
          (if flags &&& MASK_FILEMODE = O_RDONLY ∨ flags &&& MASK_FILEMODE = O_RDWR then 1
            else 0) ∧
        (k2.pfiles.ofile i).writable =
          (if flags &&& MASK_FILEMODE = O_WRONLY ∨ flags &&& MASK_FILEMODE = O_RDWR then 1
            else 0) ∧
        k2.pfiles.nfile = k.pfiles.nfile + 1 ∧
        (∀ j, j ≠ i → k2.pfiles.ofile j = k.pfiles.ofile j) ∧
        k2.vdev_list = k1.vdev_list) ∧
    ((∀ j, j < MAX_FILES → (k.pfiles.ofile j).status ≠ fd_status.FD_NONE) →
      ∃ e, do_open MAX_DEV MAX_FILES k path flags = Except.error e ∧
        (0 < MAX_FILES → e = Fatal.panic "do_open: no file entry for current process!")) := by
  have hp := vfs_open_pfiles _ _ _ _ _ _ _ hres
  have hmode := vfs_open_mode _ _ _ _ _ _ _ hres
  constructor
  · intro i hi
    rw [← hp] at hi
    refine ⟨_, do_open_rfs MAX_DEV MAX_FILES k k1 path flags i node hmode hres hi, ?_⟩
    simp only [↓reduceIte, hp, true_and, and_true]
    intro j hj
    rw [if_neg hj]
  · intro hfull
    rw [← hp] at hfull
    rcases Nat.eq_zero_or_pos MAX_FILES with h0 | hpos
    · subst h0
      have hmode' : ¬ ((flags &&& MASK_FILEMODE) ≠ O_RDONLY ∧
          (flags &&& MASK_FILEMODE) ≠ O_WRONLY ∧ (flags &&& MASK_FILEMODE) ≠ O_RDWR) := by
        rcases hmode with h | h | h <;> simp [h]
      refine ⟨Fatal.fault "pfile is not set", ?_, fun h => absurd h (by omega)⟩
      unfold do_open
      simp only [if_neg hmode', hres, bind, Except.bind, pure, Except.pure, ne_eq,
        not_true_eq_false, ↓reduceIte, do_open_loop, fault]
    · exact ⟨_, do_open_full MAX_DEV MAX_FILES k k1 path flags _ hres hpos hfull, fun _ => rfl⟩

/-- C13 (witness): on the mounted sample kernel, whose file table is empty,
`do_open("ramdisk0:/ramfile", O_RDWR | O_CREATE)` installs descriptor 0; on
the kernel whose 16 entries are all in use, `do_open("ramdisk0:/ramfile",
O_RDWR)` panics. -/
theorem C13_descriptor_installation_witness :
    first_free_fd 16 mounted.pfiles 0 ∧
    (∃ k2, do_open 1 16 mounted (ramdisk0_path ramfile) (O_RDWR ||| O_CREATE) =
        Except.ok (0, k2) ∧
      (k2.pfiles.ofile 0).status = fd_status.FD_OPENED ∧ (k2.pfiles.ofile 0).fd = 0 ∧
      k2.pfiles.nfile = mounted.pfiles.nfile + 1) ∧
    (∀ j, j < 16 → (full_table.pfiles.ofile j).status ≠ fd_status.FD_NONE) ∧
    do_open 1 16 full_table (ramdisk0_path ramfile) O_RDWR =
      Except.error (Fatal.panic "do_open: no file entry for current process!") := by
  have hfree : first_free_fd 16 mounted.pfiles 0 :=
    ⟨by decide, by decide!, fun j hj => absurd hj (by omega)⟩
  have hfull : ∀ j, j < 16 → (full_table.pfiles.ofile j).status ≠ fd_status.FD_NONE := by
    decide!
  refine ⟨hfree, ?_, hfull, ?_⟩
  · obtain ⟨node, k1, h⟩ := vfs_open_returns 1 mounted (ramdisk0_path ramfile)
      (O_RDWR ||| O_CREATE) (by decide!)
    obtain ⟨k2, e1, e2, e3, _, _, _, _, _, e9, _⟩ :=
      (C13_descriptor_installation 1 16 mounted k1 (ramdisk0_path ramfile)
        (O_RDWR ||| O_CREATE) node h).1 0 hfree
    exact ⟨k2, e1, e2, e3, e9⟩
  · obtain ⟨node, k1, h⟩ := vfs_open_returns 1 full_table (ramdisk0_path ramfile) O_RDWR
      (by decide!)
    obtain ⟨e, e1, e2⟩ :=
      (C13_descriptor_installation 1 16 full_table k1 (ramdisk0_path ramfile) O_RDWR node h).2
        hfull
    rw [e1, e2 (by decide)]

/-- C14: let `vfs_open(pathname, flags, &node)` return 0 with the inode `node`,
let `i` be the first free entry of the file table and let no entry before it
carry the descriptor number `i`.  Then `do_open` returns `i` and, on the
resulting kernel: with access mode `O_RDONLY` every `do_write(i, ...)` panics
"cannot write file", with `O_WRONLY` every `do_read(i, ...)` panics "no
readable file", and with `O_RDWR` both calls pass the access check and hand
over to `vop_write` and `vop_read` on `node`, so that neither ends in one of
the two access panics. -/
theorem C14_access_mode_enforcement (MAX_DEV MAX_FILES : Nat) (k k1 : Kernel) (path : Mem)
    (flags : Nat) (node : inode) (i : Nat)
    (hres : vfs_open MAX_DEV k path flags = Except.ok (0, some node, k1))
    (hfree : first_free_fd MAX_FILES k.pfiles i)
    (hbefore : ∀ j, j < i → (k.pfiles.ofile j).fd ≠ (i : Int)) :
    ∃ k2, do_open MAX_DEV MAX_FILES k path flags = Except.ok ((i : Int), k2) ∧
      (flags &&& MASK_FILEMODE = O_RDONLY → ∀ buf count,
        do_write MAX_FILES k2 (i : Int) buf count =
          Except.error (Fatal.panic "do_write: cannot write file!")) ∧
      (flags &&& MASK_FILEMODE = O_WRONLY → ∀ buf count,
        do_read MAX_FILES k2 (i : Int) buf count =
          Except.error (Fatal.panic "do_read: no readable file!")) ∧
      (flags &&& MASK_FILEMODE = O_RDWR → ∀ buf count,
        (do_write MAX_FILES k2 (i : Int) buf count =
          (match vop_write k2 node buf count with
            | Except.ok (_, node1, k3) =>
              Except.ok (0, { k3 with pfiles :=
                { k3.pfiles with ofile := fun j =>
                    if j = i then { k2.pfiles.ofile i with node := some node1 }
                    else k3.pfiles.ofile j } })
            | Except.error e => Except.error e) ∧
          do_write MAX_FILES k2 (i : Int) buf count ≠
            Except.error (Fatal.panic "do_write: cannot write file!")) ∧
        (do_read MAX_FILES k2 (i : Int) buf count =
          (match vop_read k2 node (k2.stack 0) count (k2.stack 1) with
            | Except.ok (_, buffer, k3) => Except.ok (0, strcpy buf buffer, k3)
            | Except.error e => Except.error e) ∧
          do_read MAX_FILES k2 (i : Int) buf count ≠
            Except.error (Fatal.panic "do_read: no readable file!"))) := by
  have hp := vfs_open_pfiles _ _ _ _ _ _ _ hres
  have hmode := vfs_open_mode _ _ _ _ _ _ _ hres
  have hfree1 := hfree
  rw [← hp] at hfree1
  have hb1 : ∀ j, j < i → (k1.pfiles.ofile j).fd ≠ (i : Int) := by
    rw [hp]
    exact hbefore
  obtain ⟨pf, hpf⟩ : ∃ pf : file, pf = ⟨fd_status.FD_OPENED,
      (if flags &&& MASK_FILEMODE = O_RDONLY ∨ flags &&& MASK_FILEMODE = O_RDWR then 1 else 0),
      (if flags &&& MASK_FILEMODE = O_WRONLY ∨ flags &&& MASK_FILEMODE = O_RDWR then 1 else 0),
      (i : Int), 1, node.in_info.size, some node⟩ := ⟨_, rfl⟩
  have hopen : do_open MAX_DEV MAX_FILES k path flags = Except.ok ((i : Int),
      { k1 with pfiles := ⟨fun j => if j = i then pf else k1.pfiles.ofile j,
        k1.pfiles.nfile + 1⟩ }) := by
    rw [hpf]
    exact do_open_rfs MAX_DEV MAX_FILES k k1 path flags i node hmode hres hfree1
  have hfind : find_file_loop (fun j => if j = i then pf else k1.pfiles.ofile j) (i : Int)
      MAX_FILES 0 none = some i :=
    find_installed MAX_FILES k1.pfiles.ofile pf i hfree.1 (by rw [hpf]) hb1
  have hst : (if i = i then pf else k1.pfiles.ofile i).status ≠ fd_status.FD_HOST := by
    rw [if_pos rfl, hpf]
    exact fun h => fd_status.noConfusion h
  have hnode : (if i = i then pf else k1.pfiles.ofile i).node = some node := by
    rw [if_pos rfl, hpf]
  refine ⟨_, hopen, ?_, ?_, ?_⟩
  · intro hm buf count
    exact do_write_denied MAX_FILES _ _ buf count i hfind hst
      (by
        show (if i = i then pf else k1.pfiles.ofile i).writable = 0
        rw [if_pos rfl, hpf]; simp only [hm]; decide)
  · intro hm buf count
    exact do_read_denied MAX_FILES _ _ buf count i hfind hst
      (by
        show (if i = i then pf else k1.pfiles.ofile i).readable = 0
        rw [if_pos rfl, hpf]; simp only [hm]; decide)
  · intro hm buf count
    have hw := do_write_delegates MAX_FILES { k1 with pfiles :=
        ⟨fun j => if j = i then pf else k1.pfiles.ofile j, k1.pfiles.nfile + 1⟩ }
      (i : Int) buf count i node hfind hst
      (by
        show (if i = i then pf else k1.pfiles.ofile i).writable ≠ 0
        rw [if_pos rfl, hpf]; simp only [hm]; decide) hnode
    have hr := do_read_delegates MAX_FILES { k1 with pfiles :=
        ⟨fun j => if j = i then pf else k1.pfiles.ofile j, k1.pfiles.nfile + 1⟩ }
      (i : Int) buf count i node hfind hst
      (by
        show (if i = i then pf else k1.pfiles.ofile i).readable ≠ 0
        rw [if_pos rfl, hpf]; simp only [hm]; decide) hnode
    refine ⟨⟨hw, ?_⟩, ⟨hr, ?_⟩⟩
    · rw [hw]
      split
      · exact fun h => Except.noConfusion h
      · rename_i e he
        intro hh
        injection hh with hh
        rcases vop_write_error _ _ _ _ _ he with h | h | h <;> rw [h] at hh <;> revert hh <;>
          decide
    · rw [hr]
      split
      · exact fun h => Except.noConfusion h
      · rename_i e he
        intro hh
        injection hh with hh
        rcases vop_read_error _ _ _ _ _ _ he with h | h <;> rw [h] at hh <;> revert hh <;>
          decide

/-- C14 (witness): on the mounted sample kernel the file "ramdisk0:/ramfile"
is created and opened as descriptor 0 with each of the three access modes. -/
theorem C14_access_mode_enforcement_witness :
    (∃ k2, do_open 1 16 mounted (ramdisk0_path ramfile) (O_RDONLY ||| O_CREATE) =
        Except.ok (0, k2) ∧
      do_write 16 k2 0 hello 6 = Except.error (Fatal.panic "do_write: cannot write file!")) ∧
    (∃ k2, do_open 1 16 mounted (ramdisk0_path ramfile) (O_WRONLY ||| O_CREATE) =
        Except.ok (0, k2) ∧
      do_read 16 k2 0 (fun _ => 0) 512 =
        Except.error (Fatal.panic "do_read: no readable file!")) ∧
    (∃ k2, do_open 1 16 mounted (ramdisk0_path ramfile) (O_RDWR ||| O_CREATE) =
        Except.ok (0, k2) ∧
      do_write 16 k2 0 hello 6 ≠ Except.error (Fatal.panic "do_write: cannot write file!") ∧
      do_read 16 k2 0 (fun _ => 0) 512 ≠
        Except.error (Fatal.panic "do_read: no readable file!")) := by
  have hfree : first_free_fd 16 mounted.pfiles 0 :=
    ⟨by decide, by decide!, fun j hj => absurd hj (by omega)⟩
  have hb : ∀ j, j < 0 → (mounted.pfiles.ofile j).fd ≠ ((0 : Nat) : Int) :=
    fun j hj => absurd hj (by omega)
  refine ⟨?_, ?_, ?_⟩
  · obtain ⟨node, k1, h⟩ := vfs_open_returns 1 mounted (ramdisk0_path ramfile)
      (O_RDONLY ||| O_CREATE) (by decide!)
    obtain ⟨k2, e1, e2, _, _⟩ := C14_access_mode_enforcement 1 16 mounted k1
      (ramdisk0_path ramfile) (O_RDONLY ||| O_CREATE) node 0 h hfree hb
    exact ⟨k2, e1, e2 (by decide) hello 6⟩
  · obtain ⟨node, k1, h⟩ := vfs_open_returns 1 mounted (ramdisk0_path ramfile)
      (O_WRONLY ||| O_CREATE) (by decide!)
    obtain ⟨k2, e1, _, e3, _⟩ := C14_access_mode_enforcement 1 16 mounted k1
      (ramdisk0_path ramfile) (O_WRONLY ||| O_CREATE) node 0 h hfree hb
    exact ⟨k2, e1, e3 (by decide) (fun _ => 0) 512⟩
  · obtain ⟨node, k1, h⟩ := vfs_open_returns 1 mounted (ramdisk0_path ramfile)
      (O_RDWR ||| O_CREATE) (by decide!)
    obtain ⟨k2, e1, _, _, e4⟩ := C14_access_mode_enforcement 1 16 mounted k1
      (ramdisk0_path ramfile) (O_RDWR ||| O_CREATE) node 0 h hfree hb
    exact ⟨k2, e1, (e4 (by decide) hello 6).1.2, (e4 (by decide) (fun _ => 0) 512).2.2⟩

/-- C12 (counterexample): on the mounted sample kernel the name "ramfile" is
not in the root directory (`vfs_lookup` returns 1), inode slot 1 and data
block 1 are free, and the flags 0x203 have the `O_CREATE` bit set; yet
`vfs_open` does not return 0: the access mode 3 makes it panic. -/
theorem C12_create_with_access_mode_3_is_fatal :
    observe (vfs_lookup 1 mounted (ramdisk0_path ramfile)) (fun r => r.1) = some 1 ∧
    observe (get_fs mounted 0)
      (fun fs => (din_type (fs.dev.blocks (RFS_BLKN_INODE + 1)), rd32 fs.freemap (4 * 1))) =
      some (T_FREE, 0) ∧
    (O_CREATE ||| 3) &&& O_CREATE ≠ 0 ∧
    fatal_of (vfs_open 1 mounted (ramdisk0_path ramfile) (O_CREATE ||| 3)) =
      some (Fatal.panic "fs_open: invalid open flags!") := by
  decide!

/-- C12 (amended): let `path` be a device path whose device is entry `i` of the
device table, with a root directory that can take one more entry and holds no
entry named as the file-name part of `path` (shorter than the 28 bytes of an
entry name); let inode slot `kk` be the first free slot and data block `f`
the first free block; let the access mode of `flags` be `O_RDONLY`, `O_WRONLY`
or `O_RDWR`.  With the `O_CREATE` bit clear `vfs_open` panics "open a
non-existent-uncreatable file".  With the bit set `vfs_open` returns 0 with an
inode whose reference count is 1, and a `vfs_lookup` of the same path on the
resulting kernel returns 0 and stores an inode. -/
theorem C12_open_missing_file (MAX_DEV : Nat) (k : Kernel) (path devname : Mem) (c i : Nat)
    (prfs : rfs_fs) (flags kk f : Nat) (hp : device_path path devname c)
    (hdev : device_at MAX_DEV k devname i) (hfs : get_fs k i = Except.ok prfs)
    (hdir : dir_ready (dinode_of (prfs.dev.blocks RFS_BLKN_INODE)))
    (hname : strlen (ptr_add path (c + 2)) < 28)
    (hno : ∀ j, j < rfs_lookup_nde (root_inode i prfs).in_info →
      strcmp (dir_entry_name prfs (root_inode i prfs).in_info j) (ptr_add path (c + 2)) ≠ 0)
    (hk : kk < RFS_MAX_INODE_NUM)
    (hkfree : din_type (prfs.dev.blocks (RFS_BLKN_INODE + kk)) = T_FREE)
    (hkused : ∀ j, j < kk → din_type (prfs.dev.blocks (RFS_BLKN_INODE + j)) ≠ T_FREE)
    (hf : f < prfs.super.nblocks) (hffree : rd32 prfs.freemap (4 * f) = 0)
    (hfused : ∀ j, j < f → rd32 prfs.freemap (4 * j) ≠ 0)
    (hmode : flags &&& MASK_FILEMODE = O_RDONLY ∨ flags &&& MASK_FILEMODE = O_WRONLY ∨
      flags &&& MASK_FILEMODE = O_RDWR) :
    (flags &&& O_CREATE = 0 →
      vfs_open MAX_DEV k path flags =
        Except.error (Fatal.panic "vfs_open: open a non-existent-uncreatable file!")) ∧
    (flags &&& O_CREATE ≠ 0 →
      ∃ node k1, vfs_open MAX_DEV k path flags = Except.ok (0, some node, k1) ∧
        node.ref = 1 ∧
        ∃ node2 k2, vfs_lookup MAX_DEV k1 path = Except.ok (0, some node2, k2)) := by
  have hroot : din_type (prfs.dev.blocks RFS_BLKN_INODE) = T_DIR := hdir.1
  constructor
  · intro hcreat
    exact vfs_open_missing MAX_DEV k path devname c i prfs flags hp hdev hfs hroot hno hmode
      hcreat
  · intro hcreat
    have hpre := dir_ready_create_pre prfs i kk f hdir hk hkfree hkused hf hffree hfused
    obtain ⟨node, rfs1, hopen, hpost⟩ := vfs_open_create MAX_DEV k path devname c i prfs flags
      kk f hp hdev hfs hroot hno hmode hcreat hpre
    obtain ⟨d, hd⟩ := get_fs_slot k i prfs hfs
    have hnode := hpost.1
    have hb1 : rfs1.dev.blocks RFS_BLKN_INODE =
        wr32 (prfs.dev.blocks RFS_BLKN_INODE) 0
          (din_size (prfs.dev.blocks RFS_BLKN_INODE) + sizeof_rfs_direntry) := hpost.2.2.2.2.1
    obtain ⟨r1, _, _, r4, r5⟩ := root_after_create prfs rfs1 i hdir hb1
    obtain ⟨m1, m2, m3, m4⟩ := entries_after_create prfs rfs1 i kk f (ptr_add path (c + 2)) node
      hdir hname hk hpost
    have hl := vfs_lookup_found MAX_DEV (set_fs k i rfs1) path devname c i rfs1
      (din_size (prfs.dev.blocks RFS_BLKN_INODE) / sizeof_rfs_direntry) hp
      (device_at_same_env MAX_DEV k _ devname i (same_env_set_fs k i _) hdev)
      (get_fs_set_fs k i rfs1 d hd) r1 (by rw [r5]; omega) m1
      (fun j hj => fun h => hno j (by rw [r4]; exact hj) ((m4 j hj).1 h))
      (by rw [m2]; exact m3)
    refine ⟨_, _, hopen, ?_, _, _, hl⟩
    rw [hnode]

/-- C12 (witness): the path "ramdisk0:/ramfile" on the mounted sample kernel,
where inode slot 1 and data block 1 are the first free ones. -/
theorem C12_open_missing_file_witness :
    vfs_open 1 mounted (ramdisk0_path ramfile) O_RDWR =
      Except.error (Fatal.panic "vfs_open: open a non-existent-uncreatable file!") ∧
    ∃ node k1, vfs_open 1 mounted (ramdisk0_path ramfile) (O_RDWR ||| O_CREATE) =
        Except.ok (0, some node, k1) ∧ node.ref = 1 ∧
      ∃ node2 k2, vfs_lookup 1 k1 (ramdisk0_path ramfile) = Except.ok (0, some node2, k2) := by
  have hdir : dir_ready (dinode_of (mounted_fs.dev.blocks RFS_BLKN_INODE)) := by
    unfold dir_ready
    decide!
  have h := fun flags hmode => C12_open_missing_file 1 mounted (ramdisk0_path ramfile) ramdisk0
    8 0 mounted_fs flags 1 1 (ramdisk0_path_device ramfile) device_at_mounted get_fs_mounted
    hdir (by decide) (by decide!) (by decide) (by decide!) (by decide!) (by decide!)
    (by decide!) (by decide!) hmode
  exact ⟨(h O_RDWR (by decide)).1 (by decide), (h (O_RDWR ||| O_CREATE) (by decide)).2
    (by decide)⟩

/-- C21 (failing input): on an all-zero RAM disk, after mount and `rfs_create`
of "ramfile", an `rfs_write` of the 45055 letters `A` and their terminator
(45056 bytes, 11 blocks) runs its loop up to index 10: it stores the block
number 23 in `addrs[10]`, one past the `RFS_NDIRECT = 10` entries of the
array, and leaves `blocks = 11` in the in-memory inode and in the dinode on the
device. -/
theorem C21_write_of_eleven_blocks_overruns_addrs :
    strlen (letters 45055) + 1 = 45056 ∧ RFS_NDIRECT = 10 ∧
    observe (create_then_write (letters 45055) 45056)
      (fun r => (r.1.inum, r.1.in_info.blocks, r.1.in_info.addrs 9, r.1.in_info.addrs 10,
        din_blocks (r.2.dev.blocks 2), din_size (r.2.dev.blocks 2))) =
      some (2, 11, 22, 23, 11, 45056) := by
  decide!

/-- C22 (failing input): in the file system that holds the root directory in
block 1 and the file "ramfile" in block 2, `rfs_load_dinode` with `ino = 2`
returns 0 with an inode numbered 2 whose fields are those of the dinode in
block `RFS_BLKN_INODE = 1`, the root directory (size 64, type `T_DIR`, first
block 12), not those of the dinode stored at block 2 (size 0, type `T_FILE`,
first block 13). -/
theorem C22_load_dinode_reads_the_root_block :
    observe (rfs_load_dinode 0 fs_with_ramfile 2) (fun r => (r.1, r.2.1.inum)) = some (0, 2) ∧
    observe (rfs_load_dinode 0 fs_with_ramfile 2) (fun r => dinode_fields r.2.1.in_info) =
      some [64, T_DIR, 1, 1, 12, 0] ∧
    dinode_fields (dinode_of (fs_with_ramfile.dev.blocks 2)) = [0, T_FILE, 1, 1, 13, 0] ∧
    dinode_fields (dinode_of (fs_with_ramfile.dev.blocks 1)) = [64, T_DIR, 1, 1, 12, 0] := by
  decide!

/-- C23 (failing input): on an all-zero RAM disk, after mount, `rfs_create` of
"ramfile" and an `rfs_write` of 4098 bytes (4097 letters `A` and their
terminator) through the created inode, the in-memory inode (number 2) has
size 4098, two blocks and `addrs = 13, 14`, while the dinode on the device at
block 2 has size 4098, two blocks and `addrs = 13, 0`: the second address was
never written.  The inode that `rfs_lookup` then materializes has
`addrs[1] = 0`, the superblock, not the data block 14. -/
theorem C23_second_block_address_not_on_disk :
    4098 ≤ RFS_NDIRECT * RFS_BLKSIZE ∧
    observe (write_then_lookup (letters 4097) 4098)
      (fun r => (r.1.inum, dinode_fields r.1.in_info)) =
      some (2, [4098, T_FILE, 1, 2, 13, 14]) ∧
    observe (write_then_lookup (letters 4097) 4098)
      (fun r => dinode_fields (dinode_of (r.2.2.dev.blocks 2))) =
      some [4098, T_FILE, 1, 2, 13, 0] ∧
    observe (write_then_lookup (letters 4097) 4098)
      (fun r => dinode_fields r.2.1.in_info) =
      some [4098, T_FILE, 1, 2, 13, 0] := by
  decide!

/-- C24 (failing input): on an all-zero RAM disk, after mount, `rfs_create` of
"ramfile", an `rfs_write` of 4098 bytes through the created inode and an
`rfs_lookup` of "ramfile", an `rfs_write` of the same 4098 bytes through the
inode that the lookup materialized changes block 0: the superblock, which
held `RFS_MAGIC`, size 112, 100 data blocks and 10 inodes, holds other words
afterwards (the second block of the write goes to `addrs[1] = 0`).  The
bitmap block, the root dinode, the root data block and the dinode of the file
are as before. -/
theorem C24_write_through_looked_up_inode_hits_superblock :
    4098 ≤ RFS_NDIRECT * RFS_BLKSIZE ∧
    observe (lookup_then_write (letters 4097) 4098)
      (fun r => (rd32 (r.1.dev.blocks RFS_BLKN_SUPER) 0, rd32 (r.1.dev.blocks RFS_BLKN_SUPER) 4,
        rd32 (r.1.dev.blocks RFS_BLKN_SUPER) 8, rd32 (r.1.dev.blocks RFS_BLKN_SUPER) 12)) =
      some (RFS_MAGIC, 112, 100, 10) ∧
    observe (lookup_then_write (letters 4097) 4098)
      (fun r => (rd32 (r.2.dev.blocks RFS_BLKN_SUPER) 0, rd32 (r.2.dev.blocks RFS_BLKN_SUPER) 4,
        rd32 (r.2.dev.blocks RFS_BLKN_SUPER) 8, rd32 (r.2.dev.blocks RFS_BLKN_SUPER) 12)) =
      some (4098, 0, 0, 2) ∧
    observe (lookup_then_write (letters 4097) 4098)
      (fun r => (same_block r.1.dev r.2.dev RFS_BLKN_SUPER,
        same_block r.1.dev r.2.dev RFS_BLKN_BITMAP, same_block r.1.dev r.2.dev RFS_BLKN_INODE,
        same_block r.1.dev r.2.dev RFS_BLKN_FREE, same_block r.1.dev r.2.dev 2)) =
      some (false, true, true, true, true) := by
  decide!

end RFS
